import Mathlib

/-!
# Confirmation and redemption engine of bat-native-ads

Shallow embedding of
`vendor/bat-native-ads/src/bat/ads/internal/account/confirmations/confirmations.cc`.

The engine is single threaded: every method runs to completion on one sequence.
Its mutable state (the `ConfirmationsState` singleton, the retry timer, the
delegate pointer) is one record, `Confirmations`, passed explicitly.  Calls that
leave the engine (`delegate_->...`, `redeem_unblinded_token_->Redeem`,
`user_data_builder.Build`) are recorded in that record, so that what was sent
out is part of the state a theorem can talk about.  Everything the engine only
reads from its collaborators during one call is collected in `Env`.
`DCHECK`s are debug assertions and `BLOG` is logging: neither changes the state,
the conditions of the `DCHECK`s are given as predicates (`IsValid`).
The `double` arithmetic of `GenerateTokensForValue` is a parameter of the
engine (`DoubleOps`); `ieeeOps` is that arithmetic on IEEE 754 binary64 bit
patterns.

The definitions of `future_join.h` (bat-native-ledger) follow those of the
engine, in the namespace `ledger`; the theorems come after all definitions.
-/

namespace ads

/-! ## Data model -/

/-- A C++ `double`, carried verbatim as its 64-bit pattern.  The engine copies
such values around; the only arithmetic on them is in `GenerateTokensForValue`,
and is taken from `DoubleOps`. -/
structure Double where
  bits : Nat
  deriving DecidableEq, Repr

/-- The arithmetic on `double` used by `GenerateTokensForValue`: the constant
`0.0`, `operator>`, `operator/`, `ceil` and `static_cast<int>`. -/
structure DoubleOps where
  zero : Double
  gt : Double → Double → Bool
  div : Double → Double → Double
  ceil : Double → Double
  toInt : Double → Int

/-- Modelled from the spec: `base::Time`, whose declaration is not part of the
sources; a timestamp that is only copied. -/
structure Time where
  ticks : Int
  deriving DecidableEq, Repr

/-- Modelled from the spec: `base::Value`, the payload handed over by the
user-data provider; opaque to the engine. -/
structure Value where
  content : String
  deriving DecidableEq, Repr

/-- Modelled from the spec: `ConfirmationType`, an enumerated tag with an
"undefined" sentinel (`ConfirmationType::kUndefined`). -/
inductive ConfirmationType where
  | kUndefined
  | kDefined (tag : Nat)
  deriving DecidableEq, Repr

/-- Modelled from the spec: `AdType`, an enumerated tag with an "undefined"
sentinel (`AdType::kUndefined`). -/
inductive AdType where
  | kUndefined
  | kDefined (tag : Nat)
  deriving DecidableEq, Repr

/-- Modelled from the spec: `privacy::UnblindedTokenInfo`, a spendable
credential, compared by exact match. -/
structure UnblindedTokenInfo where
  value : String
  deriving DecidableEq, Repr

/-- Modelled from the spec: `privacy::UnblindedPaymentTokenInfo`, the proof of
reward received after a successful redemption, compared by exact match. -/
structure UnblindedPaymentTokenInfo where
  value : String
  deriving DecidableEq, Repr

/-- Modelled from the spec: `privacy::cbr::Token`, a freshly generated token. -/
structure Token where
  value : String
  deriving DecidableEq, Repr

/-- Modelled from the spec: `privacy::cbr::BlindedToken`. -/
structure BlindedToken where
  value : String
  deriving DecidableEq, Repr

/-- Modelled from the spec: `ConfirmationInfo` (section 3, "Confirmation"),
whose declaration is not part of the sources.  The field names are the ones
`confirmations.cc` assigns; `unblinded_token` and `credential` are optional as in
the spec, and the default values are those of a default-constructed record. -/
structure ConfirmationInfo where
  id : String := ""
  transaction_id : String := ""
  creative_instance_id : String := ""
  type : ConfirmationType := ConfirmationType.kUndefined
  ad_type : AdType := AdType.kUndefined
  value : Double := ⟨0⟩
  created_at : Time := ⟨0⟩
  unblinded_token : Option UnblindedTokenInfo := none
  tokens : List Token := []
  blinded_tokens : List BlindedToken := []
  user_data : String := ""
  credential : Option String := none
  was_created : Bool := false
  deriving DecidableEq, Repr

/-- Modelled from the spec: `ConfirmationInfo::IsValid` - "a Confirmation is
valid iff id, transaction_id, creative_instance_id, confirmation_type, ad_type
are all set/non-undefined". -/
def ConfirmationInfo.IsValid (c : ConfirmationInfo) : Bool :=
  !c.id.isEmpty && !c.transaction_id.isEmpty && !c.creative_instance_id.isEmpty
    && c.type != ConfirmationType.kUndefined && c.ad_type != AdType.kUndefined

/-- Modelled from the spec: `TransactionInfo`, of which `Confirm` reads `id`,
`creative_instance_id`, `confirmation_type`, `ad_type` and `value`. -/
structure TransactionInfo where
  id : String
  creative_instance_id : String
  confirmation_type : ConfirmationType
  ad_type : AdType
  value : Double
  deriving DecidableEq, Repr

/-- Modelled from the spec: `TransactionInfo::IsValid`, the precondition of
`Confirm` ("non-empty transaction_id and creative_instance_id, and a defined
confirmation_type/ad_type"). -/
def TransactionInfo.IsValid (t : TransactionInfo) : Bool :=
  !t.id.isEmpty && !t.creative_instance_id.isEmpty
    && t.confirmation_type != ConfirmationType.kUndefined && t.ad_type != AdType.kUndefined

/-- Modelled from the spec: the retry `Timer` (section 4.3): "Idle (no timer
running)" or "Scheduled (a single backoff timer is armed)".  `Scheduled` keeps
the delay, in seconds, that was passed to `StartWithPrivacy`. -/
inductive TimerState where
  | Idle
  | Scheduled (delay_seconds : Int)
  deriving DecidableEq, Repr

/-- Modelled from the spec: `Timer::IsRunning`. -/
def TimerState.IsRunning : TimerState → Bool
  | TimerState.Idle => false
  | TimerState.Scheduled _ => true

/-- A call made on `delegate_` (the observer). -/
inductive Notification where
  | OnDidConfirm (confirmation : ConfirmationInfo)
  | OnFailedToConfirm (confirmation : ConfirmationInfo)
  | OnIssuersOutOfDate
  deriving DecidableEq, Repr

/-- A call `redeem_unblinded_token_->Redeem(confirmation)` that has not been
answered yet.  `by_retry` tells the call site: `true` for the call in `OnRetry`
(an entry drained from the retry queue), `false` for the call in `Confirm`. -/
structure Redemption where
  by_retry : Bool
  confirmation : ConfirmationInfo
  deriving DecidableEq, Repr

/-- The two closures of `confirmations.cc` that are handed to
`ConfirmationsUserDataBuilder::Build`: the one in `Confirm`, which captures
`now` and the transaction, and the one in
`CreateNewConfirmationAndAppendToRetryQueue`, which captures the confirmation. -/
inductive UserDataCallback where
  | confirm (now : Time) (transaction : TransactionInfo)
  | rebuild (confirmation : ConfirmationInfo)
  deriving DecidableEq, Repr

/-- The engine: the members of `Confirmations` (`retry_timer_`, `delegate_`) and
the collections of the `ConfirmationsState` singleton it works on, together with
the record of what has left the engine:
* `delegate_calls`: the calls made on the delegate, oldest first;
* `redeeming`: the confirmations handed to `redeem_unblinded_token_->Redeem`
  whose outcome has not been reported yet;
* `posted`: the callbacks handed to the user-data builder that have not run yet.
-/
structure Confirmations where
  unblinded_tokens : List UnblindedTokenInfo := []
  unblinded_payment_tokens : List UnblindedPaymentTokenInfo := []
  failed_confirmations : List ConfirmationInfo := []
  retry_timer_ : TimerState := TimerState.Idle
  delegate_ : Bool := false
  delegate_calls : List Notification := []
  redeeming : List Redemption := []
  posted : List UserDataCallback := []
  deriving DecidableEq, Repr

/-- What one call of an engine method obtains from its collaborators:
* `ShouldRewardUser`: the reward-eligibility predicate of `account_util.h`;
* `GenerateRandomV4`: the string of `base::GUID::GenerateRandomV4()`;
* `smallest_denomination`: the result of
  `GetSmallestNonZeroDenominationForIssuerType(IssuerType::kPayments)`;
* `ops`: the `double` arithmetic;
* `Generate`: `token_generator_->Generate(count)`;
* `BlindTokens`, `JSONWrite`, `CreateConfirmationRequestDTO`, `CreateCredential`;
* `Build`: what `ConfirmationsUserDataBuilder(time, creative_instance_id,
  type).Build(callback)` does with its callback: `some user_data` when the
  callback is run with `user_data` before `Build` returns, `none` when it is
  posted and runs later, as its own step (`RunUserDataCallback`). -/
structure Env where
  ShouldRewardUser : Bool
  GenerateRandomV4 : String
  smallest_denomination : Option Double
  ops : DoubleOps
  Generate : Int → List Token
  BlindTokens : List Token → List BlindedToken
  JSONWrite : Value → String
  CreateConfirmationRequestDTO : ConfirmationInfo → String
  CreateCredential : UnblindedTokenInfo → String → String
  Build : Time → String → ConfirmationType → Option Value

/-! ## The token ledger and the state singleton -/

/-- Modelled from the spec: `UnblindedTokens::IsEmpty` (section 4.4; the unspent
token "count may reach zero"). -/
def UnblindedTokens.IsEmpty (tokens : List UnblindedTokenInfo) : Bool :=
  tokens.isEmpty

/-- Modelled from the spec: `UnblindedTokens::GetToken`, the first half of
"TakeToken() -> token or empty signal; ... returns the oldest ... unspent
token". -/
def UnblindedTokens.GetToken (tokens : List UnblindedTokenInfo) : Option UnblindedTokenInfo :=
  tokens.head?

/-- Modelled from the spec: `UnblindedTokens::RemoveToken`, the second half of
`TakeToken`: removes the given token (one occurrence, by exact match). -/
def UnblindedTokens.RemoveToken (unblinded_token : UnblindedTokenInfo)
    (tokens : List UnblindedTokenInfo) : List UnblindedTokenInfo :=
  tokens.erase unblinded_token

/-- Modelled from the spec: `UnblindedPaymentTokens::TokenExists` - "boolean
exact-match membership test". -/
def UnblindedPaymentTokens.TokenExists (unblinded_payment_token : UnblindedPaymentTokenInfo)
    (tokens : List UnblindedPaymentTokenInfo) : Bool :=
  tokens.contains unblinded_payment_token

/-- Modelled from the spec: `UnblindedPaymentTokens::AddTokens` -
"AddPaymentToken(token): append". -/
def UnblindedPaymentTokens.AddTokens (added tokens : List UnblindedPaymentTokenInfo) :
    List UnblindedPaymentTokenInfo :=
  tokens ++ added

/-- Modelled from the spec: `UnblindedPaymentTokens::Count`. -/
def UnblindedPaymentTokens.Count (tokens : List UnblindedPaymentTokenInfo) : Nat :=
  tokens.length

/-- Modelled from the spec: `ConfirmationsState::GetFailedConfirmations`, the
retry queue, oldest entry first.  The caller gets the entries as values: what
`OnRetry` reads as `front()` stays the entry it read while the queue changes. -/
def GetFailedConfirmations (s : Confirmations) : List ConfirmationInfo :=
  s.failed_confirmations

/-- Modelled from the spec: `ConfirmationsState::AppendFailedConfirmation`: the
queue is "first-in-first-out", the entry goes to the tail. -/
def AppendFailedConfirmation (confirmation : ConfirmationInfo) (s : Confirmations) :
    Confirmations :=
  { s with failed_confirmations := s.failed_confirmations ++ [confirmation] }

/-- Modelled from the spec: `ConfirmationsState::RemoveFailedConfirmation`:
removes the oldest entry that carries the id of `confirmation` ("id: globally
unique identifier") and tells whether there was one. -/
def RemoveFailedConfirmation (confirmation : ConfirmationInfo) (s : Confirmations) :
    Bool × Confirmations :=
  (s.failed_confirmations.any (fun info => info.id == confirmation.id),
   { s with failed_confirmations :=
       s.failed_confirmations.eraseP (fun info => info.id == confirmation.id) })

/-! ## Collaborators -/

/-- Modelled from the spec: `Timer::StartWithPrivacy(delay, callback)`: arms the
timer; the callback is always `OnRetry`. -/
def StartWithPrivacy (delay_seconds : Int) (s : Confirmations) : Confirmations :=
  { s with retry_timer_ := TimerState.Scheduled delay_seconds }

/-- Modelled from the spec: `Timer::Stop` - "cancels a Scheduled timer". -/
def Stop (s : Confirmations) : Confirmations :=
  { s with retry_timer_ := TimerState.Idle }

/-- Modelled from the spec: `RedeemUnblindedToken::Redeem` (the Redemption
Transport boundary): the confirmation is handed over and the outcome is
reported later, through one of the four delegate callbacks. -/
def Redeem (by_retry : Bool) (confirmation : ConfirmationInfo) (s : Confirmations) :
    Confirmations :=
  { s with redeeming := s.redeeming ++ [⟨by_retry, confirmation⟩] }

/-- The guarded delegate call `if (delegate_) delegate_->...`. -/
def Notify (n : Notification) (s : Confirmations) : Confirmations :=
  if s.delegate_ then { s with delegate_calls := s.delegate_calls ++ [n] } else s

/-! ## confirmations.cc -/

/-- The constant `kRetryAfterSeconds`. -/
def kRetryAfterSeconds : Int := 15

/-- The number passed to `token_generator_->Generate` by
`GenerateTokensForValue`. -/
def token_count (env : Env) (value : Double) : Int :=
  if env.ops.gt value env.ops.zero then
    match env.smallest_denomination with
    | some smallest_denomination =>
        env.ops.toInt (env.ops.ceil (env.ops.div value smallest_denomination))
    | none => 1
  else 1

/-- `Confirmations::GenerateTokensForValue`. -/
def GenerateTokensForValue (env : Env) (value : Double) : List Token :=
  env.Generate (token_count env value)

/-- `Confirmations::CreateConfirmation`.  Returns the confirmation and the
state after the call (the method is `const`, but it takes a token out of the
`ConfirmationsState` singleton). -/
def CreateConfirmation (env : Env) (time : Time) (transaction_id : String)
    (creative_instance_id : String) (confirmation_type : ConfirmationType)
    (ad_type : AdType) (value : Double) (user_data : Value) (s : Confirmations) :
    ConfirmationInfo × Confirmations :=
  let confirmation : ConfirmationInfo :=
    { id := env.GenerateRandomV4
      transaction_id := transaction_id
      creative_instance_id := creative_instance_id
      type := confirmation_type
      ad_type := ad_type
      value := value
      created_at := time }
  if env.ShouldRewardUser && !UnblindedTokens.IsEmpty s.unblinded_tokens then
    match UnblindedTokens.GetToken s.unblinded_tokens with
    | some unblinded_token =>
        let confirmation := { confirmation with unblinded_token := some unblinded_token }
        let confirmation := { confirmation with tokens := GenerateTokensForValue env value }
        let confirmation :=
          { confirmation with blinded_tokens := env.BlindTokens confirmation.tokens }
        let confirmation := { confirmation with user_data := env.JSONWrite user_data }
        let payload := env.CreateConfirmationRequestDTO confirmation
        let confirmation :=
          { confirmation with credential := some (env.CreateCredential unblinded_token payload) }
        (confirmation,
         { s with unblinded_tokens :=
             UnblindedTokens.RemoveToken unblinded_token s.unblinded_tokens })
    | none => (confirmation, s)
  else
    (confirmation, s)

/-- `Confirmations::AppendToRetryQueue`. -/
def AppendToRetryQueue (confirmation : ConfirmationInfo) (s : Confirmations) : Confirmations :=
  AppendFailedConfirmation confirmation s

/-- `Confirmations::RemoveFromRetryQueue`: both branches leave the state as
`RemoveFailedConfirmation` left it (they differ in what is logged and saved). -/
def RemoveFromRetryQueue (confirmation : ConfirmationInfo) (s : Confirmations) : Confirmations :=
  let r := RemoveFailedConfirmation confirmation s
  if !r.1 then r.2 else r.2

/-- The body of a closure handed to `ConfirmationsUserDataBuilder::Build`, run
with the user data the builder produced:
* in `Confirm`: `CreateConfirmation` of the transaction, then `Redeem`;
* in `CreateNewConfirmationAndAppendToRetryQueue`: `CreateConfirmation` from the
  fields of the captured confirmation, then `AppendToRetryQueue`. -/
def RunUserDataCallback (env : Env) (callback : UserDataCallback) (user_data : Value)
    (s : Confirmations) : Confirmations :=
  match callback with
  | UserDataCallback.confirm now transaction =>
      let r := CreateConfirmation env now transaction.id transaction.creative_instance_id
        transaction.confirmation_type transaction.ad_type transaction.value user_data s
      Redeem false r.1 r.2
  | UserDataCallback.rebuild confirmation =>
      let r := CreateConfirmation env confirmation.created_at confirmation.transaction_id
        confirmation.creative_instance_id confirmation.type confirmation.ad_type
        confirmation.value user_data s
      AppendToRetryQueue r.1 r.2

/-- The call `user_data_builder.Build(callback)` for a builder constructed from
`(time, creative_instance_id, confirmation_type)`: the callback runs at once
with the user data, or is posted. -/
def Build (env : Env) (time : Time) (creative_instance_id : String)
    (confirmation_type : ConfirmationType) (callback : UserDataCallback)
    (s : Confirmations) : Confirmations :=
  match env.Build time creative_instance_id confirmation_type with
  | some user_data => RunUserDataCallback env callback user_data s
  | none => { s with posted := s.posted ++ [callback] }

/-- `Confirmations::Confirm`, called at time `now`. -/
def Confirm (env : Env) (now : Time) (transaction : TransactionInfo) (s : Confirmations) :
    Confirmations :=
  Build env now transaction.creative_instance_id transaction.confirmation_type
    (UserDataCallback.confirm now transaction) s

/-- `Confirmations::Retry`. -/
def Retry (s : Confirmations) : Confirmations :=
  let failed_confirmations := GetFailedConfirmations s
  if failed_confirmations.isEmpty then s
  else StartWithPrivacy kRetryAfterSeconds s

/-- `Confirmations::ProcessRetryQueue`. -/
def ProcessRetryQueue (s : Confirmations) : Confirmations :=
  if s.retry_timer_.IsRunning then s else Retry s

/-- `Confirmations::OnRetry`.  `none` when the queue is empty: `front()` of an
empty list has no value (the `DCHECK` excludes it). -/
def OnRetry (s : Confirmations) : Option Confirmations :=
  let failed_confirmations := GetFailedConfirmations s
  match failed_confirmations.head? with
  | none => none
  | some confirmation =>
      some (Redeem true confirmation (RemoveFromRetryQueue confirmation s))

/-- `Confirmations::StopRetrying`. -/
def StopRetrying (s : Confirmations) : Confirmations :=
  Stop s

/-- `Confirmations::CreateNewConfirmationAndAppendToRetryQueue`. -/
def CreateNewConfirmationAndAppendToRetryQueue (env : Env) (confirmation : ConfirmationInfo)
    (s : Confirmations) : Confirmations :=
  if UnblindedTokens.IsEmpty s.unblinded_tokens then
    AppendToRetryQueue confirmation s
  else
    Build env confirmation.created_at confirmation.creative_instance_id confirmation.type
      (UserDataCallback.rebuild confirmation) s

/-- `Confirmations::OnDidSendConfirmation`. -/
def OnDidSendConfirmation (confirmation : ConfirmationInfo) (s : Confirmations) :
    Confirmations :=
  ProcessRetryQueue (StopRetrying (Notify (Notification.OnDidConfirm confirmation) s))

/-- `Confirmations::OnFailedToSendConfirmation`. -/
def OnFailedToSendConfirmation (confirmation : ConfirmationInfo) (should_retry : Bool)
    (s : Confirmations) : Confirmations :=
  let s := if should_retry then AppendToRetryQueue confirmation s else s
  ProcessRetryQueue (Notify (Notification.OnFailedToConfirm confirmation) s)

/-- `Confirmations::OnFailedToRedeemUnblindedToken`. -/
def OnFailedToRedeemUnblindedToken (env : Env) (confirmation : ConfirmationInfo)
    (should_retry : Bool) (s : Confirmations) : Confirmations :=
  let s :=
    if should_retry then
      if !confirmation.was_created then
        CreateNewConfirmationAndAppendToRetryQueue env confirmation s
      else
        AppendToRetryQueue confirmation s
    else s
  ProcessRetryQueue (Notify (Notification.OnFailedToConfirm confirmation) s)

/-- `Confirmations::OnDidRedeemUnblindedToken`. -/
def OnDidRedeemUnblindedToken (env : Env) (confirmation : ConfirmationInfo)
    (unblinded_payment_token : UnblindedPaymentTokenInfo) (s : Confirmations) :
    Confirmations :=
  if UnblindedPaymentTokens.TokenExists unblinded_payment_token s.unblinded_payment_tokens then
    OnFailedToRedeemUnblindedToken env confirmation false s
  else
    let s := { s with unblinded_payment_tokens :=
      UnblindedPaymentTokens.AddTokens [unblinded_payment_token] s.unblinded_payment_tokens }
    ProcessRetryQueue (StopRetrying (Notify (Notification.OnDidConfirm confirmation) s))

/-- `Confirmations::OnIssuersOutOfDate`. -/
def OnIssuersOutOfDate (s : Confirmations) : Confirmations :=
  Notify Notification.OnIssuersOutOfDate s

/-! ## The engine as a transition system -/

/-- The answer of the redemption client to one `Redeem`: which of the four
delegate callbacks of `RedeemUnblindedTokenDelegate` it invokes, with the
arguments besides the confirmation. -/
inductive Outcome where
  | DidSendConfirmation
  | FailedToSendConfirmation (should_retry : Bool)
  | DidRedeemUnblindedToken (unblinded_payment_token : UnblindedPaymentTokenInfo)
  | FailedToRedeemUnblindedToken (should_retry : Bool)
  deriving DecidableEq, Repr

/-- The callback of the engine that an outcome invokes. -/
def ReportOutcome (env : Env) (outcome : Outcome) (confirmation : ConfirmationInfo)
    (s : Confirmations) : Confirmations :=
  match outcome with
  | Outcome.DidSendConfirmation => OnDidSendConfirmation confirmation s
  | Outcome.FailedToSendConfirmation should_retry =>
      OnFailedToSendConfirmation confirmation should_retry s
  | Outcome.DidRedeemUnblindedToken unblinded_payment_token =>
      OnDidRedeemUnblindedToken env confirmation unblinded_payment_token s
  | Outcome.FailedToRedeemUnblindedToken should_retry =>
      OnFailedToRedeemUnblindedToken env confirmation should_retry s

/-- The retry timer fires: possible only when it is running; the timer is no
longer running when its callback, `OnRetry`, is entered (section 4.3, "On timer
fire ... Transitions back to Idle"). -/
def TimerFired (s : Confirmations) : Option Confirmations :=
  if s.retry_timer_.IsRunning then OnRetry (Stop s) else none

/-- One event of the engine:
* `confirm`: a call of `Confirm` for a valid transaction;
* `user_data`: a posted user-data callback runs;
* `timer_fired`: the retry timer fires;
* `outcome`: the redemption client answers one of the confirmations it holds,
  with that confirmation (its `was_created` flag as the client left it);
* `process`: a call of the public `ProcessRetryQueue`;
* `ledger`: the token ledger is changed from outside the engine (token issuance
  refills the unspent tokens, payment tokens are cashed in). -/
inductive Step : Confirmations → Confirmations → Prop where
  | confirm (env : Env) (now : Time) (transaction : TransactionInfo) (s : Confirmations)
      (h : transaction.IsValid = true) : Step s (Confirm env now transaction s)
  | user_data (env : Env) (callback : UserDataCallback) (user_data : Value)
      (s : Confirmations) (h : callback ∈ s.posted) :
      Step s (RunUserDataCallback env callback user_data
        { s with posted := s.posted.erase callback })
  | timer_fired (s s' : Confirmations) (h : TimerFired s = some s') : Step s s'
  | outcome (env : Env) (r : Redemption) (outcome : Outcome) (was_created : Bool)
      (s : Confirmations) (h : r ∈ s.redeeming) :
      Step s (ReportOutcome env outcome { r.confirmation with was_created := was_created }
        { s with redeeming := s.redeeming.erase r })
  | process (s : Confirmations) : Step s (ProcessRetryQueue s)
  | ledger (unblinded_tokens : List UnblindedTokenInfo)
      (unblinded_payment_tokens : List UnblindedPaymentTokenInfo) (s : Confirmations) :
      Step s { s with unblinded_tokens := unblinded_tokens
                      unblinded_payment_tokens := unblinded_payment_tokens }

/-- An initial state: the timer is idle and nothing has left the engine yet.
The ledger and the retry queue are whatever was loaded from the state store. -/
def Initial (s : Confirmations) : Prop :=
  s.retry_timer_ = TimerState.Idle ∧ s.redeeming = [] ∧ s.posted = [] ∧ s.delegate_calls = []

/-- The states the engine can be in. -/
inductive Reachable : Confirmations → Prop where
  | init (s : Confirmations) (h : Initial s) : Reachable s
  | step (s s' : Confirmations) (h : Reachable s) (hs : Step s s') : Reachable s'

/-- Number of confirmations drained from the retry queue that are in flight:
submitted by `OnRetry` and not answered yet. -/
def drainedInFlight (s : Confirmations) : Nat :=
  s.redeeming.countP (fun r => r.by_retry)

/-- Number of retry timers that are scheduled. -/
def scheduledTimers (s : Confirmations) : Nat :=
  if s.retry_timer_.IsRunning then 1 else 0

/-- Every payment token value occurs at most once in the ledger. -/
def NoDuplicatePaymentToken (s : Confirmations) : Prop :=
  ∀ t : UnblindedPaymentTokenInfo, s.unblinded_payment_tokens.count t ≤ 1

/-! ## Worked data

Concrete collaborators, confirmations and engine states on which the theorems
below are instantiated. -/

/-- A stand-in for the `double` arithmetic: patterns are compared and divided as
numbers.  No denomination is available in the worked environments, so only `gt`
is consulted there.  The arithmetic of IEEE 754 is `ieeeOps`. -/
def sampleOps : DoubleOps :=
  { zero := ⟨0⟩
    gt := fun a b => decide (b.bits < a.bits)
    div := fun a b => ⟨a.bits / b.bits⟩
    ceil := fun a => a
    toInt := fun a => a.bits }

/-- Collaborators of a reward-eligible user whose user-data builder runs its
callback at once. -/
def sampleEnv : Env :=
  { ShouldRewardUser := true
    GenerateRandomV4 := "guid-9"
    smallest_denomination := none
    ops := sampleOps
    Generate := fun count => List.replicate count.toNat ⟨"fresh"⟩
    BlindTokens := fun tokens => tokens.map (fun t => ⟨"blinded-" ++ t.value⟩)
    JSONWrite := fun v => v.content
    CreateConfirmationRequestDTO := fun c => c.id ++ "/" ++ c.user_data
    CreateCredential := fun t payload => t.value ++ "/" ++ payload
    Build := fun _ _ _ => some ⟨"user-data"⟩ }

/-- The collaborators of `sampleEnv`, with a user-data builder that posts its
callback instead of running it. -/
def postingEnv : Env :=
  { sampleEnv with Build := fun _ _ _ => none }

/-- A valid confirmation without token and credential, not yet created on the
server. -/
def sampleConfirmation : ConfirmationInfo :=
  { id := "guid-1"
    transaction_id := "transaction-1"
    creative_instance_id := "creative-1"
    type := ConfirmationType.kDefined 1
    ad_type := AdType.kDefined 1
    value := ⟨7⟩
    created_at := ⟨100⟩ }

/-- A second valid confirmation, with `was_created` set. -/
def otherConfirmation : ConfirmationInfo :=
  { id := "guid-2"
    transaction_id := "transaction-2"
    creative_instance_id := "creative-2"
    type := ConfirmationType.kDefined 2
    ad_type := AdType.kDefined 1
    value := ⟨3⟩
    created_at := ⟨200⟩
    was_created := true }

/-- An engine with two unspent tokens, one redeemed payment token, an empty
retry queue, an idle timer and an observer. -/
def sampleState : Confirmations :=
  { unblinded_tokens := [⟨"unblinded-1"⟩, ⟨"unblinded-2"⟩]
    unblinded_payment_tokens := [⟨"payment-1"⟩]
    delegate_ := true }

/-- The engine of `sampleState` with `otherConfirmation` and
`sampleConfirmation` waiting in the retry queue. -/
def queuedState : Confirmations :=
  { sampleState with failed_confirmations := [otherConfirmation, sampleConfirmation] }

/-- The engine of `queuedState` with the retry timer scheduled. -/
def scheduledState : Confirmations :=
  { queuedState with retry_timer_ := TimerState.Scheduled kRetryAfterSeconds }

/-- An engine whose ledger holds no unspent token. -/
def emptyLedgerState : Confirmations :=
  { delegate_ := true }

/-- The collaborators of `sampleEnv` with `guid` as the next random GUID. -/
def envWithGuid (guid : String) : Env :=
  { sampleEnv with GenerateRandomV4 := guid }

/-- A valid transaction. -/
def transactionA : TransactionInfo :=
  ⟨"transaction-a", "creative-a", ConfirmationType.kDefined 1, AdType.kDefined 1, ⟨7⟩⟩

/-- Another valid transaction. -/
def transactionB : TransactionInfo :=
  ⟨"transaction-b", "creative-b", ConfirmationType.kDefined 2, AdType.kDefined 1, ⟨3⟩⟩

/-- The confirmation `Confirm` builds for `transactionA` at time 1 on an empty
ledger. -/
def confirmationA : ConfirmationInfo :=
  { id := "guid-a", transaction_id := "transaction-a", creative_instance_id := "creative-a"
    type := ConfirmationType.kDefined 1, ad_type := AdType.kDefined 1
    value := ⟨7⟩, created_at := ⟨1⟩ }

/-- The confirmation `Confirm` builds for `transactionB` at time 2 on an empty
ledger. -/
def confirmationB : ConfirmationInfo :=
  { id := "guid-b", transaction_id := "transaction-b", creative_instance_id := "creative-b"
    type := ConfirmationType.kDefined 2, ad_type := AdType.kDefined 1
    value := ⟨3⟩, created_at := ⟨2⟩ }

/-- The run that puts two drained confirmations in flight, state by state,
starting from `emptyLedgerState`:
1. `Confirm(transactionA)` submits `confirmationA`;
2. `Confirm(transactionB)` submits `confirmationB`;
3. `confirmationA` fails with `should_retry`: it is queued and the timer armed;
4. the timer fires: `confirmationA` is drained and submitted again;
5. `confirmationB` fails with `should_retry`: it is queued and, the timer being
   idle, the timer is armed again;
6. the timer fires: `confirmationB` is drained while `confirmationA` is still
   unanswered. -/
def overlapRun : Nat → Confirmations
  | 0 => emptyLedgerState
  | 1 => { emptyLedgerState with redeeming := [⟨false, confirmationA⟩] }
  | 2 => { emptyLedgerState with
            redeeming := [⟨false, confirmationA⟩, ⟨false, confirmationB⟩] }
  | 3 => { emptyLedgerState with
            redeeming := [⟨false, confirmationB⟩]
            failed_confirmations := [confirmationA]
            retry_timer_ := TimerState.Scheduled 15
            delegate_calls := [Notification.OnFailedToConfirm confirmationA] }
  | 4 => { emptyLedgerState with
            redeeming := [⟨false, confirmationB⟩, ⟨true, confirmationA⟩]
            delegate_calls := [Notification.OnFailedToConfirm confirmationA] }
  | 5 => { emptyLedgerState with
            redeeming := [⟨true, confirmationA⟩]
            failed_confirmations := [confirmationB]
            retry_timer_ := TimerState.Scheduled 15
            delegate_calls := [Notification.OnFailedToConfirm confirmationA,
                               Notification.OnFailedToConfirm confirmationB] }
  | _ => { emptyLedgerState with
            redeeming := [⟨true, confirmationA⟩, ⟨true, confirmationB⟩]
            delegate_calls := [Notification.OnFailedToConfirm confirmationA,
                               Notification.OnFailedToConfirm confirmationB] }

/-! ## Validity of what the engine holds -/

/-- The precondition of the closure a user-data callback runs: the `DCHECK`s
of `CreateConfirmation` on what the closure captured (a valid transaction in
`Confirm`, a valid confirmation in
`CreateNewConfirmationAndAppendToRetryQueue`). -/
def UserDataCallback.IsValid : UserDataCallback → Bool
  | UserDataCallback.confirm _ transaction => transaction.IsValid
  | UserDataCallback.rebuild confirmation => confirmation.IsValid

/-- Every confirmation the engine holds or has handed out is valid: the entries
of the retry queue, the confirmations submitted to the redemption client and
not answered yet, and what the posted user-data callbacks captured. -/
def ValidState (s : Confirmations) : Prop :=
  (∀ c ∈ s.failed_confirmations, c.IsValid = true) ∧
  (∀ r ∈ s.redeeming, r.confirmation.IsValid = true) ∧
  (∀ callback ∈ s.posted, callback.IsValid = true)

/-- An engine with an empty ledger, the retry queue `[confirmationA,
confirmationB, sampleConfirmation]` and the retry timer scheduled. -/
def retryOrderState : Confirmations :=
  { emptyLedgerState with
    failed_confirmations := [confirmationA, confirmationB, sampleConfirmation]
    retry_timer_ := TimerState.Scheduled kRetryAfterSeconds }

/-! ## IEEE 754 binary64

The arithmetic a C++ `double` has on the platforms the engine is built for,
on bit patterns: 1 sign bit, 11 exponent bits, 52 fraction bits.  Only what
`GenerateTokensForValue` uses is defined: `operator>`, `operator/` (rounding
to nearest, ties to even), `ceil` and the conversion to `int`. -/

/-- The sign bit of a `double`. -/
def Double.sign (x : Double) : Bool :=
  x.bits / 2 ^ 63 % 2 == 1

/-- The biased exponent field of a `double`. -/
def Double.exponent (x : Double) : Nat :=
  x.bits / 2 ^ 52 % 2 ^ 11

/-- The fraction field of a `double`. -/
def Double.fraction (x : Double) : Nat :=
  x.bits % 2 ^ 52

/-- Not a number: all exponent bits set and a non-zero fraction. -/
def Double.isNaN (x : Double) : Bool :=
  x.exponent == 2047 && x.fraction != 0

/-- Plus or minus infinity: all exponent bits set and a zero fraction. -/
def Double.isInf (x : Double) : Bool :=
  x.exponent == 2047 && x.fraction == 0

/-- Plus or minus zero. -/
def Double.isZero (x : Double) : Bool :=
  x.exponent == 0 && x.fraction == 0

/-- The integer significand of a finite `double`: its magnitude is
`significand * 2 ^ scale`.  Subnormal numbers (exponent field 0) have no
hidden bit. -/
def Double.significand (x : Double) : Nat :=
  if x.exponent == 0 then x.fraction else 2 ^ 52 + x.fraction

/-- The binary scale of a finite `double`: its magnitude is
`significand * 2 ^ scale`. -/
def Double.scale (x : Double) : Int :=
  (if x.exponent == 0 then 1 else (x.exponent : Int)) - 1075

/-- A number that grows with the value of a `double` that is not a NaN: the
pattern without its sign bit, negated for negative values.  The two zeros get
the same number. -/
def Double.key (x : Double) : Int :=
  if x.sign then -((x.bits % 2 ^ 63 : Nat) : Int) else ((x.bits % 2 ^ 63 : Nat) : Int)

/-- The comparison `a > b` of two `double`s: false when either is a NaN. -/
def Double.gt (a b : Double) : Bool :=
  !a.isNaN && !b.isNaN && decide (b.key < a.key)

/-- The comparison `a <= b` of two `double`s: false when either is a NaN. -/
def Double.le (a b : Double) : Bool :=
  !a.isNaN && !b.isNaN && decide (a.key ≤ b.key)

/-- The quiet NaN an invalid operation returns. -/
def Double.nan : Double := ⟨0x7FF8000000000000⟩

/-- Infinity with the given sign. -/
def Double.infinity (negative : Bool) : Double :=
  ⟨(if negative then 2 ^ 63 else 0) + 2047 * 2 ^ 52⟩

/-- Zero with the given sign. -/
def Double.signedZero (negative : Bool) : Double :=
  ⟨if negative then 2 ^ 63 else 0⟩

/-- One step of `leadingBit`: when `state.1` has more than `width` binary
digits, the lowest `width` of them are dropped and counted in `state.2`. -/
def Double.leadingBitStep (state : Nat × Nat) (width : Nat) : Nat × Nat :=
  if 2 ^ width ≤ state.1 then (state.1 / 2 ^ width, state.2 + width) else state

/-- The position of the leading binary digit of `n`, for `0 < n < 2 ^ 256`:
`2 ^ leadingBit n <= n < 2 ^ (leadingBit n + 1)`.  Found by halving the range
eight times. -/
def Double.leadingBit (n : Nat) : Nat :=
  ([128, 64, 32, 16, 8, 4, 2, 1].foldl Double.leadingBitStep (n, 0)).2

/-- The `double` nearest to `(numerator / denominator) * 2 ^ scale`, ties to
the even significand, with the given sign; infinity when the rounded magnitude
is beyond the largest finite `double`.  For `denominator > 0` and
`numerator * 2 ^ 64 >= denominator`, `numerator < 2 ^ 128`, which is the case
for the significands of two `double`s.

The quotient is first taken to 128 more binary places (`sticky` records that
something is left below them, which can only break a tie); `unit` is the scale
of the last place of the result: 52 places below the leading bit, and not
below `2 ^ -1074`, where the subnormal numbers are.  The pattern is assembled
as `(unit + 1074) * 2 ^ 52 + significand`: the hidden bit of the significand
of a normal number adds one to the exponent field, and so does a significand
that was rounded up to `2 ^ 53`. -/
def Double.nearest (negative : Bool) (numerator denominator : Nat) (scale : Int) : Double :=
  let quotient := numerator * 2 ^ 128 / denominator
  let sticky := numerator * 2 ^ 128 % denominator != 0
  let leading : Int := (Double.leadingBit quotient : Int) + (scale - 128)
  let unit : Int := max (leading - 52) (-1074)
  let dropped : Nat := (unit - (scale - 128)).toNat
  let kept := quotient / 2 ^ dropped
  let rest := quotient % 2 ^ dropped
  let half := 2 ^ (dropped - 1)
  let up := decide (half < rest) || (rest == half && (sticky || kept % 2 == 1))
  let significand := if up then kept + 1 else kept
  let magnitude := (unit + 1074).toNat * 2 ^ 52 + significand
  if 2047 * 2 ^ 52 ≤ magnitude then Double.infinity negative
  else ⟨(if negative then 2 ^ 63 else 0) + magnitude⟩

/-- The quotient `a / b` of two `double`s (`operator/`). -/
def Double.div (a b : Double) : Double :=
  let negative := a.sign != b.sign
  if a.isNaN || b.isNaN then Double.nan
  else if a.isInf then (if b.isInf then Double.nan else Double.infinity negative)
  else if b.isInf then Double.signedZero negative
  else if b.isZero then (if a.isZero then Double.nan else Double.infinity negative)
  else if a.isZero then Double.signedZero negative
  else Double.nearest negative a.significand b.significand (a.scale - b.scale)

/-- The number of binary places of a finite `double` below the unit, when its
scale is negative.  A significand has 53 binary digits, so beyond 64 places
nothing of it is left above the unit and the count is cut there. -/
def Double.places (x : Double) : Nat :=
  min (-x.scale).toNat 64

/-- The smallest integral `double` not less than `x` (`ceil`).  NaN, the
infinities and the zeros are returned as they are, and so is a finite number
with a non-negative scale, which is an integer.  Otherwise the magnitude is
`whole` plus a fraction: a positive number goes up to the next integer if the
fraction is not zero, a negative one goes to `-whole`, which is `-0.0` when
`whole` is zero. -/
def Double.ceil (x : Double) : Double :=
  if x.isNaN || x.isInf || x.isZero then x
  else if 0 ≤ x.scale then x
  else
    let whole := x.significand / 2 ^ x.places
    let integral := x.significand % 2 ^ x.places == 0
    if x.sign then
      if whole == 0 then Double.signedZero true else Double.nearest true whole 1 0
    else
      Double.nearest false (if integral then whole else whole + 1) 1 0

/-- The conversion `static_cast<int>(x)`: the value of `x` truncated toward
zero when that fits the 32 bits of an `int`.  Otherwise (a NaN, an infinity,
a truncated value outside `-2^31 .. 2^31 - 1`) the behaviour of the program is
undefined; `undefined` stands for what it then computes. -/
def Double.toInt (undefined : Double → Int) (x : Double) : Int :=
  if x.isNaN || x.isInf then undefined x
  else
    let magnitude : Nat :=
      if 0 ≤ x.scale then x.significand * 2 ^ x.scale.toNat
      else x.significand / 2 ^ x.places
    let truncated : Int := if x.sign then -(magnitude : Int) else (magnitude : Int)
    if -2 ^ 31 ≤ truncated ∧ truncated < 2 ^ 31 then truncated else undefined x

/-- The arithmetic of `GenerateTokensForValue` on IEEE 754 binary64. -/
def ieeeOps (undefined : Double → Int) : DoubleOps :=
  { zero := ⟨0⟩
    gt := Double.gt
    div := Double.div
    ceil := Double.ceil
    toInt := Double.toInt undefined }

/-- The number a finite `double` stands for: `significand * 2 ^ scale`, with
its sign. -/
def Double.toRat (x : Double) : ℚ :=
  (if x.sign then -1 else 1) * ((x.significand : ℚ) * 2 ^ x.scale)


/-- The `double` 0.0. -/
def Double.zero : Double := ⟨0⟩

/-- The `double` 2.0: exponent field 1024, fraction 0. -/
def Double.two : Double := ⟨0x4000000000000000⟩

/-- The `double` 2.5. -/
def Double.twoAndHalf : Double := ⟨0x4004000000000000⟩

/-- The `double` 3.0. -/
def Double.three : Double := ⟨0x4008000000000000⟩

/-- The `double` 5.0: exponent field 1025, fraction `2 ^ 50`. -/
def Double.five : Double := ⟨0x4014000000000000⟩

/-- The smallest positive `double`, `2 ^ -1074` (printed as 5e-324,
`std::numeric_limits<double>::denorm_min()`). -/
def Double.denormMin : Double := ⟨1⟩

/-- The collaborators of `sampleEnv` with IEEE arithmetic and 2.0 as the
smallest non-zero denomination; the generator returns as many tokens as it is
asked for. -/
def ieeeEnv (undefined : Double → Int) : Env :=
  { sampleEnv with
    smallest_denomination := some Double.two
    ops := ieeeOps undefined }


/-- The confirmation `CreateConfirmation` returns on `sampleState` (a
reward-eligible user, two unspent tokens) for a transaction of value
`Double.denormMin`, with the collaborators `ieeeEnv`. -/
def denormMinConfirmation (undefined : Double → Int) : ConfirmationInfo :=
  (CreateConfirmation (ieeeEnv undefined) ⟨100⟩ "transaction-1" "creative-1"
    (ConfirmationType.kDefined 1) (AdType.kDefined 1) Double.denormMin ⟨"user-data"⟩
    sampleState).1

end ads

/-!
# Joining futures (bat-native-ledger)

Shallow embedding of
`vendor/bat-native-ledger/src/bat/ledger/internal/core/future_join.h`.

`Future` and `Promise` are declared elsewhere.  A future is represented by the
value it completes with, a promise by the list of values `Set` was called with.
A handler given to `Future::Then` is a `base::BindOnce` callback: it runs at
most once, at some point after it was handed over, when its future completes.
The handlers that were handed over and have not run yet are kept next to the
members of the join object (`handlers`).
-/

namespace ledger

/-- The number of values of `size_t` (64 bits). -/
def kSizeModulus : Nat := 2 ^ 64

/-- The members of `FutureVectorJoin<T>` (`promise_`, `optionals_`,
`remaining_`, `started_`), with
* `promise_`: the values `promise_.Set` was called with, oldest first;
* `handlers`: the indices of the `OnComplete` handlers bound in `AddFutures`
  and handed to a future that have not run yet. -/
structure FutureVectorJoin (T : Type) where
  promise_ : List (List T) := []
  optionals_ : List (Option T) := []
  remaining_ : Nat := 0
  started_ : Bool := false
  handlers : List Nat := []
  deriving DecidableEq, Repr

/-- The members of `FutureJoin<Args...>` are those of `FutureVectorJoin`: the
tuple `std::tuple<absl::optional<Args>...>` is the list of its slots, over one
value type that stands for every type of the pack. -/
abbrev FutureJoin (T : Type) := FutureVectorJoin T

/-- The loop `for (auto& optional : optionals_) values.push_back(
std::move(*optional))`, and the pack expansion `*std::get<Indexes>(optionals_)...`:
the values of all slots, in slot order; `none` when a slot is empty (the
dereference of an empty optional is undefined). -/
def DerefAll {T : Type} : List (Option T) → Option (List T)
  | [] => some []
  | none :: _ => none
  | some value :: rest => (DerefAll rest).map (fun values => value :: values)

/-- The statement `--remaining_` on a `size_t`. -/
def Decrement (remaining : Nat) : Nat :=
  (remaining + kSizeModulus - 1) % kSizeModulus

/-- The number of slots of `optionals_` that hold no value. -/
def emptySlots {T : Type} (j : FutureVectorJoin T) : Nat :=
  j.optionals_.countP (fun optional => optional.isNone)

/-! ## FutureVectorJoin -/

/-- One iteration of the loop of `FutureVectorJoin::AddFutures`, for the loop
index `i`: `optionals_.push_back({})` and
`futures[i].Then(base::BindOnce(&FutureVectorJoin::OnComplete, this, i))`. -/
def FutureVectorJoin.AddFuture {T : Type} (i : Nat) (j : FutureVectorJoin T) :
    FutureVectorJoin T :=
  { j with optionals_ := j.optionals_ ++ [none], handlers := j.handlers ++ [i] }

/-- `FutureVectorJoin::AddFutures`, when no handler runs before it returns. -/
def FutureVectorJoin.AddFutures {T : Type} (futures : List T) (j : FutureVectorJoin T) :
    FutureVectorJoin T :=
  if !j.started_ then
    (List.range futures.length).foldl (fun j i => FutureVectorJoin.AddFuture i j)
      { j with started_ := true, remaining_ := futures.length }
  else j

/-- `FutureVectorJoin::OnComplete`.  `none` stands for undefined behaviour: an
index outside `optionals_`, or the dereference of an empty optional. -/
def FutureVectorJoin.OnComplete {T : Type} (index : Nat) (value : T)
    (j : FutureVectorJoin T) : Option (FutureVectorJoin T) :=
  if index < j.optionals_.length then
    let j := { j with optionals_ := j.optionals_.set index (some value) }
    let j := { j with remaining_ := Decrement j.remaining_ }
    if j.remaining_ == 0 then
      match DerefAll j.optionals_ with
      | some values => some { j with promise_ := j.promise_ ++ [values] }
      | none => none
    else some j
  else none

/-- `JoinFutures(std::vector<Future<T>>&&)`: a new promise, a new
`FutureVectorJoin` around it, `AddFutures`.  The returned future is the one of
`promise_`. -/
def JoinFutures {T : Type} (futures : List T) : FutureVectorJoin T :=
  FutureVectorJoin.AddFutures futures {}

/-! ## FutureJoin -/

/-- The constructor of `FutureJoin<Args...>` for a pack of `arity` types: every
slot of the tuple is empty and `remaining_ = sizeof...(Args)`. -/
def FutureJoin.new {T : Type} (arity : Nat) : FutureJoin T :=
  { optionals_ := List.replicate arity none, remaining_ := arity }

/-- The first statement of `FutureJoin::AddHandlers<Index>`:
`future.Then(base::BindOnce(&FutureJoin::OnComplete<Index, T>, this))`. -/
def FutureJoin.AddHandler {T : Type} (index : Nat) (j : FutureJoin T) : FutureJoin T :=
  { j with handlers := j.handlers ++ [index] }

/-- `FutureJoin::AddHandlers<Index>` on a pack of `rest` futures, when no
handler runs before it returns. -/
def FutureJoin.AddHandlers {T : Type} (index : Nat) : Nat → FutureJoin T → FutureJoin T
  | 0, j => j
  | rest + 1, j => FutureJoin.AddHandlers (index + 1) rest (FutureJoin.AddHandler index j)

/-- `FutureJoin::AddFutures`, when no handler runs before it returns. -/
def FutureJoin.AddFutures {T : Type} (futures : List T) (j : FutureJoin T) : FutureJoin T :=
  if !j.started_ then
    FutureJoin.AddHandlers 0 futures.length { j with started_ := true }
  else j

/-- `FutureJoin::SetValue`; `none` when a slot it dereferences is empty. -/
def FutureJoin.SetValue {T : Type} (j : FutureJoin T) : Option (FutureJoin T) :=
  match DerefAll j.optionals_ with
  | some values => some { j with promise_ := j.promise_ ++ [values] }
  | none => none

/-- `FutureJoin::OnComplete<Index, T>`; `none` for an index outside the
tuple. -/
def FutureJoin.OnComplete {T : Type} (index : Nat) (value : T) (j : FutureJoin T) :
    Option (FutureJoin T) :=
  if index < j.optionals_.length then
    let j := { j with optionals_ := j.optionals_.set index (some value) }
    let j := { j with remaining_ := Decrement j.remaining_ }
    if j.remaining_ == 0 then FutureJoin.SetValue j else some j
  else none

/-- `JoinFutures(Future<Args>... args)`, the overload for a parameter pack. -/
def JoinFuturesPack {T : Type} (futures : List T) : FutureJoin T :=
  FutureJoin.AddFutures futures (FutureJoin.new futures.length)

/-! ## Runs -/

/-- The states of a `FutureVectorJoin` on which `AddFutures(futures)` is called:
`Joining futures i j` says that the loop of `AddFutures` has done its first `i`
iterations and the object is in state `j`.
* `started`: `AddFutures` has set `started_` and `remaining_` on a new object;
* `attached`: the next iteration of the loop;
* `completed`: the future of a handler that has not run yet completes, with its
  value, and the handler runs (`OnComplete` is defined on that state). -/
inductive VectorJoining {T : Type} (futures : List T) : Nat → FutureVectorJoin T → Prop where
  | started : VectorJoining futures 0 { started_ := true, remaining_ := futures.length }
  | attached (i : Nat) (j : FutureVectorJoin T) (h : VectorJoining futures i j)
      (hi : i < futures.length) :
      VectorJoining futures (i + 1) (FutureVectorJoin.AddFuture i j)
  | completed (i : Nat) (j j' : FutureVectorJoin T) (index : Nat) (value : T)
      (h : VectorJoining futures i j) (hm : index ∈ j.handlers)
      (hv : futures[index]? = some value)
      (hc : FutureVectorJoin.OnComplete index value
        { j with handlers := j.handlers.erase index } = some j') :
      VectorJoining futures i j'

/-- The states of a `FutureJoin` on which `AddFutures(futures...)` is called,
as `VectorJoining`: `i` handlers have been added by `AddHandlers`. -/
inductive PackJoining {T : Type} (futures : List T) : Nat → FutureJoin T → Prop where
  | started : PackJoining futures 0
      { (FutureJoin.new futures.length : FutureJoin T) with started_ := true }
  | attached (i : Nat) (j : FutureJoin T) (h : PackJoining futures i j)
      (hi : i < futures.length) :
      PackJoining futures (i + 1) (FutureJoin.AddHandler i j)
  | completed (i : Nat) (j j' : FutureJoin T) (index : Nat) (value : T)
      (h : PackJoining futures i j) (hm : index ∈ j.handlers)
      (hv : futures[index]? = some value)
      (hc : FutureJoin.OnComplete index value
        { j with handlers := j.handlers.erase index } = some j') :
      PackJoining futures i j'

/-- What holds of a join object for `futures` when `i` handlers have been
handed out:
* there are at least `i` and at most `futures.length` slots;
* the handlers that have not run are those of the empty slots below `i`, each
  once; the slots from `i` on are empty;
* a filled slot holds the value of its future;
* `remaining_` is the number of futures that have not completed, and the number
  of empty slots plus the slots not yet pushed;
* the promise has been set, once and to the values of the futures in input
  order, exactly when `remaining_` has reached zero on a non-empty input. -/
def JoinInvariant {T : Type} (futures : List T) (i : Nat) (j : FutureVectorJoin T) : Prop :=
  i ≤ j.optionals_.length ∧ j.optionals_.length ≤ futures.length ∧
  (∀ k : Nat, k ∈ j.handlers ↔ (k < i ∧ j.optionals_[k]? = some none)) ∧
  (∀ k : Nat, i ≤ k → k < j.optionals_.length → j.optionals_[k]? = some none) ∧
  j.handlers.Nodup ∧
  (∀ (k : Nat) (v : T), j.optionals_[k]? = some (some v) → futures[k]? = some v) ∧
  j.remaining_ = (futures.length - i) + j.handlers.length ∧
  j.remaining_ = emptySlots j + (futures.length - j.optionals_.length) ∧
  j.promise_ = (if j.remaining_ = 0 ∧ 0 < futures.length then [futures] else [])

/-- Three futures, completing with 10, 20 and 30. -/
def sampleFutures : List Nat := [10, 20, 30]

/-- The vector join of `sampleFutures` after the futures 2 and 0 have completed,
in this order, and before future 1 has. -/
def twoOfThree : FutureVectorJoin Nat :=
  { started_ := true, remaining_ := 1, optionals_ := [some 10, none, some 30]
    handlers := [1] }

/-- The pack join of `sampleFutures` after future 1 has completed. -/
def oneOfThree : FutureJoin Nat :=
  { started_ := true, remaining_ := 2, optionals_ := [none, some 20, none]
    handlers := [0, 2] }

end ledger

namespace ads

/-! ## Normal forms of the operations

Each operation is rewritten as an explicit update of the state it starts from,
so that the fields it leaves alone can be read off. -/

theorem ProcessRetryQueue_eq (s : Confirmations) :
    ProcessRetryQueue s =
      { s with retry_timer_ :=
          if s.retry_timer_.IsRunning then s.retry_timer_
          else if s.failed_confirmations.isEmpty then s.retry_timer_
          else TimerState.Scheduled kRetryAfterSeconds } := by
  unfold ProcessRetryQueue Retry StartWithPrivacy GetFailedConfirmations
  by_cases h1 : s.retry_timer_.IsRunning = true
  · simp [h1]
  · by_cases h2 : s.failed_confirmations.isEmpty = true <;> simp [h1, h2]

theorem Notify_eq (n : Notification) (s : Confirmations) :
    Notify n s =
      { s with delegate_calls := s.delegate_calls ++ (if s.delegate_ then [n] else []) } := by
  unfold Notify
  split <;> simp

theorem CreateConfirmation_rewarded (env : Env) (time : Time) (tid cid : String)
    (ct : ConfirmationType) (at_ : AdType) (value : Double) (user_data : Value)
    (s : Confirmations) (t : UnblindedTokenInfo) (rest : List UnblindedTokenInfo)
    (hr : env.ShouldRewardUser = true) (ht : s.unblinded_tokens = t :: rest) :
    CreateConfirmation env time tid cid ct at_ value user_data s =
      ({ id := env.GenerateRandomV4, transaction_id := tid, creative_instance_id := cid,
         type := ct, ad_type := at_, value := value, created_at := time,
         unblinded_token := some t,
         tokens := GenerateTokensForValue env value,
         blinded_tokens := env.BlindTokens (GenerateTokensForValue env value),
         user_data := env.JSONWrite user_data,
         credential := some (env.CreateCredential t (env.CreateConfirmationRequestDTO
           { id := env.GenerateRandomV4, transaction_id := tid, creative_instance_id := cid,
             type := ct, ad_type := at_, value := value, created_at := time,
             unblinded_token := some t,
             tokens := GenerateTokensForValue env value,
             blinded_tokens := env.BlindTokens (GenerateTokensForValue env value),
             user_data := env.JSONWrite user_data })) },
       { s with unblinded_tokens := rest }) := by
  simp [CreateConfirmation, UnblindedTokens.IsEmpty, UnblindedTokens.GetToken,
    UnblindedTokens.RemoveToken, hr, ht]

theorem CreateConfirmation_unrewarded (env : Env) (time : Time) (tid cid : String)
    (ct : ConfirmationType) (at_ : AdType) (value : Double) (user_data : Value)
    (s : Confirmations) (h : env.ShouldRewardUser = false ∨ s.unblinded_tokens = []) :
    CreateConfirmation env time tid cid ct at_ value user_data s =
      ({ id := env.GenerateRandomV4, transaction_id := tid, creative_instance_id := cid,
         type := ct, ad_type := at_, value := value, created_at := time }, s) := by
  rcases h with h | h <;> simp [CreateConfirmation, UnblindedTokens.IsEmpty, h]

theorem CreateConfirmation_frame (env : Env) (time : Time) (tid cid : String)
    (ct : ConfirmationType) (at_ : AdType) (value : Double) (user_data : Value)
    (s : Confirmations) :
    (CreateConfirmation env time tid cid ct at_ value user_data s).2 =
      { s with unblinded_tokens :=
          if env.ShouldRewardUser then s.unblinded_tokens.tail else s.unblinded_tokens } := by
  by_cases hr : env.ShouldRewardUser = true
  · cases ht : s.unblinded_tokens with
    | nil =>
        rw [CreateConfirmation_unrewarded _ _ _ _ _ _ _ _ _ (Or.inr ht)]
        cases s
        simp_all
    | cons t rest =>
        rw [CreateConfirmation_rewarded _ _ _ _ _ _ _ _ _ t rest hr ht]
        simp [hr]
  · rw [CreateConfirmation_unrewarded _ _ _ _ _ _ _ _ _ (Or.inl (by simpa using hr))]
    simp [hr]

theorem RunUserDataCallback_payment_tokens (env : Env) (callback : UserDataCallback)
    (user_data : Value) (s : Confirmations) :
    (RunUserDataCallback env callback user_data s).unblinded_payment_tokens
      = s.unblinded_payment_tokens := by
  cases callback <;>
    simp [RunUserDataCallback, Redeem, AppendToRetryQueue, AppendFailedConfirmation,
      CreateConfirmation_frame]

theorem Build_payment_tokens (env : Env) (time : Time) (cid : String) (ct : ConfirmationType)
    (callback : UserDataCallback) (s : Confirmations) :
    (Build env time cid ct callback s).unblinded_payment_tokens
      = s.unblinded_payment_tokens := by
  unfold Build
  split
  · exact RunUserDataCallback_payment_tokens _ _ _ _
  · rfl

theorem OnFailedToRedeemUnblindedToken_payment_tokens (env : Env) (c : ConfirmationInfo)
    (should_retry : Bool) (s : Confirmations) :
    (OnFailedToRedeemUnblindedToken env c should_retry s).unblinded_payment_tokens
      = s.unblinded_payment_tokens := by
  simp only [OnFailedToRedeemUnblindedToken, ProcessRetryQueue_eq, Notify_eq,
    CreateNewConfirmationAndAppendToRetryQueue]
  split
  · split
    · split
      · rfl
      · exact Build_payment_tokens _ _ _ _ _ _
    · rfl
  · rfl

theorem OnRetry_nil (s : Confirmations) (hq : s.failed_confirmations = []) :
    OnRetry s = none := by
  simp [OnRetry, GetFailedConfirmations, hq]

theorem OnRetry_cons (s : Confirmations) (h : ConfirmationInfo) (rest : List ConfirmationInfo)
    (hq : s.failed_confirmations = h :: rest) :
    OnRetry s = some { s with failed_confirmations := rest
                              redeeming := s.redeeming ++ [⟨true, h⟩] } := by
  simp [OnRetry, GetFailedConfirmations, hq, Redeem, RemoveFromRetryQueue,
    RemoveFailedConfirmation]

theorem OnRetry_payment_tokens (s s' : Confirmations) (h : OnRetry s = some s') :
    s'.unblinded_payment_tokens = s.unblinded_payment_tokens := by
  cases hq : s.failed_confirmations with
  | nil => rw [OnRetry_nil s hq] at h; cases h
  | cons c rest =>
      rw [OnRetry_cons s c rest hq] at h
      cases h
      rfl

theorem TimerFired_cons (s : Confirmations) (h : ConfirmationInfo)
    (rest : List ConfirmationInfo) (hq : s.failed_confirmations = h :: rest)
    (hrun : s.retry_timer_.IsRunning = true) :
    TimerFired s = some { s with failed_confirmations := rest
                                 redeeming := s.redeeming ++ [⟨true, h⟩]
                                 retry_timer_ := TimerState.Idle } := by
  unfold TimerFired
  rw [if_pos hrun, OnRetry_cons (Stop s) h rest (by simpa [Stop] using hq)]
  rfl

theorem OnDidRedeemUnblindedToken_payment_tokens (env : Env) (c : ConfirmationInfo)
    (t : UnblindedPaymentTokenInfo) (s : Confirmations) :
    (OnDidRedeemUnblindedToken env c t s).unblinded_payment_tokens =
      if t ∈ s.unblinded_payment_tokens then s.unblinded_payment_tokens
      else s.unblinded_payment_tokens ++ [t] := by
  unfold OnDidRedeemUnblindedToken
  by_cases h : t ∈ s.unblinded_payment_tokens
  · simp [UnblindedPaymentTokens.TokenExists, h,
      OnFailedToRedeemUnblindedToken_payment_tokens]
  · simp [UnblindedPaymentTokens.TokenExists, h, ProcessRetryQueue_eq, Notify_eq,
      StopRetrying, Stop, UnblindedPaymentTokens.AddTokens]

/-! ## C1: a payment token that is already in the ledger -/

/-- C1. When the payment token `t` is already among the redeemed payment tokens,
`OnDidRedeemUnblindedToken(c, t)` is `OnFailedToRedeemUnblindedToken(c, false)`:
the payment tokens and their count are unchanged, nothing is added to the retry
queue and no rebuild is posted, whatever `c.was_created` is, and the only call
the observer receives is `OnFailedToConfirm(c)` (no call at all when no observer
is set), so it does not receive `OnDidConfirm(c)`. -/
theorem C1_duplicate_payment_token_rejected (env : Env) (c : ConfirmationInfo)
    (t : UnblindedPaymentTokenInfo) (s : Confirmations)
    (h : t ∈ s.unblinded_payment_tokens) :
    OnDidRedeemUnblindedToken env c t s = OnFailedToRedeemUnblindedToken env c false s ∧
    (OnDidRedeemUnblindedToken env c t s).unblinded_payment_tokens
      = s.unblinded_payment_tokens ∧
    UnblindedPaymentTokens.Count (OnDidRedeemUnblindedToken env c t s).unblinded_payment_tokens
      = UnblindedPaymentTokens.Count s.unblinded_payment_tokens ∧
    (OnDidRedeemUnblindedToken env c t s).failed_confirmations = s.failed_confirmations ∧
    (OnDidRedeemUnblindedToken env c t s).posted = s.posted ∧
    (s.delegate_ = true → (OnDidRedeemUnblindedToken env c t s).delegate_calls
      = s.delegate_calls ++ [Notification.OnFailedToConfirm c]) ∧
    (s.delegate_ = false → (OnDidRedeemUnblindedToken env c t s).delegate_calls
      = s.delegate_calls) := by
  have hd : OnDidRedeemUnblindedToken env c t s
      = OnFailedToRedeemUnblindedToken env c false s := by
    unfold OnDidRedeemUnblindedToken
    simp [UnblindedPaymentTokens.TokenExists, h]
  rw [hd]
  simp [OnFailedToRedeemUnblindedToken, ProcessRetryQueue_eq, Notify_eq]

/-- C1 on `sampleState`, whose ledger already holds `payment-1`: the observer is
told `OnFailedToConfirm` and the ledger still holds one payment token. -/
theorem C1_duplicate_payment_token_rejected_witness :
    (⟨"payment-1"⟩ : UnblindedPaymentTokenInfo) ∈ sampleState.unblinded_payment_tokens ∧
    (OnDidRedeemUnblindedToken sampleEnv sampleConfirmation ⟨"payment-1"⟩
        sampleState).unblinded_payment_tokens = [⟨"payment-1"⟩] ∧
    (OnDidRedeemUnblindedToken sampleEnv sampleConfirmation ⟨"payment-1"⟩
        sampleState).delegate_calls = [Notification.OnFailedToConfirm sampleConfirmation] :=
  ⟨by simp [sampleState],
   (C1_duplicate_payment_token_rejected sampleEnv sampleConfirmation ⟨"payment-1"⟩
      sampleState (by simp [sampleState])).2.1,
   (C1_duplicate_payment_token_rejected sampleEnv sampleConfirmation ⟨"payment-1"⟩
      sampleState (by simp [sampleState])).2.2.2.2.2.1 rfl⟩

/-! ## C2: no payment token is stored twice -/

/-- C2. If every payment token value occurs at most once in the ledger, it
still does after `Confirm`, `OnRetry`, `OnDidRedeemUnblindedToken`,
`OnFailedToRedeemUnblindedToken`, `OnDidSendConfirmation`,
`OnFailedToSendConfirmation` and `ProcessRetryQueue`, for every confirmation,
retry hint and payment token passed in. -/
theorem C2_payment_tokens_never_duplicated (env : Env) (now : Time)
    (transaction : TransactionInfo) (c : ConfirmationInfo) (should_retry : Bool)
    (t : UnblindedPaymentTokenInfo) (s : Confirmations)
    (h : NoDuplicatePaymentToken s) :
    NoDuplicatePaymentToken (Confirm env now transaction s) ∧
    (∀ s', OnRetry s = some s' → NoDuplicatePaymentToken s') ∧
    NoDuplicatePaymentToken (OnDidRedeemUnblindedToken env c t s) ∧
    NoDuplicatePaymentToken (OnFailedToRedeemUnblindedToken env c should_retry s) ∧
    NoDuplicatePaymentToken (OnDidSendConfirmation c s) ∧
    NoDuplicatePaymentToken (OnFailedToSendConfirmation c should_retry s) ∧
    NoDuplicatePaymentToken (ProcessRetryQueue s) := by
  refine ⟨?_, ?_, ?_, ?_, ?_, ?_, ?_⟩
  · intro x
    rw [Confirm, Build_payment_tokens]
    exact h x
  · intro s' hs' x
    rw [OnRetry_payment_tokens s s' hs']
    exact h x
  · intro x
    rw [OnDidRedeemUnblindedToken_payment_tokens]
    split
    · exact h x
    · rename_i hn
      rw [List.count_append]
      by_cases hx : x = t
      · subst hx
        simp [List.count_eq_zero_of_not_mem hn]
      · have : List.count x [t] = 0 := by
          simp [List.count_cons, Ne.symm hx]
        rw [this]
        exact h x
  · intro x
    rw [OnFailedToRedeemUnblindedToken_payment_tokens]
    exact h x
  · intro x
    simpa [OnDidSendConfirmation, ProcessRetryQueue_eq, Notify_eq, StopRetrying, Stop]
      using h x
  · intro x
    cases should_retry <;>
    simpa [OnFailedToSendConfirmation, ProcessRetryQueue_eq, Notify_eq, AppendToRetryQueue,
      AppendFailedConfirmation] using h x
  · intro x
    simpa [ProcessRetryQueue_eq] using h x

theorem sampleState_NoDuplicatePaymentToken : NoDuplicatePaymentToken sampleState := by
  intro x
  exact List.nodup_iff_count_le_one.mp (by simp [sampleState]) x

/-- C2 on `sampleState`: redeeming the fresh payment token `payment-2`, and
redeeming `payment-1` a second time, both leave the ledger without duplicate. -/
theorem C2_payment_tokens_never_duplicated_witness :
    NoDuplicatePaymentToken sampleState ∧
    NoDuplicatePaymentToken
      (OnDidRedeemUnblindedToken sampleEnv sampleConfirmation ⟨"payment-2"⟩ sampleState) ∧
    NoDuplicatePaymentToken
      (OnDidRedeemUnblindedToken sampleEnv sampleConfirmation ⟨"payment-1"⟩ sampleState) :=
  ⟨sampleState_NoDuplicatePaymentToken,
   (C2_payment_tokens_never_duplicated sampleEnv ⟨0⟩
      ⟨"transaction-1", "creative-1", ConfirmationType.kDefined 1, AdType.kDefined 1, ⟨7⟩⟩
      sampleConfirmation true ⟨"payment-2"⟩ sampleState
      sampleState_NoDuplicatePaymentToken).2.2.1,
   (C2_payment_tokens_never_duplicated sampleEnv ⟨0⟩
      ⟨"transaction-1", "creative-1", ConfirmationType.kDefined 1, AdType.kDefined 1, ⟨7⟩⟩
      sampleConfirmation true ⟨"payment-1"⟩ sampleState
      sampleState_NoDuplicatePaymentToken).2.2.1⟩

/-! ## The arithmetic of `GenerateTokensForValue` -/

theorem Double.leadingBit_step (n : Nat) (state : Nat × Nat) (w : Nat)
    (hr : state.1 = n / 2 ^ state.2) (hpos : 0 < state.1) (hlt : state.1 < 2 ^ (w + w)) :
    (Double.leadingBitStep state w).1 = n / 2 ^ (Double.leadingBitStep state w).2 ∧
      0 < (Double.leadingBitStep state w).1 ∧ (Double.leadingBitStep state w).1 < 2 ^ w := by
  unfold Double.leadingBitStep
  by_cases h : 2 ^ w ≤ state.1
  · simp only [h, if_true]
    refine ⟨?_, ?_, ?_⟩
    · rw [hr, Nat.div_div_eq_div_mul, ← pow_add]
    · exact Nat.div_pos h (by positivity)
    · rw [Nat.div_lt_iff_lt_mul (by positivity), ← pow_add]
      exact hlt
  · simp only [h, if_false]
    exact ⟨hr, hpos, by omega⟩

theorem Double.leadingBit_eq (n : Nat) :
    Double.leadingBit n =
      (Double.leadingBitStep (Double.leadingBitStep (Double.leadingBitStep
        (Double.leadingBitStep (Double.leadingBitStep (Double.leadingBitStep
          (Double.leadingBitStep (Double.leadingBitStep (n, 0) 128) 64) 32) 16) 8) 4) 2) 1).2 := by
  simp only [Double.leadingBit, List.foldl]

theorem Double.leadingBit_spec (n : Nat) (hpos : 0 < n) (hlt : n < 2 ^ 256) :
    2 ^ Double.leadingBit n ≤ n ∧ n < 2 ^ (Double.leadingBit n + 1) := by
  have s1 := Double.leadingBit_step n (n, 0) 128 (by simp) hpos hlt
  have s2 := Double.leadingBit_step n _ 64 s1.1 s1.2.1 s1.2.2
  have s3 := Double.leadingBit_step n _ 32 s2.1 s2.2.1 s2.2.2
  have s4 := Double.leadingBit_step n _ 16 s3.1 s3.2.1 s3.2.2
  have s5 := Double.leadingBit_step n _ 8 s4.1 s4.2.1 s4.2.2
  have s6 := Double.leadingBit_step n _ 4 s5.1 s5.2.1 s5.2.2
  have s7 := Double.leadingBit_step n _ 2 s6.1 s6.2.1 s6.2.2
  have s8 := Double.leadingBit_step n _ 1 s7.1 s7.2.1 s7.2.2
  rw [Double.leadingBit_eq]
  obtain ⟨h1, h2, h3⟩ := s8
  generalize (Double.leadingBitStep _ 1) = p at h1 h2 h3 ⊢
  have hp : p.1 = 1 := by omega
  rw [hp] at h1
  have hpow : 0 < 2 ^ p.2 := by positivity
  have hd := Nat.div_add_mod n (2 ^ p.2)
  have hm := Nat.mod_lt n hpow
  rw [← h1] at hd
  constructor
  · omega
  · rw [pow_succ]
    omega
theorem Double.leadingBit_unique (n l : Nat) (h1 : 2 ^ l ≤ n) (h2 : n < 2 ^ (l + 1))
    (hlt : n < 2 ^ 256) : Double.leadingBit n = l := by
  have hpos : 0 < n := lt_of_lt_of_le (by positivity) h1
  obtain ⟨s1, s2⟩ := Double.leadingBit_spec n hpos hlt
  rcases Nat.lt_trichotomy (Double.leadingBit n) l with h | h | h
  · have : 2 ^ (Double.leadingBit n + 1) ≤ 2 ^ l := Nat.pow_le_pow_right (by norm_num) h
    omega
  · exact h
  · have : 2 ^ (l + 1) ≤ 2 ^ Double.leadingBit n := Nat.pow_le_pow_right (by norm_num) h
    omega

/-- The `double` made for an integer `c` with `l + 1 <= 53` binary digits: the
exponent field is `l + 1023` and the significand `c * 2 ^ (52 - l)`. -/
theorem Double.nearest_int (negative : Bool) (c l : Nat) (h1 : 2 ^ l ≤ c)
    (h2 : c < 2 ^ (l + 1)) (hl : l ≤ 52) :
    Double.nearest negative c 1 0 =
      ⟨(if negative then 2 ^ 63 else 0) + ((l + 1022) * 2 ^ 52 + c * 2 ^ (52 - l))⟩ := by
  have hL : Double.leadingBit (c * 2 ^ 128) = l + 128 := by
    apply Double.leadingBit_unique
    · rw [pow_add]
      exact Nat.mul_le_mul_right _ h1
    · rw [show l + 128 + 1 = (l + 1) + 128 by omega, pow_add]
      exact Nat.mul_lt_mul_of_pos_right h2 (by positivity)
    · calc c * 2 ^ 128 < 2 ^ (l + 1) * 2 ^ 128 := Nat.mul_lt_mul_of_pos_right h2 (by positivity)
        _ ≤ 2 ^ 53 * 2 ^ 128 := Nat.mul_le_mul_right _ (Nat.pow_le_pow_right (by norm_num) (by omega))
        _ ≤ 2 ^ 256 := by
          rw [← pow_add]
          exact Nat.pow_le_pow_right (by norm_num) (by norm_num)
  have hunit : max (((l + 128 : Nat) : Int) + (0 - 128) - 52) (-1074) = (l : Int) - 52 := by
    rw [max_eq_left] <;> omega
  have hdropped : ((l : Int) - 52 - (0 - 128)).toNat = l + 76 := by omega
  have hsplit : c * 2 ^ 128 = c * 2 ^ (52 - l) * 2 ^ (l + 76) := by
    have h128 : 52 - l + (l + 76) = 128 := by omega
    rw [mul_assoc, ← pow_add, h128]
  have hkept : c * 2 ^ 128 / 2 ^ (l + 76) = c * 2 ^ (52 - l) := by
    rw [hsplit]
    exact Nat.mul_div_cancel _ (by positivity)
  have hrest : c * 2 ^ 128 % 2 ^ (l + 76) = 0 := by
    rw [hsplit]
    exact Nat.mul_mod_left _ _
  have hK2 : c * 2 ^ (52 - l) < 2 ^ 53 := by
    calc c * 2 ^ (52 - l) < 2 ^ (l + 1) * 2 ^ (52 - l) :=
          Nat.mul_lt_mul_of_pos_right h2 (by positivity)
      _ = 2 ^ 53 := by
          have h53 : l + 1 + (52 - l) = 53 := by omega
          rw [← pow_add, h53]
  have hhalf : 0 < 2 ^ (l + 76 - 1) := by positivity
  have hmag : ((l : Int) - 52 + 1074).toNat = l + 1022 := by omega
  simp only [Double.nearest, Nat.div_one, Nat.mod_one, hL, hunit, hdropped, hkept, hrest, hmag]
  have hne : ((0 : Nat) == 2 ^ (l + 76 - 1)) = false := by
    rw [beq_eq_false_iff_ne]
    omega
  have hlt0 : decide (2 ^ (l + 76 - 1) < 0) = false := by
    rw [decide_eq_false_iff_not]
    omega
  have hnot : ¬ 2047 * 2 ^ 52 ≤ (l + 1022) * 2 ^ 52 + c * 2 ^ (52 - l) := by omega
  simp only [hne, hlt0, Bool.false_and, Bool.or_false, Bool.false_eq_true, if_false]
  rw [if_neg hnot]
/-- The fields of the pattern `nearest` makes for an integer. -/
theorem Double.fields_of_int (negative : Bool) (l K : Nat) (hl : l ≤ 52) (hK1 : 2 ^ 52 ≤ K)
    (hK2 : K < 2 ^ 53) :
    Double.sign ⟨(if negative then 2 ^ 63 else 0) + ((l + 1022) * 2 ^ 52 + K)⟩ = negative ∧
    Double.exponent ⟨(if negative then 2 ^ 63 else 0) + ((l + 1022) * 2 ^ 52 + K)⟩ = l + 1023 ∧
    Double.fraction ⟨(if negative then 2 ^ 63 else 0) + ((l + 1022) * 2 ^ 52 + K)⟩
      = K - 2 ^ 52 := by
  cases negative
  · simp only [Double.sign, Double.exponent, Double.fraction, Bool.false_eq_true, if_false]
    refine ⟨?_, ?_, ?_⟩
    · rw [beq_eq_false_iff_ne]
      omega
    · omega
    · omega
  · simp only [Double.sign, Double.exponent, Double.fraction, if_true]
    refine ⟨?_, ?_, ?_⟩
    · rw [beq_iff_eq]
      omega
    · omega
    · omega

/-- An integer `c` of at most 53 binary digits is converted back from the
`double` made for it, when it fits an `int`. -/
theorem Double.toInt_nearest_int (undefined : Double → Int) (negative : Bool) (c : Nat)
    (hc1 : 0 < c) (hc2 : c < 2 ^ 53)
    (hrange : if negative then c ≤ 2 ^ 31 else c < 2 ^ 31) :
    Double.toInt undefined (Double.nearest negative c 1 0)
      = if negative then -(c : Int) else (c : Int) := by
  have h1 : 2 ^ c.log2 ≤ c := Nat.log2_self_le (by omega)
  have h2 : c < 2 ^ (c.log2 + 1) := Nat.lt_log2_self
  have hl : c.log2 ≤ 52 := by
    by_contra hcon
    have : 2 ^ 53 ≤ 2 ^ c.log2 := Nat.pow_le_pow_right (by norm_num) (by omega)
    omega
  generalize c.log2 = l at h1 h2 hl
  rw [Double.nearest_int negative c l h1 h2 hl]
  have hK1 : 2 ^ 52 ≤ c * 2 ^ (52 - l) := by
    calc 2 ^ 52 = 2 ^ l * 2 ^ (52 - l) := by
          have h52 : l + (52 - l) = 52 := by omega
          rw [← pow_add, h52]
      _ ≤ c * 2 ^ (52 - l) := Nat.mul_le_mul_right _ h1
  have hK2 : c * 2 ^ (52 - l) < 2 ^ 53 := by
    calc c * 2 ^ (52 - l) < 2 ^ (l + 1) * 2 ^ (52 - l) :=
          Nat.mul_lt_mul_of_pos_right h2 (by positivity)
      _ = 2 ^ 53 := by
          have h53 : l + 1 + (52 - l) = 53 := by omega
          rw [← pow_add, h53]
  obtain ⟨hs, he, hf⟩ := Double.fields_of_int negative l _ hl hK1 hK2
  have hnan : Double.isNaN ⟨(if negative then 2 ^ 63 else 0) +
      ((l + 1022) * 2 ^ 52 + c * 2 ^ (52 - l))⟩ = false := by
    simp only [Double.isNaN, he, Bool.and_eq_false_iff, beq_eq_false_iff_ne]
    left
    omega
  have hinf : Double.isInf ⟨(if negative then 2 ^ 63 else 0) +
      ((l + 1022) * 2 ^ 52 + c * 2 ^ (52 - l))⟩ = false := by
    simp only [Double.isInf, he, Bool.and_eq_false_iff, beq_eq_false_iff_ne]
    left
    omega
  have hsig : Double.significand ⟨(if negative then 2 ^ 63 else 0) +
      ((l + 1022) * 2 ^ 52 + c * 2 ^ (52 - l))⟩ = c * 2 ^ (52 - l) := by
    have hne : (l + 1023 == 0) = false := by
      rw [beq_eq_false_iff_ne]
      omega
    simp only [Double.significand, he, hf, hne, Bool.false_eq_true, if_false]
    omega
  have hscale : Double.scale ⟨(if negative then 2 ^ 63 else 0) +
      ((l + 1022) * 2 ^ 52 + c * 2 ^ (52 - l))⟩ = (l : Int) - 52 := by
    have hne : (l + 1023 == 0) = false := by
      rw [beq_eq_false_iff_ne]
      omega
    simp only [Double.scale, he, hne, Bool.false_eq_true, if_false]
    push_cast
    omega
  have hmagnitude :
      (if 0 ≤ (l : Int) - 52 then c * 2 ^ (52 - l) * 2 ^ ((l : Int) - 52).toNat
        else c * 2 ^ (52 - l) / 2 ^ min (-((l : Int) - 52)).toNat 64) = c := by
    by_cases h : 0 ≤ (l : Int) - 52
    · have h52 : l = 52 := by omega
      subst h52
      simp
    · have hp : min (-((l : Int) - 52)).toNat 64 = 52 - l := by omega
      rw [if_neg h, hp]
      exact Nat.mul_div_cancel _ (by positivity)
  simp only [Double.toInt, hnan, hinf, Bool.or_self, Bool.false_eq_true, if_false, hsig, hscale,
    Double.places, hmagnitude, hs]
  cases negative
  · simp only [Bool.false_eq_true, if_false] at hrange ⊢
    rw [if_pos]
    constructor <;> omega
  · simp only [if_true] at hrange ⊢
    rw [if_pos]
    constructor <;> omega
theorem ceil_natCast_div (n d : Nat) (hd : 0 < d) :
    ⌈(n : ℚ) / (d : ℚ)⌉ = if n % d = 0 then ((n / d : Nat) : Int) else ((n / d : Nat) : Int) + 1 := by
  have hdq : (0 : ℚ) < (d : ℚ) := by exact_mod_cast hd
  have hdm := Nat.div_add_mod n d
  have hlt := Nat.mod_lt n hd
  generalize n / d = q at hdm ⊢
  generalize n % d = r at hdm hlt ⊢
  have hdecomp : (n : ℚ) = (d : ℚ) * (q : ℚ) + (r : ℚ) := by exact_mod_cast hdm.symm
  have hr : (r : ℚ) < (d : ℚ) := by exact_mod_cast hlt
  rw [Int.ceil_eq_iff]
  split
  · rename_i h0
    subst h0
    simp only [Int.cast_natCast, Nat.cast_zero, add_zero] at hdecomp ⊢
    constructor
    · rw [lt_div_iff₀ hdq]
      nlinarith
    · rw [div_le_iff₀ hdq]
      nlinarith
  · rename_i h0
    have hpos : (0 : ℚ) < (r : ℚ) := by exact_mod_cast Nat.pos_of_ne_zero h0
    simp only [Int.cast_natCast, Int.cast_add, Int.cast_one] at hdecomp ⊢
    constructor
    · rw [lt_div_iff₀ hdq]
      nlinarith
    · rw [div_le_iff₀ hdq]
      nlinarith

theorem ceil_neg_natCast_div (n d : Nat) :
    ⌈-((n : ℚ) / (d : ℚ))⌉ = -((n / d : Nat) : Int) := by
  rw [Int.ceil_neg, Rat.floor_natCast_div_natCast]
  rfl
theorem Double.fraction_lt (x : Double) : x.fraction < 2 ^ 52 :=
  Nat.mod_lt _ (by norm_num)

theorem Double.significand_lt (x : Double) : x.significand < 2 ^ 53 := by
  have h := x.fraction_lt
  unfold Double.significand
  split <;> omega

theorem Double.significand_pos (x : Double) (hz : x.isZero = false) : 0 < x.significand := by
  unfold Double.significand
  unfold Double.isZero at hz
  by_cases he : x.exponent = 0
  · simp only [he, beq_self_eq_true, Bool.true_and, beq_eq_false_iff_ne] at hz
    simp only [he, beq_self_eq_true, if_true]
    omega
  · have hne : (x.exponent == 0) = false := by rwa [beq_eq_false_iff_ne]
    simp only [hne, Bool.false_eq_true, if_false]
    omega

/-- The conversion of a finite `double` whose truncated value fits an `int`. -/
theorem Double.toInt_finite (undefined : Double → Int) (x : Double) (hfin : x.exponent ≠ 2047)
    (magnitude : Nat)
    (hm : (if 0 ≤ x.scale then x.significand * 2 ^ x.scale.toNat
      else x.significand / 2 ^ x.places) = magnitude)
    (hlo : -2 ^ 31 ≤ (if x.sign then -(magnitude : Int) else (magnitude : Int)))
    (hhi : (if x.sign then -(magnitude : Int) else (magnitude : Int)) < 2 ^ 31) :
    Double.toInt undefined x = if x.sign then -(magnitude : Int) else (magnitude : Int) := by
  have hne : (x.exponent == 2047) = false := by rwa [beq_eq_false_iff_ne]
  simp only [Double.toInt, Double.isNaN, Double.isInf, hne, Bool.false_and, Bool.or_self,
    Bool.false_eq_true, if_false, hm]
  rw [if_pos ⟨hlo, hhi⟩]

/-- Cutting the number of places at 64 does not change what is left of a
significand above the unit. -/
theorem Double.places_spec (m k : Nat) (hm : m < 2 ^ 53) :
    m / 2 ^ min k 64 = m / 2 ^ k ∧ (m % 2 ^ min k 64 = 0 ↔ m % 2 ^ k = 0) := by
  by_cases hk : k ≤ 64
  · rw [min_eq_left hk]
    exact ⟨rfl, Iff.rfl⟩
  · have h64 : min k 64 = 64 := min_eq_right (by omega)
    have hbig : 2 ^ 64 ≤ 2 ^ k := Nat.pow_le_pow_right (by norm_num) (by omega)
    have h1 : m < 2 ^ 64 := by omega
    have h2 : m < 2 ^ k := by omega
    rw [h64, Nat.div_eq_of_lt h1, Nat.div_eq_of_lt h2, Nat.mod_eq_of_lt h1, Nat.mod_eq_of_lt h2]
    exact ⟨rfl, Iff.rfl⟩
/-- The number a `double` with a negative scale stands for, as a quotient of
natural numbers. -/
theorem Double.toRat_of_neg_scale (x : Double) (hs : x.scale < 0) :
    x.toRat = (if x.sign then -1 else 1) *
      ((x.significand : ℚ) / ((2 ^ (-x.scale).toNat : Nat) : ℚ)) := by
  have hk : x.scale = -(((-x.scale).toNat : Nat) : Int) := by omega
  unfold Double.toRat
  congr 1
  conv_lhs => rw [hk]
  rw [zpow_neg, zpow_natCast, div_eq_mul_inv]
  push_cast
  rfl

/-- The number a `double` with a non-negative scale stands for is an integer. -/
theorem Double.toRat_of_nonneg_scale (x : Double) (hs : 0 ≤ x.scale) :
    x.toRat = (((if x.sign then -((x.significand * 2 ^ x.scale.toNat : Nat) : Int)
      else ((x.significand * 2 ^ x.scale.toNat : Nat) : Int)) : Int) : ℚ) := by
  have hk : x.scale = ((x.scale.toNat : Nat) : Int) := by omega
  unfold Double.toRat
  conv_lhs => rw [hk]
  rw [zpow_natCast]
  split <;> push_cast <;> ring

/-- On a finite `double` whose `ceil` fits an `int`, `ceil` followed by the
conversion to `int` is the ceiling of the number the `double` stands for. -/
theorem Double.toInt_ceil (undefined : Double → Int) (x : Double) (hfin : x.exponent ≠ 2047)
    (hlo : -2 ^ 31 ≤ ⌈x.toRat⌉) (hhi : ⌈x.toRat⌉ < 2 ^ 31) :
    Double.toInt undefined (Double.ceil x) = ⌈x.toRat⌉ := by
  have hne : (x.exponent == 2047) = false := by rwa [beq_eq_false_iff_ne]
  have hnan : x.isNaN = false := by simp [Double.isNaN, hne]
  have hinf : x.isInf = false := by simp [Double.isInf, hne]
  by_cases hs : 0 ≤ x.scale
  · -- an integer
    have hceil : Double.ceil x = x := by
      simp only [Double.ceil, hs, if_true, ite_self]
    rw [hceil]
    rw [Double.toRat_of_nonneg_scale x hs, Int.ceil_intCast] at hlo hhi ⊢
    rw [Double.toInt_finite undefined x hfin (x.significand * 2 ^ x.scale.toNat)
      (by rw [if_pos hs]) hlo hhi]
  · have hs' : x.scale < 0 := by omega
    have hpow : 0 < 2 ^ (-x.scale).toNat := by positivity
    obtain ⟨hwhole, hmod⟩ := Double.places_spec x.significand (-x.scale).toNat x.significand_lt
    rw [Double.toRat_of_neg_scale x hs'] at hlo hhi ⊢
    by_cases hz : x.isZero = true
    · -- a zero
      have hceil : Double.ceil x = x := by
        simp only [Double.ceil, hz, Bool.or_true, if_true]
      have hsig : x.significand = 0 := by
        simp only [Double.isZero, Bool.and_eq_true, beq_iff_eq] at hz
        simp [Double.significand, hz.1, hz.2]
      rw [hceil, hsig]
      simp only [Nat.cast_zero, zero_div, mul_zero, Int.ceil_zero]
      rw [Double.toInt_finite undefined x hfin 0 (by rw [if_neg hs, hsig, Nat.zero_div])
        (by split <;> simp) (by split <;> simp)]
      split <;> simp
    · have hz' : x.isZero = false := by simpa using hz
      have hpos := x.significand_pos hz'
      have hlt := x.significand_lt
      have hdm := Nat.div_add_mod x.significand (2 ^ (-x.scale).toNat)
      have hle := Nat.div_le_self x.significand (2 ^ (-x.scale).toNat)
      cases hsign : x.sign
      · -- a positive number
        simp only [hsign, Bool.false_eq_true, if_false, one_mul] at hlo hhi ⊢
        rw [ceil_natCast_div _ _ hpow] at hlo hhi ⊢
        have hceil : Double.ceil x = Double.nearest false
            (if x.significand % 2 ^ (-x.scale).toNat = 0 then x.significand / 2 ^ (-x.scale).toNat
              else x.significand / 2 ^ (-x.scale).toNat + 1) 1 0 := by
          simp only [Double.ceil, hnan, hinf, hz', Bool.or_self, Bool.false_eq_true, if_false, hs,
            hsign, Double.places, hwhole]
          congr 1
          by_cases h0 : x.significand % 2 ^ (-x.scale).toNat = 0
          · simp [h0, hmod.mpr h0]
          · have h1 : ¬ x.significand % 2 ^ min (-x.scale).toNat 64 = 0 := fun h => h0 (hmod.mp h)
            simp [h0, h1]
        rw [hceil]
        generalize x.significand / 2 ^ (-x.scale).toNat = q at hdm hle hlo hhi ⊢
        by_cases h0 : x.significand % 2 ^ (-x.scale).toNat = 0
        · simp only [h0, if_true] at hlo hhi ⊢
          rw [Double.toInt_nearest_int undefined false q (by
            rcases Nat.eq_zero_or_pos q with h | h
            · rw [h, h0] at hdm
              omega
            · exact h) (by omega) (by
            simp only [Bool.false_eq_true, if_false]
            omega)]
          simp
        · simp only [h0, if_false] at hlo hhi ⊢
          rw [Double.toInt_nearest_int undefined false (q + 1) (by omega) (by omega) (by
            simp only [Bool.false_eq_true, if_false]
            omega)]
          simp
      · -- a negative number
        simp only [hsign, if_true, neg_one_mul] at hlo hhi ⊢
        rw [ceil_neg_natCast_div] at hlo hhi ⊢
        by_cases hw : x.significand / 2 ^ (-x.scale).toNat = 0
        · have hceil : Double.ceil x = Double.signedZero true := by
            simp [Double.ceil, hnan, hinf, hz', hs, hsign, Double.places, hwhole, hw]
          rw [hceil, hw]
          rfl
        · have hceil : Double.ceil x
              = Double.nearest true (x.significand / 2 ^ (-x.scale).toNat) 1 0 := by
            simp [Double.ceil, hnan, hinf, hz', hs, hsign, Double.places, hwhole, hw]
          rw [hceil]
          generalize x.significand / 2 ^ (-x.scale).toNat = q at hw hle hlo hhi ⊢
          rw [Double.toInt_nearest_int undefined true q (by omega) (by omega) (by
            simp only [if_true]
            omega)]
          simp

/-- The model on known values: 1.0 / 3.0 is 0x3FD5555555555555, the quotient
of 3 + 2^-50 and 1 + 2^-52 rounds to 3.0, 1.0 / 0.0 is infinity, 0.0 / 0.0 is
a NaN, -5.0 / 2.0 is -2.5; `ceil` takes -2.5 to -2.0, -0.5 to -0.0 and 3.5 to
4.0; -2.0 and 2147483647.0 are converted to -2 and 2147483647, and the
conversion of 2147483648.0 is undefined; a NaN is neither `> 0.0` nor
`<= 0.0`. -/
theorem Double.arithmetic_examples :
    Double.div ⟨0x3FF0000000000000⟩ Double.three = ⟨0x3FD5555555555555⟩ ∧
    Double.div ⟨0x4008000000000002⟩ ⟨0x3FF0000000000001⟩ = Double.three ∧
    Double.div ⟨0x3FF0000000000000⟩ Double.zero = Double.infinity false ∧
    (Double.div Double.zero Double.zero).isNaN = true ∧
    Double.div ⟨0xC014000000000000⟩ Double.two = ⟨0xC004000000000000⟩ ∧
    Double.ceil ⟨0xC004000000000000⟩ = ⟨0xC000000000000000⟩ ∧
    Double.ceil ⟨0xBFE0000000000000⟩ = ⟨0x8000000000000000⟩ ∧
    Double.ceil ⟨0x400C000000000000⟩ = ⟨0x4010000000000000⟩ ∧
    Double.toInt (fun _ => 0) ⟨0xC000000000000000⟩ = -2 ∧
    Double.toInt (fun _ => 0) ⟨0x41DFFFFFFFC00000⟩ = 2147483647 ∧
    Double.toInt (fun _ => 12345) ⟨0x41E0000000000000⟩ = 12345 ∧
    Double.gt Double.nan Double.zero = false ∧
    Double.le Double.nan Double.zero = false := by
  refine ⟨?_, ?_, ?_, ?_, ?_, ?_, ?_, ?_, ?_, ?_, ?_, ?_, ?_⟩ <;> decide

/-- In IEEE arithmetic a value that is `<= 0.0` is not `> 0.0`. -/
theorem Double.gt_zero_of_le_zero (value : Double) (h : Double.le value Double.zero = true) :
    Double.gt value Double.zero = false := by
  simp only [Double.le, Double.gt, Bool.and_eq_true, decide_eq_true_eq] at h ⊢
  simp only [Bool.and_eq_false_iff, decide_eq_false_iff_not]
  right
  omega

/-- The numbers the `double`s of the worked examples stand for: 0, 2, 5/2, 3,
5 and `2 ^ -1074`. -/
theorem Double.toRat_examples :
    Double.zero.toRat = 0 ∧ Double.two.toRat = 2 ∧ Double.twoAndHalf.toRat = 5 / 2 ∧
    Double.three.toRat = 3 ∧ Double.five.toRat = 5 ∧
    Double.denormMin.toRat = 1 / 2 ^ 1074 := by
  have h0 : Double.zero.sign = false ∧ Double.zero.significand = 0 := by decide
  have h2 : Double.two.sign = false ∧ Double.two.significand = 2 ^ 52 ∧
      Double.two.scale = -51 := by decide
  have h25 : Double.twoAndHalf.sign = false ∧ Double.twoAndHalf.significand = 5 * 2 ^ 50 ∧
      Double.twoAndHalf.scale = -51 := by decide
  have h3 : Double.three.sign = false ∧ Double.three.significand = 3 * 2 ^ 51 ∧
      Double.three.scale = -51 := by decide
  have h5 : Double.five.sign = false ∧ Double.five.significand = 5 * 2 ^ 50 ∧
      Double.five.scale = -50 := by decide
  have hd : Double.denormMin.sign = false ∧ Double.denormMin.significand = 1 ∧
      Double.denormMin.scale = -1074 := by decide
  refine ⟨?_, ?_, ?_, ?_, ?_, ?_⟩
  · simp [Double.toRat, h0.1, h0.2]
  · rw [Double.toRat, h2.1, h2.2.1, h2.2.2, zpow_neg]
    norm_num
  · rw [Double.toRat, h25.1, h25.2.1, h25.2.2, zpow_neg]
    norm_num
  · rw [Double.toRat, h3.1, h3.2.1, h3.2.2, zpow_neg]
    norm_num
  · rw [Double.toRat, h5.1, h5.2.1, h5.2.2, zpow_neg]
    norm_num
  · rw [Double.toRat, hd.1, hd.2.1, hd.2.2, zpow_neg]
    simp only [Bool.false_eq_true, if_false, Nat.cast_one, one_mul, one_div, inv_inj]
    exact zpow_natCast 2 1074

theorem Double.five_div_two : Double.div Double.five Double.two = Double.twoAndHalf := by
  decide

theorem Double.ceil_twoAndHalf : Double.ceil Double.twoAndHalf = Double.three := by
  decide

theorem Double.toInt_three (undefined : Double → Int) :
    Double.toInt undefined Double.three = 3 := rfl

theorem Double.denormMin_div_two : Double.div Double.denormMin Double.two = Double.zero := by
  decide

theorem Double.ceil_zero : Double.ceil Double.zero = Double.zero := by
  decide

theorem Double.toInt_zero (undefined : Double → Int) :
    Double.toInt undefined Double.zero = 0 := rfl

/-- The quotient of 5e-324 and 2.0 rounds to 0.0, so no token is asked for. -/
theorem token_count_denormMin (undefined : Double → Int) :
    token_count (ieeeEnv undefined) Double.denormMin = 0 := by
  have hgt : Double.gt Double.denormMin ⟨0⟩ = true := by decide
  simp [token_count, ieeeEnv, ieeeOps, hgt, Double.denormMin_div_two, Double.ceil_zero,
    Double.toInt_zero]

/-- The confirmation built for the value 5e-324 on `sampleState`. -/
theorem denormMinConfirmation_eq (undefined : Double → Int) :
    denormMinConfirmation undefined =
      { id := "guid-9", transaction_id := "transaction-1", creative_instance_id := "creative-1"
        type := ConfirmationType.kDefined 1, ad_type := AdType.kDefined 1
        value := Double.denormMin, created_at := ⟨100⟩
        unblinded_token := some ⟨"unblinded-1"⟩
        tokens := [], blinded_tokens := [], user_data := "user-data"
        credential := some "unblinded-1/guid-9/user-data" } := by
  have hr : (ieeeEnv undefined).ShouldRewardUser = true := rfl
  have ht : sampleState.unblinded_tokens = ⟨"unblinded-1"⟩ :: [⟨"unblinded-2"⟩] := rfl
  have hg : GenerateTokensForValue (ieeeEnv undefined) Double.denormMin = [] := by
    rw [GenerateTokensForValue, token_count_denormMin]
    rfl
  rw [denormMinConfirmation, CreateConfirmation_rewarded _ _ _ _ _ _ _ _ _ _ _ hr ht, hg]
  rfl

/-! ## C3: the number of tokens generated for a value -/

/-- C3. `GenerateTokensForValue(value)` asks the generator for `token_count`
tokens, where `token_count` is `ceil(value / d)`, computed on `double`s and
converted to `int`, when `value > 0.0` and a smallest non-zero denomination `d`
is available, and 1 when `value` is not greater than 0.0 or no denomination is
available.  In IEEE arithmetic `value <= 0.0` is a case of the latter, the
value 0.0 gives 1, the value 5.0 with the denomination 2.0 gives 3, and in
general `token_count` is the ceiling of the number the `double` quotient
`value / d` stands for, whenever that quotient is finite and its ceiling fits
an `int`. -/
theorem C3_token_count_formula (env : Env) (value : Double) :
    GenerateTokensForValue env value = env.Generate (token_count env value) ∧
    (∀ d, env.ops.gt value env.ops.zero = true → env.smallest_denomination = some d →
      token_count env value = env.ops.toInt (env.ops.ceil (env.ops.div value d))) ∧
    (env.ops.gt value env.ops.zero = false → token_count env value = 1) ∧
    (env.smallest_denomination = none → token_count env value = 1) ∧
    (∀ undefined, env.ops = ieeeOps undefined →
      (Double.le value Double.zero = true → token_count env value = 1) ∧
      (value = Double.zero → token_count env value = 1) ∧
      (value = Double.five → env.smallest_denomination = some Double.two →
        token_count env value = 3 ∧ GenerateTokensForValue env value = env.Generate 3) ∧
      (∀ d, Double.gt value Double.zero = true → env.smallest_denomination = some d →
        (Double.div value d).exponent ≠ 2047 →
        -2 ^ 31 ≤ ⌈(Double.div value d).toRat⌉ → ⌈(Double.div value d).toRat⌉ < 2 ^ 31 →
        token_count env value = ⌈(Double.div value d).toRat⌉)) := by
  refine ⟨rfl, ?_, ?_, ?_, ?_⟩
  · intro d hgt hd
    simp [token_count, hgt, hd]
  · intro hgt
    simp [token_count, hgt]
  · intro hd
    simp only [token_count, hd]
    split <;> rfl
  · intro undefined hops
    have hle : Double.le value Double.zero = true → token_count env value = 1 := by
      intro h
      simp [token_count, hops, ieeeOps, ← Double.zero.eq_def, Double.gt_zero_of_le_zero value h]
    refine ⟨hle, ?_, ?_, ?_⟩
    · intro hv
      subst hv
      exact hle rfl
    · intro hv hd
      subst hv
      have h3 : token_count env Double.five = 3 := by
        have hgt : Double.gt Double.five ⟨0⟩ = true := by decide
        simp [token_count, hops, ieeeOps, hd, hgt, Double.five_div_two, Double.ceil_twoAndHalf,
          Double.toInt_three]
      exact ⟨h3, by rw [GenerateTokensForValue, h3]⟩
    · intro d hgt hd hfin hlo hhi
      have hgt' : Double.gt value ⟨0⟩ = true := hgt
      simp only [token_count, hops, ieeeOps, hd, hgt', if_true]
      exact Double.toInt_ceil undefined _ hfin hlo hhi

/-- C3 on `ieeeEnv`: 5.0 is the significand `5 * 2 ^ 50` at scale -50 and 2.0
the significand `2 ^ 52` at scale -51; their quotient is 2.5, whose `ceil` is
3.0, so three tokens are generated for 5.0 and one for 0.0. -/
theorem C3_token_count_formula_witness :
    (Double.five.significand = 5 * 2 ^ 50 ∧ Double.five.scale = -50) ∧
    (Double.two.significand = 2 ^ 52 ∧ Double.two.scale = -51) ∧
    Double.div Double.five Double.two = Double.twoAndHalf ∧
    Double.ceil Double.twoAndHalf = Double.three ∧
    token_count (ieeeEnv (fun _ => 0)) Double.five = 3 ∧
    GenerateTokensForValue (ieeeEnv (fun _ => 0)) Double.five
      = [⟨"fresh"⟩, ⟨"fresh"⟩, ⟨"fresh"⟩] ∧
    token_count (ieeeEnv (fun _ => 0)) Double.zero = 1 :=
  ⟨by decide, by decide, Double.five_div_two, Double.ceil_twoAndHalf,
   ((C3_token_count_formula (ieeeEnv (fun _ => 0)) Double.five).2.2.2.2 _ rfl).2.2.1 rfl rfl |>.1,
   ((C3_token_count_formula (ieeeEnv (fun _ => 0)) Double.five).2.2.2.2 _ rfl).2.2.1 rfl rfl |>.2,
   ((C3_token_count_formula (ieeeEnv (fun _ => 0)) Double.zero).2.2.2.2 _ rfl).2.1 rfl⟩

/-! ## C4: spending unblinded tokens -/

theorem RunUserDataCallback_unblinded_tokens (env : Env) (callback : UserDataCallback)
    (user_data : Value) (s : Confirmations) :
    (RunUserDataCallback env callback user_data s).unblinded_tokens =
      if env.ShouldRewardUser then s.unblinded_tokens.tail else s.unblinded_tokens := by
  cases callback <;>
    simp [RunUserDataCallback, Redeem, AppendToRetryQueue, AppendFailedConfirmation,
      CreateConfirmation_frame]

/-- C4. For every call of `CreateConfirmation`: the returned confirmation
carries a credential exactly when the user is reward-eligible and the unspent
tokens are not empty; in that case the unspent tokens before the call are the
token stored in `confirmation.unblinded_token` followed by the unspent tokens
after the call, so their count went down by exactly one; otherwise the unspent
tokens are unchanged.  The operations that do not build a confirmation
(`ProcessRetryQueue`, `OnRetry`, `StopRetrying`, `AppendToRetryQueue`,
`RemoveFromRetryQueue`, `OnDidSendConfirmation`, `OnFailedToSendConfirmation`,
`OnDidRedeemUnblindedToken`, `OnIssuersOutOfDate`, `Confirm` when its callback is
posted, and
`OnFailedToRedeemUnblindedToken` unless it rebuilds the confirmation at once)
leave the unspent tokens unchanged. -/
theorem C4_unblinded_token_spend (env : Env) (time : Time) (transaction_id : String)
    (creative_instance_id : String) (confirmation_type : ConfirmationType)
    (ad_type : AdType) (value : Double) (user_data : Value)
    (transaction : TransactionInfo) (c : ConfirmationInfo) (should_retry : Bool)
    (payment_token : UnblindedPaymentTokenInfo) (s : Confirmations) :
    (∀ confirmation s',
      CreateConfirmation env time transaction_id creative_instance_id confirmation_type
        ad_type value user_data s = (confirmation, s') →
      (confirmation.credential.isSome = true ↔
        (env.ShouldRewardUser = true ∧ s.unblinded_tokens ≠ [])) ∧
      (confirmation.credential.isSome = true →
        ∃ t, confirmation.unblinded_token = some t ∧
          s.unblinded_tokens = t :: s'.unblinded_tokens ∧
          s'.unblinded_tokens.length + 1 = s.unblinded_tokens.length) ∧
      (confirmation.credential.isSome = false →
        s'.unblinded_tokens = s.unblinded_tokens)) ∧
    (ProcessRetryQueue s).unblinded_tokens = s.unblinded_tokens ∧
    (∀ s', OnRetry s = some s' → s'.unblinded_tokens = s.unblinded_tokens) ∧
    (StopRetrying s).unblinded_tokens = s.unblinded_tokens ∧
    (AppendToRetryQueue c s).unblinded_tokens = s.unblinded_tokens ∧
    (RemoveFromRetryQueue c s).unblinded_tokens = s.unblinded_tokens ∧
    (OnDidSendConfirmation c s).unblinded_tokens = s.unblinded_tokens ∧
    (OnFailedToSendConfirmation c should_retry s).unblinded_tokens = s.unblinded_tokens ∧
    (OnDidRedeemUnblindedToken env c payment_token s).unblinded_tokens
      = s.unblinded_tokens ∧
    (OnIssuersOutOfDate s).unblinded_tokens = s.unblinded_tokens ∧
    (env.Build time transaction.creative_instance_id transaction.confirmation_type = none →
      (Confirm env time transaction s).unblinded_tokens = s.unblinded_tokens) ∧
    (¬ (should_retry = true ∧ c.was_created = false ∧ s.unblinded_tokens ≠ [] ∧
        (env.Build c.created_at c.creative_instance_id c.type).isSome = true) →
      (OnFailedToRedeemUnblindedToken env c should_retry s).unblinded_tokens
        = s.unblinded_tokens) := by
  refine ⟨?_, ?_, ?_, ?_, ?_, ?_, ?_, ?_, ?_, ?_, ?_, ?_⟩
  · intro confirmation s' hc
    by_cases hr : env.ShouldRewardUser = true
    · cases ht : s.unblinded_tokens with
      | nil =>
          rw [CreateConfirmation_unrewarded _ _ _ _ _ _ _ _ _ (Or.inr ht)] at hc
          cases hc
          simp [ht]
      | cons t rest =>
          rw [CreateConfirmation_rewarded _ _ _ _ _ _ _ _ _ t rest hr ht] at hc
          cases hc
          simp [hr]
    · rw [CreateConfirmation_unrewarded _ _ _ _ _ _ _ _ _ (Or.inl (by simpa using hr))] at hc
      cases hc
      simp [hr]
  · simp [ProcessRetryQueue_eq]
  · intro s' hs'
    cases hq : s.failed_confirmations with
    | nil => rw [OnRetry_nil s hq] at hs'; cases hs'
    | cons x rest =>
        rw [OnRetry_cons s x rest hq] at hs'
        cases hs'
        rfl
  · rfl
  · rfl
  · simp [RemoveFromRetryQueue, RemoveFailedConfirmation]
  · simp [OnDidSendConfirmation, ProcessRetryQueue_eq, Notify_eq, StopRetrying, Stop]
  · cases should_retry <;>
      simp [OnFailedToSendConfirmation, ProcessRetryQueue_eq, Notify_eq, AppendToRetryQueue,
        AppendFailedConfirmation]
  · unfold OnDidRedeemUnblindedToken
    split
    · simp [OnFailedToRedeemUnblindedToken, ProcessRetryQueue_eq, Notify_eq]
    · simp [ProcessRetryQueue_eq, Notify_eq, StopRetrying, Stop]
  · simp [OnIssuersOutOfDate, Notify_eq]
  · intro hb
    simp [Confirm, Build, hb]
  · intro hn
    simp only [OnFailedToRedeemUnblindedToken, ProcessRetryQueue_eq, Notify_eq,
      CreateNewConfirmationAndAppendToRetryQueue, Build]
    by_cases h1 : should_retry = true
    · by_cases h2 : c.was_created = true
      · simp [h1, h2, AppendToRetryQueue, AppendFailedConfirmation]
      · by_cases h3 : s.unblinded_tokens = []
        · simp [h1, h2, h3, UnblindedTokens.IsEmpty, AppendToRetryQueue,
            AppendFailedConfirmation]
        · cases h4 : env.Build c.created_at c.creative_instance_id c.type with
          | none => simp [h1, h2, h3, UnblindedTokens.IsEmpty]
          | some ud =>
              exfalso
              apply hn
              simp [h1, h3, h4]
              simpa using h2
    · simp [h1]

/-- C4 on `sampleState` (reward-eligible user, two unspent tokens): the
confirmation carries a credential, holds the token `unblinded-1`, and one unspent
token, `unblinded-2`, is left. -/
theorem C4_unblinded_token_spend_witness :
    (CreateConfirmation sampleEnv ⟨100⟩ "transaction-1" "creative-1"
      (ConfirmationType.kDefined 1) (AdType.kDefined 1) ⟨7⟩ ⟨"user-data"⟩
      sampleState).1.credential.isSome = true ∧
    ∃ t, (CreateConfirmation sampleEnv ⟨100⟩ "transaction-1" "creative-1"
        (ConfirmationType.kDefined 1) (AdType.kDefined 1) ⟨7⟩ ⟨"user-data"⟩
        sampleState).1.unblinded_token = some t ∧
      sampleState.unblinded_tokens = t :: (CreateConfirmation sampleEnv ⟨100⟩ "transaction-1"
        "creative-1" (ConfirmationType.kDefined 1) (AdType.kDefined 1) ⟨7⟩ ⟨"user-data"⟩
        sampleState).2.unblinded_tokens ∧
      (CreateConfirmation sampleEnv ⟨100⟩ "transaction-1" "creative-1"
        (ConfirmationType.kDefined 1) (AdType.kDefined 1) ⟨7⟩ ⟨"user-data"⟩
        sampleState).2.unblinded_tokens.length + 1 = sampleState.unblinded_tokens.length :=
  ⟨rfl,
   ((C4_unblinded_token_spend sampleEnv ⟨100⟩ "transaction-1" "creative-1"
      (ConfirmationType.kDefined 1) (AdType.kDefined 1) ⟨7⟩ ⟨"user-data"⟩
      ⟨"transaction-1", "creative-1", ConfirmationType.kDefined 1, AdType.kDefined 1, ⟨7⟩⟩
      sampleConfirmation false ⟨"payment-2"⟩ sampleState).1 _ _ rfl).2.1 rfl⟩

/-! ## C5: `ProcessRetryQueue` -/

/-- C5. `ProcessRetryQueue` is a three-way step: with the timer already
scheduled nothing changes; with the timer idle and a non-empty retry queue the
timer becomes scheduled with a delay of 15 seconds; with the timer idle and an
empty queue the timer stays idle.  In every case only the timer can change: the
queue, both token collections and everything else are as before. -/
theorem C5_ProcessRetryQueue_three_way (s : Confirmations) :
    (s.retry_timer_.IsRunning = true → ProcessRetryQueue s = s) ∧
    (s.retry_timer_ = TimerState.Idle → s.failed_confirmations ≠ [] →
      (ProcessRetryQueue s).retry_timer_ = TimerState.Scheduled 15) ∧
    (s.retry_timer_ = TimerState.Idle → s.failed_confirmations = [] →
      (ProcessRetryQueue s).retry_timer_ = TimerState.Idle) ∧
    (ProcessRetryQueue s).failed_confirmations = s.failed_confirmations ∧
    (ProcessRetryQueue s).unblinded_tokens = s.unblinded_tokens ∧
    (ProcessRetryQueue s).unblinded_payment_tokens = s.unblinded_payment_tokens ∧
    ProcessRetryQueue s = { s with retry_timer_ := (ProcessRetryQueue s).retry_timer_ } := by
  rw [ProcessRetryQueue_eq]
  refine ⟨?_, ?_, ?_, rfl, rfl, rfl, rfl⟩
  · intro h
    simp [h]
  · intro h hq
    simp [h, hq, TimerState.IsRunning, kRetryAfterSeconds]
  · intro h hq
    simp [h, hq, TimerState.IsRunning]

/-- C5 on three states: `scheduledState` (timer scheduled) is left as it is,
`queuedState` (idle, two entries queued) gets a 15 second timer, `sampleState`
(idle, empty queue) stays idle. -/
theorem C5_ProcessRetryQueue_three_way_witness :
    ProcessRetryQueue scheduledState = scheduledState ∧
    (ProcessRetryQueue queuedState).retry_timer_ = TimerState.Scheduled 15 ∧
    (ProcessRetryQueue sampleState).retry_timer_ = TimerState.Idle :=
  ⟨(C5_ProcessRetryQueue_three_way scheduledState).1 rfl,
   (C5_ProcessRetryQueue_three_way queuedState).2.1 rfl (by simp [queuedState]),
   (C5_ProcessRetryQueue_three_way sampleState).2.2.1 rfl rfl⟩

/-! ## C6: the timer drains the head of the queue -/

/-- C6. On a retry queue `h :: rest`, `OnRetry` returns, the confirmation it
hands to the redemption client is `h`, and the queue afterwards is `rest`;
nothing else changes.  The same holds for the timer firing (`TimerFired`) on a
scheduled timer, which in addition leaves the timer idle. -/
theorem C6_OnRetry_drains_head (s : Confirmations) (h : ConfirmationInfo)
    (rest : List ConfirmationInfo) (hq : s.failed_confirmations = h :: rest) :
    OnRetry s = some { s with failed_confirmations := rest
                              redeeming := s.redeeming ++ [⟨true, h⟩] } ∧
    (s.retry_timer_.IsRunning = true →
      TimerFired s = some { s with failed_confirmations := rest
                                   redeeming := s.redeeming ++ [⟨true, h⟩]
                                   retry_timer_ := TimerState.Idle }) := by
  exact ⟨OnRetry_cons s h rest hq, TimerFired_cons s h rest hq⟩

/-- C6 on `scheduledState`, whose queue is `[otherConfirmation,
sampleConfirmation]`: `otherConfirmation` is submitted and `sampleConfirmation`
stays queued. -/
theorem C6_OnRetry_drains_head_witness :
    scheduledState.failed_confirmations = [otherConfirmation, sampleConfirmation] ∧
    OnRetry scheduledState =
      some { scheduledState with failed_confirmations := [sampleConfirmation]
                                 redeeming := [⟨true, otherConfirmation⟩] } ∧
    TimerFired scheduledState =
      some { scheduledState with failed_confirmations := [sampleConfirmation]
                                 redeeming := [⟨true, otherConfirmation⟩]
                                 retry_timer_ := TimerState.Idle } :=
  ⟨rfl,
   (C6_OnRetry_drains_head scheduledState otherConfirmation [sampleConfirmation] rfl).1,
   (C6_OnRetry_drains_head scheduledState otherConfirmation [sampleConfirmation] rfl).2 rfl⟩

/-! ## C7: retries in flight -/

theorem overlapRun_step1 :
    Confirm (envWithGuid "guid-a") ⟨1⟩ transactionA (overlapRun 0) = overlapRun 1 := by
  rfl

theorem overlapRun_step2 :
    Confirm (envWithGuid "guid-b") ⟨2⟩ transactionB (overlapRun 1) = overlapRun 2 := by
  rfl

theorem overlapRun_step3 :
    ReportOutcome sampleEnv (Outcome.FailedToRedeemUnblindedToken true)
      { (⟨false, confirmationA⟩ : Redemption).confirmation with was_created := false }
      { overlapRun 2 with redeeming := (overlapRun 2).redeeming.erase ⟨false, confirmationA⟩ }
      = overlapRun 3 := by
  decide

theorem overlapRun_step4 : TimerFired (overlapRun 3) = some (overlapRun 4) := by
  decide

theorem overlapRun_step5 :
    ReportOutcome sampleEnv (Outcome.FailedToRedeemUnblindedToken true)
      { (⟨false, confirmationB⟩ : Redemption).confirmation with was_created := false }
      { overlapRun 4 with redeeming := (overlapRun 4).redeeming.erase ⟨false, confirmationB⟩ }
      = overlapRun 5 := by
  decide

theorem overlapRun_step6 : TimerFired (overlapRun 5) = some (overlapRun 6) := by
  decide

theorem overlapRun_reachable_5 : Reachable (overlapRun 5) := by
  have h0 : Reachable (overlapRun 0) := Reachable.init _ ⟨rfl, rfl, rfl, rfl⟩
  have h1 : Reachable (overlapRun 1) :=
    Reachable.step _ _ h0
      (overlapRun_step1 ▸ Step.confirm (envWithGuid "guid-a") ⟨1⟩ transactionA _ rfl)
  have h2 : Reachable (overlapRun 2) :=
    Reachable.step _ _ h1
      (overlapRun_step2 ▸ Step.confirm (envWithGuid "guid-b") ⟨2⟩ transactionB _ rfl)
  have h3 : Reachable (overlapRun 3) :=
    Reachable.step _ _ h2
      (overlapRun_step3 ▸ Step.outcome sampleEnv ⟨false, confirmationA⟩
        (Outcome.FailedToRedeemUnblindedToken true) false (overlapRun 2) (by decide))
  have h4 : Reachable (overlapRun 4) :=
    Reachable.step _ _ h3 (Step.timer_fired _ _ overlapRun_step4)
  exact Reachable.step _ _ h4
    (overlapRun_step5 ▸ Step.outcome sampleEnv ⟨false, confirmationB⟩
      (Outcome.FailedToRedeemUnblindedToken true) false (overlapRun 4) (by decide))

theorem overlapRun_reachable : Reachable (overlapRun 6) :=
  Reachable.step _ _ overlapRun_reachable_5 (Step.timer_fired _ _ overlapRun_step6)

/-- C7, refuted as stated. Starting from the initial state `emptyLedgerState`,
two `Confirm` calls, a retryable redemption failure of `confirmationA`, a timer
fire, a retryable redemption failure of `confirmationB` and a second timer fire
lead to `overlapRun 6`; in that state two confirmations drained from the retry
queue, `confirmationA` and `confirmationB`, are in flight together. -/
theorem C7_two_drained_in_flight :
    Initial (overlapRun 0) ∧
    Confirm (envWithGuid "guid-a") ⟨1⟩ transactionA (overlapRun 0) = overlapRun 1 ∧
    Confirm (envWithGuid "guid-b") ⟨2⟩ transactionB (overlapRun 1) = overlapRun 2 ∧
    OnFailedToRedeemUnblindedToken sampleEnv confirmationA true
      { overlapRun 2 with redeeming := [⟨false, confirmationB⟩] } = overlapRun 3 ∧
    TimerFired (overlapRun 3) = some (overlapRun 4) ∧
    OnFailedToRedeemUnblindedToken sampleEnv confirmationB true
      { overlapRun 4 with redeeming := [⟨true, confirmationA⟩] } = overlapRun 5 ∧
    TimerFired (overlapRun 5) = some (overlapRun 6) ∧
    (overlapRun 6).redeeming = [⟨true, confirmationA⟩, ⟨true, confirmationB⟩] ∧
    drainedInFlight (overlapRun 6) = 2 ∧
    Reachable (overlapRun 6) ∧
    ¬ (∀ s, Reachable s → drainedInFlight s ≤ 1 ∧ scheduledTimers s ≤ 1) := by
  refine ⟨⟨rfl, rfl, rfl, rfl⟩, overlapRun_step1, overlapRun_step2, by decide,
    overlapRun_step4, by decide, overlapRun_step6, rfl, by decide, overlapRun_reachable, ?_⟩
  intro h
  have h2 := (h _ overlapRun_reachable).1
  revert h2
  decide

theorem ProcessRetryQueue_armed (s : Confirmations)
    (h : s.retry_timer_.IsRunning = true → s.failed_confirmations ≠ []) :
    (ProcessRetryQueue s).retry_timer_.IsRunning = true →
      (ProcessRetryQueue s).failed_confirmations ≠ [] := by
  rw [ProcessRetryQueue_eq]
  by_cases h1 : s.retry_timer_.IsRunning = true
  · simpa [h1] using h h1
  · by_cases h2 : s.failed_confirmations = []
    · simp [h1, h2]
    · simp [h1, h2]

theorem RunUserDataCallback_timer (env : Env) (callback : UserDataCallback)
    (user_data : Value) (s : Confirmations) :
    (RunUserDataCallback env callback user_data s).retry_timer_ = s.retry_timer_ := by
  cases callback <;>
    simp [RunUserDataCallback, Redeem, AppendToRetryQueue, AppendFailedConfirmation,
      CreateConfirmation_frame]

theorem RunUserDataCallback_queue (env : Env) (callback : UserDataCallback)
    (user_data : Value) (s : Confirmations) :
    ∃ l, (RunUserDataCallback env callback user_data s).failed_confirmations
      = s.failed_confirmations ++ l := by
  cases callback with
  | confirm now transaction =>
      exact ⟨[], by simp [RunUserDataCallback, Redeem, CreateConfirmation_frame]⟩
  | rebuild c =>
      exact ⟨[(CreateConfirmation env c.created_at c.transaction_id c.creative_instance_id
        c.type c.ad_type c.value user_data s).1], by
        simp [RunUserDataCallback, AppendToRetryQueue, AppendFailedConfirmation,
          CreateConfirmation_frame]⟩

theorem RunUserDataCallback_drained (env : Env) (callback : UserDataCallback)
    (user_data : Value) (s : Confirmations) :
    drainedInFlight (RunUserDataCallback env callback user_data s) = drainedInFlight s := by
  cases callback <;>
    simp [drainedInFlight, RunUserDataCallback, Redeem, AppendToRetryQueue,
      AppendFailedConfirmation, CreateConfirmation_frame, List.countP_append]

theorem Build_timer (env : Env) (time : Time) (cid : String) (ct : ConfirmationType)
    (callback : UserDataCallback) (s : Confirmations) :
    (Build env time cid ct callback s).retry_timer_ = s.retry_timer_ := by
  unfold Build
  split
  · exact RunUserDataCallback_timer _ _ _ _
  · rfl

theorem Build_queue (env : Env) (time : Time) (cid : String) (ct : ConfirmationType)
    (callback : UserDataCallback) (s : Confirmations) :
    ∃ l, (Build env time cid ct callback s).failed_confirmations
      = s.failed_confirmations ++ l := by
  unfold Build
  split
  · exact RunUserDataCallback_queue _ _ _ _
  · exact ⟨[], by simp⟩

theorem Build_drained (env : Env) (time : Time) (cid : String) (ct : ConfirmationType)
    (callback : UserDataCallback) (s : Confirmations) :
    drainedInFlight (Build env time cid ct callback s) = drainedInFlight s := by
  unfold Build
  split
  · exact RunUserDataCallback_drained _ _ _ _
  · rfl

theorem ProcessRetryQueue_drained (s : Confirmations) :
    drainedInFlight (ProcessRetryQueue s) = drainedInFlight s := by
  simp [drainedInFlight, ProcessRetryQueue_eq]

theorem Notify_drained (n : Notification) (s : Confirmations) :
    drainedInFlight (Notify n s) = drainedInFlight s := by
  simp [drainedInFlight, Notify_eq]

theorem OnFailedToRedeemUnblindedToken_drained (env : Env) (c : ConfirmationInfo)
    (should_retry : Bool) (s : Confirmations) :
    drainedInFlight (OnFailedToRedeemUnblindedToken env c should_retry s)
      = drainedInFlight s := by
  simp only [OnFailedToRedeemUnblindedToken, ProcessRetryQueue_drained, Notify_drained,
    CreateNewConfirmationAndAppendToRetryQueue]
  split
  · split
    · split
      · rfl
      · exact Build_drained _ _ _ _ _ _
    · rfl
  · rfl

theorem ReportOutcome_drained (env : Env) (outcome : Outcome) (c : ConfirmationInfo)
    (s : Confirmations) :
    drainedInFlight (ReportOutcome env outcome c s) = drainedInFlight s := by
  cases outcome with
  | DidSendConfirmation =>
      simp [ReportOutcome, OnDidSendConfirmation, ProcessRetryQueue_eq, StopRetrying,
        Stop, drainedInFlight, Notify_eq]
  | FailedToSendConfirmation should_retry =>
      cases should_retry <;>
        simp [ReportOutcome, OnFailedToSendConfirmation, ProcessRetryQueue_eq,
          drainedInFlight, Notify_eq, AppendToRetryQueue, AppendFailedConfirmation]
  | DidRedeemUnblindedToken t =>
      simp only [ReportOutcome, OnDidRedeemUnblindedToken]
      split
      · exact OnFailedToRedeemUnblindedToken_drained _ _ _ _
      · simp [ProcessRetryQueue_eq, StopRetrying, Stop, drainedInFlight, Notify_eq]
  | FailedToRedeemUnblindedToken should_retry =>
      exact OnFailedToRedeemUnblindedToken_drained _ _ _ _

theorem OnFailedToRedeemUnblindedToken_armed (env : Env) (c : ConfirmationInfo)
    (should_retry : Bool) (s : Confirmations)
    (h : s.retry_timer_.IsRunning = true → s.failed_confirmations ≠ []) :
    (OnFailedToRedeemUnblindedToken env c should_retry s).retry_timer_.IsRunning = true →
      (OnFailedToRedeemUnblindedToken env c should_retry s).failed_confirmations ≠ [] := by
  unfold OnFailedToRedeemUnblindedToken
  apply ProcessRetryQueue_armed
  simp only [Notify_eq, CreateNewConfirmationAndAppendToRetryQueue]
  split
  · split
    · split
      · simp [AppendToRetryQueue, AppendFailedConfirmation]
      · obtain ⟨l, hl⟩ := Build_queue env c.created_at c.creative_instance_id c.type
          (UserDataCallback.rebuild c) s
        rw [Build_timer, hl]
        intro hrun
        simpa using fun hnil => absurd hnil (h hrun)
    · simp [AppendToRetryQueue, AppendFailedConfirmation]
  · exact h

theorem ReportOutcome_armed (env : Env) (outcome : Outcome) (c : ConfirmationInfo)
    (s : Confirmations)
    (h : s.retry_timer_.IsRunning = true → s.failed_confirmations ≠ []) :
    (ReportOutcome env outcome c s).retry_timer_.IsRunning = true →
      (ReportOutcome env outcome c s).failed_confirmations ≠ [] := by
  cases outcome with
  | DidSendConfirmation =>
      simp only [ReportOutcome, OnDidSendConfirmation]
      apply ProcessRetryQueue_armed
      simp [StopRetrying, Stop, Notify_eq, TimerState.IsRunning]
  | FailedToSendConfirmation should_retry =>
      simp only [ReportOutcome, OnFailedToSendConfirmation]
      apply ProcessRetryQueue_armed
      cases should_retry
      · simpa [Notify_eq] using h
      · simp [Notify_eq, AppendToRetryQueue, AppendFailedConfirmation]
  | DidRedeemUnblindedToken t =>
      simp only [ReportOutcome, OnDidRedeemUnblindedToken]
      split
      · exact OnFailedToRedeemUnblindedToken_armed _ _ _ _ h
      · apply ProcessRetryQueue_armed
        simp [StopRetrying, Stop, Notify_eq, TimerState.IsRunning]
  | FailedToRedeemUnblindedToken should_retry =>
      exact OnFailedToRedeemUnblindedToken_armed _ _ _ _ h

theorem TimerFired_idle (s s' : Confirmations) (h : TimerFired s = some s') :
    s'.retry_timer_ = TimerState.Idle := by
  unfold TimerFired at h
  split at h
  · cases hq : (Stop s).failed_confirmations with
    | nil => rw [OnRetry_nil _ hq] at h; cases h
    | cons c rest =>
        rw [OnRetry_cons _ c rest hq] at h
        cases h
        rfl
  · cases h

theorem Reachable_armed (s : Confirmations) (h : Reachable s) :
    s.retry_timer_.IsRunning = true → s.failed_confirmations ≠ [] := by
  induction h with
  | init s hi =>
      intro hrun
      rw [hi.1] at hrun
      cases hrun
  | step s s' _ hs ih =>
      cases hs with
      | confirm env now transaction _ hv =>
          obtain ⟨l, hl⟩ := Build_queue env now transaction.creative_instance_id
            transaction.confirmation_type (UserDataCallback.confirm now transaction) s
          rw [Confirm, Build_timer, hl]
          intro hrun
          simpa using fun hnil => absurd hnil (ih hrun)
      | user_data env callback user_data _ hm =>
          obtain ⟨l, hl⟩ := RunUserDataCallback_queue env callback user_data
            { s with posted := s.posted.erase callback }
          rw [RunUserDataCallback_timer, hl]
          intro hrun
          simpa using fun hnil => absurd hnil (ih hrun)
      | timer_fired _ _ hf =>
          intro hrun
          rw [TimerFired_idle s s' hf] at hrun
          cases hrun
      | outcome env r outcome was_created _ hm =>
          exact ReportOutcome_armed _ _ _ _ ih
      | process _ => exact ProcessRetryQueue_armed s ih
      | ledger _ _ _ => exact ih

/-- C7, amended. In every reachable state at most one retry timer is scheduled.
When it is scheduled the queue is not empty, so the timer fire goes through;
it puts exactly one more drained confirmation in flight and leaves no timer
scheduled.  `Confirm` neither drains an entry nor touches the timer, and a
redemption outcome never adds a drained confirmation in flight: only timer
fires do, one entry per fire. -/
theorem C7_one_timer_one_entry_per_fire (s : Confirmations) (h : Reachable s) :
    scheduledTimers s ≤ 1 ∧
    (s.retry_timer_.IsRunning = true →
      ∃ s', TimerFired s = some s' ∧ drainedInFlight s' = drainedInFlight s + 1 ∧
        scheduledTimers s' = 0) ∧
    (∀ env now transaction,
      drainedInFlight (Confirm env now transaction s) = drainedInFlight s ∧
      scheduledTimers (Confirm env now transaction s) = scheduledTimers s) ∧
    (∀ env r outcome was_created, r ∈ s.redeeming →
      drainedInFlight (ReportOutcome env outcome
        { r.confirmation with was_created := was_created }
        { s with redeeming := s.redeeming.erase r }) ≤ drainedInFlight s) := by
  refine ⟨?_, ?_, ?_, ?_⟩
  · unfold scheduledTimers
    split <;> simp
  · intro hrun
    cases hq : s.failed_confirmations with
    | nil => exact absurd hq (Reachable_armed s h hrun)
    | cons c rest =>
        refine ⟨_, (TimerFired_cons s c rest hq hrun), ?_, ?_⟩
        · simp [drainedInFlight, List.countP_append]
        · simp [scheduledTimers, TimerState.IsRunning]
  · intro env now transaction
    constructor
    · exact Build_drained _ _ _ _ _ _
    · simp [scheduledTimers, Confirm, Build_timer]
  · intro env r outcome was_created _
    rw [ReportOutcome_drained]
    exact (List.erase_sublist r s.redeeming).countP_le _

/-- C7 (amended) on the reachable state `overlapRun 5`, in which the timer is
scheduled and `confirmationA` is already in flight: the fire goes through and
puts a second drained confirmation in flight. -/
theorem C7_one_timer_one_entry_per_fire_witness :
    scheduledTimers (overlapRun 5) ≤ 1 ∧
    ∃ s', TimerFired (overlapRun 5) = some s' ∧
      drainedInFlight s' = drainedInFlight (overlapRun 5) + 1 ∧ scheduledTimers s' = 0 :=
  ⟨(C7_one_timer_one_entry_per_fire (overlapRun 5) overlapRun_reachable_5).1,
   (C7_one_timer_one_entry_per_fire (overlapRun 5) overlapRun_reachable_5).2.1 rfl⟩

/-! ## C8: failures are reported, and queued only when retryable -/

theorem RunUserDataCallback_rebuild_eq (env : Env) (c : ConfirmationInfo) (user_data : Value)
    (s : Confirmations) :
    RunUserDataCallback env (UserDataCallback.rebuild c) user_data s =
      { s with
        unblinded_tokens :=
          if env.ShouldRewardUser then s.unblinded_tokens.tail else s.unblinded_tokens
        failed_confirmations := s.failed_confirmations ++
          [(CreateConfirmation env c.created_at c.transaction_id c.creative_instance_id
            c.type c.ad_type c.value user_data s).1] } := by
  simp [RunUserDataCallback, AppendToRetryQueue, AppendFailedConfirmation,
    CreateConfirmation_frame]

theorem CreateNewConfirmationAndAppendToRetryQueue_empty (env : Env) (c : ConfirmationInfo)
    (s : Confirmations) (h : s.unblinded_tokens = []) :
    CreateNewConfirmationAndAppendToRetryQueue env c s =
      { s with failed_confirmations := s.failed_confirmations ++ [c] } := by
  simp [CreateNewConfirmationAndAppendToRetryQueue, UnblindedTokens.IsEmpty, h,
    AppendToRetryQueue, AppendFailedConfirmation]

theorem CreateNewConfirmationAndAppendToRetryQueue_built (env : Env) (c : ConfirmationInfo)
    (s : Confirmations) (user_data : Value) (h : s.unblinded_tokens ≠ [])
    (hb : env.Build c.created_at c.creative_instance_id c.type = some user_data) :
    CreateNewConfirmationAndAppendToRetryQueue env c s =
      RunUserDataCallback env (UserDataCallback.rebuild c) user_data s := by
  simp [CreateNewConfirmationAndAppendToRetryQueue, UnblindedTokens.IsEmpty, h, Build, hb]

theorem CreateNewConfirmationAndAppendToRetryQueue_posted (env : Env) (c : ConfirmationInfo)
    (s : Confirmations) (h : s.unblinded_tokens ≠ [])
    (hb : env.Build c.created_at c.creative_instance_id c.type = none) :
    CreateNewConfirmationAndAppendToRetryQueue env c s =
      { s with posted := s.posted ++ [UserDataCallback.rebuild c] } := by
  simp [CreateNewConfirmationAndAppendToRetryQueue, UnblindedTokens.IsEmpty, h, Build, hb]

theorem OnFailedToRedeemUnblindedToken_delegate_calls (env : Env) (c : ConfirmationInfo)
    (should_retry : Bool) (s : Confirmations) :
    (OnFailedToRedeemUnblindedToken env c should_retry s).delegate_calls =
      s.delegate_calls ++ (if s.delegate_ then [Notification.OnFailedToConfirm c] else []) := by
  simp only [OnFailedToRedeemUnblindedToken, ProcessRetryQueue_eq, Notify_eq]
  by_cases h1 : should_retry = true
  · by_cases h2 : c.was_created = true
    · simp [h1, h2, AppendToRetryQueue, AppendFailedConfirmation]
    · by_cases h3 : s.unblinded_tokens = []
      · simp [h1, h2, CreateNewConfirmationAndAppendToRetryQueue_empty _ _ _ h3]
      · cases hb : env.Build c.created_at c.creative_instance_id c.type with
        | none =>
            simp [h1, h2, CreateNewConfirmationAndAppendToRetryQueue_posted _ _ _ h3 hb]
        | some ud =>
            simp [h1, h2, CreateNewConfirmationAndAppendToRetryQueue_built _ _ _ ud h3 hb,
              RunUserDataCallback_rebuild_eq]
  · simp [h1]

/-- C8, refuted as stated.  On `sampleState` (two unspent tokens, empty queue,
idle timer) with a user-data builder that posts its callback, the retryable
failure to redeem `sampleConfirmation` (not created on the server) notifies the
observer but does not enqueue anything: the retry queue is still empty when
the call returns, the timer is idle, and one rebuild is posted. -/
theorem C8_posted_rebuild_leaves_queue :
    sampleConfirmation.was_created = false ∧
    sampleState.failed_confirmations = [] ∧
    (OnFailedToRedeemUnblindedToken postingEnv sampleConfirmation true
      sampleState).failed_confirmations = [] ∧
    (OnFailedToRedeemUnblindedToken postingEnv sampleConfirmation true
      sampleState).retry_timer_ = TimerState.Idle ∧
    (OnFailedToRedeemUnblindedToken postingEnv sampleConfirmation true
      sampleState).posted = [UserDataCallback.rebuild sampleConfirmation] ∧
    (OnFailedToRedeemUnblindedToken postingEnv sampleConfirmation true
      sampleState).delegate_calls = [Notification.OnFailedToConfirm sampleConfirmation] ∧
    ¬ ∃ entry, (OnFailedToRedeemUnblindedToken postingEnv sampleConfirmation true
      sampleState).failed_confirmations = sampleState.failed_confirmations ++ [entry] := by
  refine ⟨rfl, rfl, rfl, rfl, rfl, rfl, ?_⟩
  rintro ⟨entry, h⟩
  have h0 : (OnFailedToRedeemUnblindedToken postingEnv sampleConfirmation true
      sampleState).failed_confirmations = [] := rfl
  rw [h0] at h
  simp [sampleState] at h

/-- C8, amended.  `OnFailedToRedeemUnblindedToken(c, should_retry)` and
`OnFailedToSendConfirmation(c, should_retry)` call `OnFailedToConfirm(c)` on the
observer exactly once when one is set, whatever `should_retry` is.  With
`should_retry` false the retry queue is unchanged and nothing is posted.  With
`should_retry` true `OnFailedToSendConfirmation` appends `c` at the tail of the
retry queue, and `OnFailedToRedeemUnblindedToken` appends exactly one entry at
the tail before it returns (`c` itself when it was created on the server or the
ledger is empty, the rebuilt confirmation when the user-data builder runs its
callback at once), except when the confirmation is to be rebuilt and the
user-data builder posts its callback: then the queue is unchanged when the
call returns, exactly one rebuild of `c` has been posted, and the queue grows
by exactly one entry, the rebuilt confirmation at the tail of the queue as it
is then, when that callback runs. -/
theorem C8_failure_notifies_and_enqueues (env : Env) (c : ConfirmationInfo)
    (should_retry : Bool) (s : Confirmations) :
    (s.delegate_ = true →
      (OnFailedToRedeemUnblindedToken env c should_retry s).delegate_calls
        = s.delegate_calls ++ [Notification.OnFailedToConfirm c] ∧
      (OnFailedToSendConfirmation c should_retry s).delegate_calls
        = s.delegate_calls ++ [Notification.OnFailedToConfirm c]) ∧
    (should_retry = false →
      (OnFailedToRedeemUnblindedToken env c should_retry s).failed_confirmations
        = s.failed_confirmations ∧
      (OnFailedToRedeemUnblindedToken env c should_retry s).posted = s.posted ∧
      (OnFailedToSendConfirmation c should_retry s).failed_confirmations
        = s.failed_confirmations ∧
      (OnFailedToSendConfirmation c should_retry s).posted = s.posted) ∧
    (should_retry = true →
      (OnFailedToSendConfirmation c should_retry s).failed_confirmations
        = s.failed_confirmations ++ [c] ∧
      (OnFailedToSendConfirmation c should_retry s).posted = s.posted ∧
      ((c.was_created = true ∨ s.unblinded_tokens = []) →
        (OnFailedToRedeemUnblindedToken env c should_retry s).failed_confirmations
          = s.failed_confirmations ++ [c] ∧
        (OnFailedToRedeemUnblindedToken env c should_retry s).posted = s.posted) ∧
      (∀ user_data, c.was_created = false → s.unblinded_tokens ≠ [] →
        env.Build c.created_at c.creative_instance_id c.type = some user_data →
        (OnFailedToRedeemUnblindedToken env c should_retry s).failed_confirmations
          = s.failed_confirmations ++
            [(CreateConfirmation env c.created_at c.transaction_id c.creative_instance_id
              c.type c.ad_type c.value user_data s).1] ∧
        (OnFailedToRedeemUnblindedToken env c should_retry s).posted = s.posted) ∧
      (c.was_created = false → s.unblinded_tokens ≠ [] →
        env.Build c.created_at c.creative_instance_id c.type = none →
        (OnFailedToRedeemUnblindedToken env c should_retry s).failed_confirmations
          = s.failed_confirmations ∧
        (OnFailedToRedeemUnblindedToken env c should_retry s).posted
          = s.posted ++ [UserDataCallback.rebuild c] ∧
        ∀ (later : Env) (user_data : Value) (s2 : Confirmations),
          (RunUserDataCallback later (UserDataCallback.rebuild c) user_data
            s2).failed_confirmations = s2.failed_confirmations ++
              [(CreateConfirmation later c.created_at c.transaction_id
                c.creative_instance_id c.type c.ad_type c.value user_data s2).1])) := by
  refine ⟨?_, ?_, ?_⟩
  · intro hd
    constructor
    · rw [OnFailedToRedeemUnblindedToken_delegate_calls]
      simp [hd]
    · cases should_retry <;>
        simp [OnFailedToSendConfirmation, ProcessRetryQueue_eq, Notify_eq, hd,
          AppendToRetryQueue, AppendFailedConfirmation]
  · intro h
    subst h
    simp [OnFailedToRedeemUnblindedToken, OnFailedToSendConfirmation, ProcessRetryQueue_eq,
      Notify_eq]
  · intro h
    subst h
    refine ⟨?_, ?_, ?_⟩
    · simp [OnFailedToSendConfirmation, ProcessRetryQueue_eq, Notify_eq,
        AppendToRetryQueue, AppendFailedConfirmation]
    · simp [OnFailedToSendConfirmation, ProcessRetryQueue_eq, Notify_eq,
        AppendToRetryQueue, AppendFailedConfirmation]
    · simp only [OnFailedToRedeemUnblindedToken, ProcessRetryQueue_eq, Notify_eq]
      refine ⟨?_, ?_, ?_⟩
      · intro h
        by_cases h2 : c.was_created = true
        · simp [h2, AppendToRetryQueue, AppendFailedConfirmation]
        · have h3 : s.unblinded_tokens = [] := h.resolve_left h2
          simp [h2, CreateNewConfirmationAndAppendToRetryQueue_empty _ _ _ h3]
      · intro ud h2 h3 hb
        simp [h2, CreateNewConfirmationAndAppendToRetryQueue_built _ _ _ ud h3 hb,
          RunUserDataCallback_rebuild_eq]
      · intro h2 h3 hb
        refine ⟨?_, ?_, ?_⟩
        · simp [h2, CreateNewConfirmationAndAppendToRetryQueue_posted _ _ _ h3 hb]
        · simp [h2, CreateNewConfirmationAndAppendToRetryQueue_posted _ _ _ h3 hb]
        · intro later user_data s2
          rw [RunUserDataCallback_rebuild_eq]

/-- C8 (amended) on `sampleState` (observer set, empty queue): a non-retryable failure
only notifies; a retryable failure to send queues the confirmation itself; a
retryable failure to redeem queues the rebuilt confirmation when the builder
runs its callback at once, and posts one rebuild when it does not. -/
theorem C8_failure_notifies_and_enqueues_witness :
    (OnFailedToRedeemUnblindedToken sampleEnv sampleConfirmation false sampleState).delegate_calls
      = [Notification.OnFailedToConfirm sampleConfirmation] ∧
    (OnFailedToRedeemUnblindedToken sampleEnv sampleConfirmation false
      sampleState).failed_confirmations = [] ∧
    (OnFailedToSendConfirmation sampleConfirmation true sampleState).failed_confirmations
      = [sampleConfirmation] ∧
    (OnFailedToRedeemUnblindedToken sampleEnv sampleConfirmation true
      sampleState).failed_confirmations
      = [(CreateConfirmation sampleEnv ⟨100⟩ "transaction-1" "creative-1"
          (ConfirmationType.kDefined 1) (AdType.kDefined 1) ⟨7⟩ ⟨"user-data"⟩
          sampleState).1] ∧
    (OnFailedToRedeemUnblindedToken postingEnv sampleConfirmation true sampleState).posted
      = [UserDataCallback.rebuild sampleConfirmation] :=
  ⟨((C8_failure_notifies_and_enqueues sampleEnv sampleConfirmation false sampleState).1
      rfl).1,
   ((C8_failure_notifies_and_enqueues sampleEnv sampleConfirmation false sampleState).2.1
      rfl).1,
   ((C8_failure_notifies_and_enqueues sampleEnv sampleConfirmation true sampleState).2.2
      rfl).1,
   (((C8_failure_notifies_and_enqueues sampleEnv sampleConfirmation true sampleState).2.2
      rfl).2.2.2.1 ⟨"user-data"⟩ rfl (by decide) rfl).1,
   (((C8_failure_notifies_and_enqueues postingEnv sampleConfirmation true sampleState).2.2
      rfl).2.2.2.2 rfl (by decide) rfl).2.1⟩

/-! ## C9: what a retryable redemption failure puts in the queue -/

theorem OnFailedToRedeemUnblindedToken_retry_eq (env : Env) (c : ConfirmationInfo)
    (s : Confirmations) :
    OnFailedToRedeemUnblindedToken env c true s =
      ProcessRetryQueue (Notify (Notification.OnFailedToConfirm c)
        (if c.was_created then AppendToRetryQueue c s
         else CreateNewConfirmationAndAppendToRetryQueue env c s)) := by
  unfold OnFailedToRedeemUnblindedToken
  cases c.was_created <;> simp

/-- C10, refuted as stated. `sampleConfirmation` is valid and holds no token
and no credential, and the ledger of `emptyLedgerState` has no unspent token;
`CreateNewConfirmationAndAppendToRetryQueue` enqueues `sampleConfirmation`
itself, so the enqueued entry has the id `guid-1` of `sampleConfirmation`, not a
new one. -/
theorem C10_rebuild_keeps_id :
    sampleConfirmation.IsValid = true ∧ sampleConfirmation.unblinded_token = none ∧
    sampleConfirmation.credential = none ∧ emptyLedgerState.unblinded_tokens = [] ∧
    (CreateNewConfirmationAndAppendToRetryQueue sampleEnv sampleConfirmation
      emptyLedgerState).failed_confirmations = [sampleConfirmation] ∧
    ¬ ∃ entry,
      (CreateNewConfirmationAndAppendToRetryQueue sampleEnv sampleConfirmation
        emptyLedgerState).failed_confirmations
        = emptyLedgerState.failed_confirmations ++ [entry] ∧
      entry.id ≠ sampleConfirmation.id := by
  refine ⟨by decide, rfl, rfl, rfl, by decide, ?_⟩
  rintro ⟨entry, he, hid⟩
  have h1 : (CreateNewConfirmationAndAppendToRetryQueue sampleEnv sampleConfirmation
      emptyLedgerState).failed_confirmations = [sampleConfirmation] := by decide
  rw [h1] at he
  have h2 : emptyLedgerState.failed_confirmations = [] := rfl
  rw [h2, List.nil_append] at he
  injection he with he _
  exact hid (he ▸ rfl)

/-- C10, amended. For every valid confirmation `c` that holds no token, when
the ledger has no unspent token, `CreateNewConfirmationAndAppendToRetryQueue`
enqueues `c` itself at the tail of the retry queue and changes nothing else: the
enqueued entry has no unblinded token and no credential, the same `id` as `c`,
and the `transaction_id`, `creative_instance_id` and `value` of `c`. -/
theorem C10_rebuild_on_empty_ledger (env : Env) (c : ConfirmationInfo) (s : Confirmations)
    (hv : c.IsValid = true) (ht : c.unblinded_token = none) (hc : c.credential = none)
    (he : s.unblinded_tokens = []) :
    CreateNewConfirmationAndAppendToRetryQueue env c s =
      { s with failed_confirmations := s.failed_confirmations ++ [c] } ∧
    ∃ entry,
      (CreateNewConfirmationAndAppendToRetryQueue env c s).failed_confirmations
        = s.failed_confirmations ++ [entry] ∧
      entry.unblinded_token = none ∧ entry.credential = none ∧ entry.id = c.id ∧
      entry.transaction_id = c.transaction_id ∧
      entry.creative_instance_id = c.creative_instance_id ∧ entry.value = c.value ∧
      entry.IsValid = true := by
  refine ⟨CreateNewConfirmationAndAppendToRetryQueue_empty env c s he, c, ?_, ht, hc, rfl, rfl,
    rfl, rfl, hv⟩
  rw [CreateNewConfirmationAndAppendToRetryQueue_empty env c s he]

/-- C10 (amended) on `sampleConfirmation` and `emptyLedgerState`. -/
theorem C10_rebuild_on_empty_ledger_witness :
    CreateNewConfirmationAndAppendToRetryQueue sampleEnv sampleConfirmation emptyLedgerState =
      { emptyLedgerState with failed_confirmations := [sampleConfirmation] } :=
  (C10_rebuild_on_empty_ledger sampleEnv sampleConfirmation emptyLedgerState
    (by decide) rfl rfl rfl).1


/-! ## C11: the order in which the queue is drained -/

theorem OnFailedToRedeemUnblindedToken_queue (env : Env) (c : ConfirmationInfo)
    (s : Confirmations) :
    ∃ tail, tail.length ≤ 1 ∧
      (OnFailedToRedeemUnblindedToken env c true s).failed_confirmations
        = s.failed_confirmations ++ tail ∧
      ((c.was_created = true ∨ s.unblinded_tokens = []) → tail = [c]) := by
  simp only [OnFailedToRedeemUnblindedToken_retry_eq, ProcessRetryQueue_eq, Notify_eq]
  by_cases h2 : c.was_created = true
  · exact ⟨[c], by simp, by simp [h2, AppendToRetryQueue, AppendFailedConfirmation],
      fun _ => rfl⟩
  · by_cases h3 : s.unblinded_tokens = []
    · exact ⟨[c], by simp,
        by simp [h2, CreateNewConfirmationAndAppendToRetryQueue_empty _ _ _ h3], fun _ => rfl⟩
    · cases hb : env.Build c.created_at c.creative_instance_id c.type with
      | none =>
          exact ⟨[], by simp,
            by simp [h2, CreateNewConfirmationAndAppendToRetryQueue_posted _ _ _ h3 hb],
            fun h => by rcases h with h | h <;> contradiction⟩
      | some ud =>
          exact ⟨[(CreateConfirmation env c.created_at c.transaction_id
              c.creative_instance_id c.type c.ad_type c.value ud s).1], by simp,
            by simp [h2, CreateNewConfirmationAndAppendToRetryQueue_built _ _ _ ud h3 hb,
              RunUserDataCallback_rebuild_eq],
            fun h => by rcases h with h | h <;> contradiction⟩

theorem OnFailedToRedeemUnblindedToken_redeeming (env : Env) (c : ConfirmationInfo)
    (should_retry : Bool) (s : Confirmations) :
    (OnFailedToRedeemUnblindedToken env c should_retry s).redeeming = s.redeeming := by
  simp only [OnFailedToRedeemUnblindedToken, ProcessRetryQueue_eq, Notify_eq]
  by_cases h1 : should_retry = true
  · by_cases h2 : c.was_created = true
    · simp [h1, h2, AppendToRetryQueue, AppendFailedConfirmation]
    · by_cases h3 : s.unblinded_tokens = []
      · simp [h1, h2, CreateNewConfirmationAndAppendToRetryQueue_empty _ _ _ h3]
      · cases hb : env.Build c.created_at c.creative_instance_id c.type with
        | none =>
            simp [h1, h2, CreateNewConfirmationAndAppendToRetryQueue_posted _ _ _ h3 hb]
        | some ud =>
            simp [h1, h2, CreateNewConfirmationAndAppendToRetryQueue_built _ _ _ ud h3 hb,
              RunUserDataCallback_rebuild_eq]
  · simp [h1]

theorem ProcessRetryQueue_running (s : Confirmations)
    (h : (ProcessRetryQueue s).failed_confirmations ≠ []) :
    (ProcessRetryQueue s).retry_timer_.IsRunning = true := by
  rw [ProcessRetryQueue_eq] at h ⊢
  have h2 : s.failed_confirmations ≠ [] := h
  by_cases h1 : s.retry_timer_.IsRunning = true
  · simp [h1]
  · simp only [h1, if_false, List.isEmpty_iff, h2]
    rfl

theorem OnFailedToRedeemUnblindedToken_running (env : Env) (c : ConfirmationInfo)
    (should_retry : Bool) (s : Confirmations)
    (h : (OnFailedToRedeemUnblindedToken env c should_retry s).failed_confirmations ≠ []) :
    (OnFailedToRedeemUnblindedToken env c should_retry s).retry_timer_.IsRunning = true :=
  ProcessRetryQueue_running _ h

/-- C11, refuted as stated. On `retryOrderState`, whose queue is
`[confirmationA, confirmationB, sampleConfirmation]`, the timer drains
`confirmationA`; its retryable failure puts it back at the tail, so that the
queue is `[confirmationB, sampleConfirmation, confirmationA]`; the next timer
fire drains `confirmationB`, not `confirmationA`. -/
theorem C11_next_drained_is_not_the_failed_entry :
    retryOrderState.failed_confirmations
      = [confirmationA, confirmationB, sampleConfirmation] ∧
    TimerFired retryOrderState =
      some { retryOrderState with
        failed_confirmations := [confirmationB, sampleConfirmation]
        redeeming := [⟨true, confirmationA⟩]
        retry_timer_ := TimerState.Idle } ∧
    (OnFailedToRedeemUnblindedToken sampleEnv confirmationA true
      { retryOrderState with
        failed_confirmations := [confirmationB, sampleConfirmation]
        redeeming := []
        retry_timer_ := TimerState.Idle }).failed_confirmations
      = [confirmationB, sampleConfirmation, confirmationA] ∧
    (TimerFired (OnFailedToRedeemUnblindedToken sampleEnv confirmationA true
      { retryOrderState with
        failed_confirmations := [confirmationB, sampleConfirmation]
        redeeming := []
        retry_timer_ := TimerState.Idle })).map (fun s => s.redeeming)
      = some [⟨true, confirmationB⟩] ∧
    confirmationB ≠ confirmationA := by
  refine ⟨rfl, by decide, by decide, by decide, by decide⟩

/-- C11, amended. The queue is drained strictly oldest-first.  On a retry queue
`A :: B :: rest` with the timer scheduled, the timer fire drains `A` and leaves
`B :: rest`.  When the redemption of `A` then fails with `should_retry` (the
client reporting it as `reported`), at most one entry is put at the tail, the
entries `B :: rest` are untouched and the timer is scheduled again; the next
timer fire drains `B`.  When `reported` is queued as it is (`was_created`, or an
empty ledger) the queue after the failure is `B :: rest ++ [reported]`: it is
drained again only after `B` and `rest`. -/
theorem C11_next_drained_is_oldest_remaining (env : Env) (s : Confirmations)
    (A B reported : ConfirmationInfo) (rest : List ConfirmationInfo)
    (hq : s.failed_confirmations = A :: B :: rest)
    (hrun : s.retry_timer_.IsRunning = true) :
    ∃ s1, TimerFired s = some s1 ∧
      s1.redeeming = s.redeeming ++ [⟨true, A⟩] ∧
      s1.failed_confirmations = B :: rest ∧
      ∃ tail, tail.length ≤ 1 ∧
        (OnFailedToRedeemUnblindedToken env reported true
          { s1 with redeeming := s1.redeeming.erase ⟨true, A⟩ }).failed_confirmations
          = B :: (rest ++ tail) ∧
        ((reported.was_created = true ∨ s.unblinded_tokens = []) → tail = [reported]) ∧
        (OnFailedToRedeemUnblindedToken env reported true
          { s1 with redeeming := s1.redeeming.erase ⟨true, A⟩ }).retry_timer_.IsRunning
          = true ∧
        ∃ s3, TimerFired (OnFailedToRedeemUnblindedToken env reported true
            { s1 with redeeming := s1.redeeming.erase ⟨true, A⟩ }) = some s3 ∧
          s3.redeeming = (s1.redeeming.erase ⟨true, A⟩) ++ [⟨true, B⟩] ∧
          s3.failed_confirmations = rest ++ tail := by
  refine ⟨_, TimerFired_cons s A (B :: rest) hq hrun, rfl, rfl, ?_⟩
  generalize hs1 : ({ s with failed_confirmations := B :: rest
                             redeeming := s.redeeming ++ [⟨true, A⟩]
                             retry_timer_ := TimerState.Idle } : Confirmations) = s1
  generalize hs1' : ({ s1 with redeeming := s1.redeeming.erase ⟨true, A⟩ } : Confirmations)
    = s1'
  have hq1 : s1'.failed_confirmations = B :: rest := by
    rw [← hs1', ← hs1]
  have ht1 : s1'.unblinded_tokens = s.unblinded_tokens := by
    rw [← hs1', ← hs1]
  have hr1 : s1'.redeeming = s1.redeeming.erase ⟨true, A⟩ := by
    rw [← hs1']
  obtain ⟨tail, hlen, htail, hself⟩ := OnFailedToRedeemUnblindedToken_queue env reported s1'
  rw [hq1] at htail
  have hne : (OnFailedToRedeemUnblindedToken env reported true s1').failed_confirmations
      ≠ [] := by
    rw [htail]
    simp
  have hrun2 := OnFailedToRedeemUnblindedToken_running env reported true s1' hne
  refine ⟨tail, hlen, by simpa using htail, ?_, hrun2, ?_⟩
  · intro h
    exact hself (by rwa [ht1])
  · refine ⟨_, TimerFired_cons _ B (rest ++ tail) (by simpa using htail) hrun2, ?_, rfl⟩
    show (OnFailedToRedeemUnblindedToken env reported true s1').redeeming ++ _ = _
    rw [OnFailedToRedeemUnblindedToken_redeeming, hr1]

/-- C11 (amended) on `retryOrderState`: after the retryable failure of
`confirmationA` the queue is `[confirmationB, sampleConfirmation,
confirmationA]` and the next fire submits `confirmationB`. -/
theorem C11_next_drained_is_oldest_remaining_witness :
    ∃ s1, TimerFired retryOrderState = some s1 ∧
      s1.redeeming = retryOrderState.redeeming ++ [⟨true, confirmationA⟩] ∧
      s1.failed_confirmations = confirmationB :: [sampleConfirmation] ∧
      ∃ tail, tail.length ≤ 1 ∧
        (OnFailedToRedeemUnblindedToken sampleEnv confirmationA true
          { s1 with redeeming := s1.redeeming.erase ⟨true, confirmationA⟩ }).failed_confirmations
          = confirmationB :: ([sampleConfirmation] ++ tail) ∧
        ((confirmationA.was_created = true ∨ retryOrderState.unblinded_tokens = []) →
          tail = [confirmationA]) ∧
        (OnFailedToRedeemUnblindedToken sampleEnv confirmationA true
          { s1 with redeeming := s1.redeeming.erase ⟨true, confirmationA⟩ }).retry_timer_.IsRunning
          = true ∧
        ∃ s3, TimerFired (OnFailedToRedeemUnblindedToken sampleEnv confirmationA true
            { s1 with redeeming := s1.redeeming.erase ⟨true, confirmationA⟩ }) = some s3 ∧
          s3.redeeming = (s1.redeeming.erase ⟨true, confirmationA⟩) ++ [⟨true, confirmationB⟩] ∧
          s3.failed_confirmations = [sampleConfirmation] ++ tail :=
  C11_next_drained_is_oldest_remaining sampleEnv retryOrderState confirmationA confirmationB
    confirmationA [sampleConfirmation] rfl rfl

/-! ## C12: only valid confirmations are queued or submitted -/

theorem CreateConfirmation_IsValid (env : Env) (time : Time) (tid cid : String)
    (ct : ConfirmationType) (at_ : AdType) (value : Double) (user_data : Value)
    (s : Confirmations) :
    (CreateConfirmation env time tid cid ct at_ value user_data s).1.IsValid =
      (!env.GenerateRandomV4.isEmpty && !tid.isEmpty && !cid.isEmpty
        && ct != ConfirmationType.kUndefined && at_ != AdType.kUndefined) := by
  by_cases hr : env.ShouldRewardUser = true
  · cases ht : s.unblinded_tokens with
    | nil =>
        rw [CreateConfirmation_unrewarded _ _ _ _ _ _ _ _ _ (Or.inr ht)]
        rfl
    | cons t rest =>
        rw [CreateConfirmation_rewarded _ _ _ _ _ _ _ _ _ t rest hr ht]
        rfl
  · rw [CreateConfirmation_unrewarded _ _ _ _ _ _ _ _ _ (Or.inl (by simpa using hr))]
    rfl

theorem CreateConfirmation_of_valid_confirmation (env : Env) (c : ConfirmationInfo)
    (user_data : Value) (s : Confirmations)
    (hguid : env.GenerateRandomV4.isEmpty = false) (hc : c.IsValid = true) :
    (CreateConfirmation env c.created_at c.transaction_id c.creative_instance_id c.type
      c.ad_type c.value user_data s).1.IsValid = true := by
  rw [CreateConfirmation_IsValid]
  simp only [ConfirmationInfo.IsValid, Bool.and_eq_true] at hc
  simp [hguid, hc.1.1.1.2, hc.1.1.2, hc.1.2, hc.2]

theorem CreateConfirmation_of_valid_transaction (env : Env) (now : Time)
    (transaction : TransactionInfo) (user_data : Value) (s : Confirmations)
    (hguid : env.GenerateRandomV4.isEmpty = false) (ht : transaction.IsValid = true) :
    (CreateConfirmation env now transaction.id transaction.creative_instance_id
      transaction.confirmation_type transaction.ad_type transaction.value user_data
      s).1.IsValid = true := by
  rw [CreateConfirmation_IsValid]
  simp only [TransactionInfo.IsValid, Bool.and_eq_true] at ht
  simp [hguid, ht.1.1.1, ht.1.1.2, ht.1.2, ht.2]

theorem RunUserDataCallback_confirm_eq (env : Env) (now : Time)
    (transaction : TransactionInfo) (user_data : Value) (s : Confirmations) :
    RunUserDataCallback env (UserDataCallback.confirm now transaction) user_data s =
      { s with
        unblinded_tokens :=
          if env.ShouldRewardUser then s.unblinded_tokens.tail else s.unblinded_tokens
        redeeming := s.redeeming ++
          [⟨false, (CreateConfirmation env now transaction.id
            transaction.creative_instance_id transaction.confirmation_type
            transaction.ad_type transaction.value user_data s).1⟩] } := by
  simp [RunUserDataCallback, Redeem, CreateConfirmation_frame]

theorem ValidState_of_fields (s s2 : Confirmations) (h : ValidState s)
    (hq : s2.failed_confirmations = s.failed_confirmations)
    (hr : s2.redeeming = s.redeeming) (hp : s2.posted = s.posted) : ValidState s2 := by
  unfold ValidState
  rw [hq, hr, hp]
  exact h

theorem ValidState_append_queue (s s2 : Confirmations) (c : ConfirmationInfo)
    (h : ValidState s) (hc : c.IsValid = true)
    (hq : s2.failed_confirmations = s.failed_confirmations ++ [c])
    (hr : s2.redeeming = s.redeeming) (hp : s2.posted = s.posted) : ValidState s2 := by
  unfold ValidState
  rw [hq, hr, hp]
  refine ⟨?_, h.2.1, h.2.2⟩
  intro x hx
  rcases List.mem_append.mp hx with hx | hx
  · exact h.1 x hx
  · rw [List.mem_singleton.mp hx]
    exact hc

theorem RunUserDataCallback_ValidState (env : Env) (callback : UserDataCallback)
    (user_data : Value) (s : Confirmations)
    (hguid : env.GenerateRandomV4.isEmpty = false) (hs : ValidState s)
    (hcb : callback.IsValid = true) :
    ValidState (RunUserDataCallback env callback user_data s) := by
  cases callback with
  | confirm now transaction =>
      rw [RunUserDataCallback_confirm_eq]
      refine ⟨hs.1, ?_, hs.2.2⟩
      intro r hr
      rcases List.mem_append.mp hr with hr | hr
      · exact hs.2.1 r hr
      · rw [List.mem_singleton.mp hr]
        exact CreateConfirmation_of_valid_transaction env now transaction user_data s hguid hcb
  | rebuild c =>
      rw [RunUserDataCallback_rebuild_eq]
      exact ValidState_append_queue s _ _ hs
        (CreateConfirmation_of_valid_confirmation env c user_data s hguid hcb) rfl rfl rfl

theorem Build_ValidState (env : Env) (time : Time) (cid : String) (ct : ConfirmationType)
    (callback : UserDataCallback) (s : Confirmations)
    (hguid : env.GenerateRandomV4.isEmpty = false) (hs : ValidState s)
    (hcb : callback.IsValid = true) :
    ValidState (Build env time cid ct callback s) := by
  unfold Build
  split
  · exact RunUserDataCallback_ValidState env callback _ s hguid hs hcb
  · refine ⟨hs.1, hs.2.1, ?_⟩
    intro x hx
    rcases List.mem_append.mp hx with hx | hx
    · exact hs.2.2 x hx
    · rw [List.mem_singleton.mp hx]
      exact hcb

theorem ProcessRetryQueue_ValidState (s : Confirmations) (hs : ValidState s) :
    ValidState (ProcessRetryQueue s) := by
  rw [ProcessRetryQueue_eq]
  exact ValidState_of_fields s _ hs rfl rfl rfl

theorem Notify_ValidState (n : Notification) (s : Confirmations) (hs : ValidState s) :
    ValidState (Notify n s) := by
  rw [Notify_eq]
  exact ValidState_of_fields s _ hs rfl rfl rfl

theorem OnFailedToRedeemUnblindedToken_ValidState (env : Env) (c : ConfirmationInfo)
    (should_retry : Bool) (s : Confirmations)
    (hguid : env.GenerateRandomV4.isEmpty = false) (hs : ValidState s)
    (hc : c.IsValid = true) :
    ValidState (OnFailedToRedeemUnblindedToken env c should_retry s) := by
  unfold OnFailedToRedeemUnblindedToken
  apply ProcessRetryQueue_ValidState
  apply Notify_ValidState
  split
  · split
    · unfold CreateNewConfirmationAndAppendToRetryQueue
      split
      · exact ValidState_append_queue s _ c hs hc rfl rfl rfl
      · exact Build_ValidState env _ _ _ _ s hguid hs hc
    · exact ValidState_append_queue s _ c hs hc rfl rfl rfl
  · exact hs

/-- C12. Let the GUID generator return a non-empty string.  If every entry of
the retry queue, every confirmation in flight and every posted user-data
callback is valid, and `c` (the confirmation a redemption callback is invoked
with) and the transaction passed to `Confirm` are valid, then the same holds
after `Confirm`, `OnRetry`, the timer fire, `OnDidSendConfirmation`,
`OnFailedToSendConfirmation`, `OnDidRedeemUnblindedToken`,
`OnFailedToRedeemUnblindedToken`, `ProcessRetryQueue` and after a posted
user-data callback has run: every entry of the retry queue is valid and so is
every confirmation submitted to the redemption client.  In particular the
confirmation `CreateConfirmation` produces from non-empty ids and defined types
is valid. -/
theorem C12_only_valid_confirmations (env : Env) (now : Time) (transaction : TransactionInfo)
    (c : ConfirmationInfo) (should_retry : Bool) (payment_token : UnblindedPaymentTokenInfo)
    (s : Confirmations)
    (hguid : env.GenerateRandomV4.isEmpty = false) (hs : ValidState s)
    (hc : c.IsValid = true) (ht : transaction.IsValid = true) :
    ValidState (Confirm env now transaction s) ∧
    (∀ s', OnRetry s = some s' → ValidState s') ∧
    (∀ s', TimerFired s = some s' → ValidState s') ∧
    ValidState (OnDidSendConfirmation c s) ∧
    ValidState (OnFailedToSendConfirmation c should_retry s) ∧
    ValidState (OnDidRedeemUnblindedToken env c payment_token s) ∧
    ValidState (OnFailedToRedeemUnblindedToken env c should_retry s) ∧
    ValidState (ProcessRetryQueue s) ∧
    (∀ callback ∈ s.posted, ∀ user_data,
      ValidState (RunUserDataCallback env callback user_data
        { s with posted := s.posted.erase callback })) ∧
    (∀ (time : Time) (transaction_id creative_instance_id : String)
      (confirmation_type : ConfirmationType) (ad_type : AdType) (value : Double)
      (user_data : Value),
      transaction_id.isEmpty = false → creative_instance_id.isEmpty = false →
      confirmation_type ≠ ConfirmationType.kUndefined → ad_type ≠ AdType.kUndefined →
      (CreateConfirmation env time transaction_id creative_instance_id confirmation_type
        ad_type value user_data s).1.IsValid = true) := by
  have hretry : ∀ s0 s', ValidState s0 → OnRetry s0 = some s' → ValidState s' := by
    intro s0 s' hs0 h
    cases hq : s0.failed_confirmations with
    | nil => rw [OnRetry_nil s0 hq] at h; cases h
    | cons x rest =>
        rw [OnRetry_cons s0 x rest hq] at h
        cases h
        have hx : ∀ y ∈ x :: rest, y.IsValid = true := by
          rw [← hq]
          exact hs0.1
        refine ⟨fun y hy => hx y (List.mem_cons_of_mem _ hy), ?_, hs0.2.2⟩
        intro r hr
        rcases List.mem_append.mp hr with hr | hr
        · exact hs0.2.1 r hr
        · rw [List.mem_singleton.mp hr]
          exact hx x (List.mem_cons_self _ _)
  refine ⟨?_, fun s' => hretry s s' hs, ?_, ?_, ?_, ?_, ?_,
    ProcessRetryQueue_ValidState s hs, ?_, ?_⟩
  · exact Build_ValidState env _ _ _ _ s hguid hs ht
  · intro s' h
    unfold TimerFired at h
    split at h
    · exact hretry (Stop s) s' (ValidState_of_fields s _ hs rfl rfl rfl) h
    · cases h
  · unfold OnDidSendConfirmation
    apply ProcessRetryQueue_ValidState
    exact ValidState_of_fields _ _ (Notify_ValidState _ s hs) rfl rfl rfl
  · unfold OnFailedToSendConfirmation
    apply ProcessRetryQueue_ValidState
    apply Notify_ValidState
    split
    · exact ValidState_append_queue s _ c hs hc rfl rfl rfl
    · exact hs
  · unfold OnDidRedeemUnblindedToken
    split
    · exact OnFailedToRedeemUnblindedToken_ValidState env c false s hguid hs hc
    · apply ProcessRetryQueue_ValidState
      refine ValidState_of_fields _ _ (Notify_ValidState _ _ ?_) rfl rfl rfl
      exact ValidState_of_fields s _ hs rfl rfl rfl
  · exact OnFailedToRedeemUnblindedToken_ValidState env c should_retry s hguid hs hc
  · intro callback hm user_data
    apply RunUserDataCallback_ValidState env callback user_data _ hguid
    · refine ⟨hs.1, hs.2.1, ?_⟩
      intro x hx
      exact hs.2.2 x (List.mem_of_mem_erase hx)
    · exact hs.2.2 callback hm
  · intro time tid cid ct at_ value user_data h1 h2 h3 h4
    rw [CreateConfirmation_IsValid]
    simp [hguid, h1, h2, h3, h4]

theorem queuedState_ValidState : ValidState queuedState := by
  unfold ValidState
  decide

/-- C12 on `queuedState`, whose queue holds two valid confirmations: after a
retryable redemption failure of the valid `sampleConfirmation` (rebuilt, the
ledger holding tokens) and after the timer has fired, everything queued or
submitted is valid. -/
theorem C12_only_valid_confirmations_witness :
    ValidState queuedState ∧
    ValidState (OnFailedToRedeemUnblindedToken sampleEnv sampleConfirmation true queuedState) ∧
    (∀ s', OnRetry queuedState = some s' → ValidState s') :=
  ⟨queuedState_ValidState,
   (C12_only_valid_confirmations sampleEnv ⟨1⟩ transactionA sampleConfirmation true
      ⟨"payment-2"⟩ queuedState rfl queuedState_ValidState (by decide) (by decide)).2.2.2.2.2.2.1,
   (C12_only_valid_confirmations sampleEnv ⟨1⟩ transactionA sampleConfirmation true
      ⟨"payment-2"⟩ queuedState rfl queuedState_ValidState (by decide) (by decide)).2.1⟩

/-! ## C13: building a confirmation on an empty ledger -/

/-- C13. For non-empty `transaction_id` and `creative_instance_id` and defined
types, when the ledger has no unspent token `CreateConfirmation` returns a
confirmation without unblinded token and without credential, whose
`transaction_id`, `creative_instance_id`, `type`, `ad_type`, `value` and
`created_at` are its arguments and whose `was_created` is false; its id is the
generated GUID, the other fields have their default values and the state is
unchanged. -/
theorem C13_confirmation_on_empty_ledger (env : Env) (time : Time)
    (transaction_id creative_instance_id : String) (confirmation_type : ConfirmationType)
    (ad_type : AdType) (value : Double) (user_data : Value) (s : Confirmations)
    (h1 : transaction_id.isEmpty = false) (h2 : creative_instance_id.isEmpty = false)
    (h3 : confirmation_type ≠ ConfirmationType.kUndefined)
    (h4 : ad_type ≠ AdType.kUndefined) (he : s.unblinded_tokens = []) :
    (CreateConfirmation env time transaction_id creative_instance_id confirmation_type
      ad_type value user_data s).1.unblinded_token = none ∧
    (CreateConfirmation env time transaction_id creative_instance_id confirmation_type
      ad_type value user_data s).1.credential = none ∧
    (CreateConfirmation env time transaction_id creative_instance_id confirmation_type
      ad_type value user_data s).1.transaction_id = transaction_id ∧
    (CreateConfirmation env time transaction_id creative_instance_id confirmation_type
      ad_type value user_data s).1.creative_instance_id = creative_instance_id ∧
    (CreateConfirmation env time transaction_id creative_instance_id confirmation_type
      ad_type value user_data s).1.type = confirmation_type ∧
    (CreateConfirmation env time transaction_id creative_instance_id confirmation_type
      ad_type value user_data s).1.ad_type = ad_type ∧
    (CreateConfirmation env time transaction_id creative_instance_id confirmation_type
      ad_type value user_data s).1.value = value ∧
    (CreateConfirmation env time transaction_id creative_instance_id confirmation_type
      ad_type value user_data s).1.created_at = time ∧
    (CreateConfirmation env time transaction_id creative_instance_id confirmation_type
      ad_type value user_data s).1.was_created = false ∧
    CreateConfirmation env time transaction_id creative_instance_id confirmation_type
      ad_type value user_data s =
      ({ id := env.GenerateRandomV4, transaction_id := transaction_id,
         creative_instance_id := creative_instance_id, type := confirmation_type,
         ad_type := ad_type, value := value, created_at := time }, s) ∧
    (env.GenerateRandomV4.isEmpty = false →
      (CreateConfirmation env time transaction_id creative_instance_id confirmation_type
        ad_type value user_data s).1.IsValid = true) := by
  rw [CreateConfirmation_unrewarded _ _ _ _ _ _ _ _ _ (Or.inr he)]
  refine ⟨rfl, rfl, rfl, rfl, rfl, rfl, rfl, rfl, rfl, rfl, ?_⟩
  intro hg
  simp [ConfirmationInfo.IsValid, hg, h1, h2, h3, h4]

/-- C13 on `emptyLedgerState`: the confirmation built for `transaction-a` is
`confirmationA` with the generated id, and has neither token nor credential. -/
theorem C13_confirmation_on_empty_ledger_witness :
    (CreateConfirmation (envWithGuid "guid-a") ⟨1⟩ "transaction-a" "creative-a"
      (ConfirmationType.kDefined 1) (AdType.kDefined 1) ⟨7⟩ ⟨"user-data"⟩
      emptyLedgerState).1 = confirmationA ∧
    confirmationA.unblinded_token = none ∧ confirmationA.credential = none ∧
    confirmationA.was_created = false :=
  ⟨congrArg Prod.fst (C13_confirmation_on_empty_ledger (envWithGuid "guid-a") ⟨1⟩
      "transaction-a" "creative-a" (ConfirmationType.kDefined 1) (AdType.kDefined 1) ⟨7⟩
      ⟨"user-data"⟩ emptyLedgerState rfl rfl (by decide) (by decide) rfl).2.2.2.2.2.2.2.2.2.1,
   rfl, rfl, rfl⟩

/-! ## C14: a successful redemption -/

/-- C14. When the payment token `t` is not yet in the ledger,
`OnDidRedeemUnblindedToken(c, t)` appends `t` to the redeemed payment tokens (the
count grows by exactly one and the previous tokens are kept, in order), leaves
the unspent tokens, the retry queue and the posted callbacks unchanged, calls
`OnDidConfirm(c)` on the observer when one is set and makes no other call (so
no `OnFailedToConfirm`), stops the retry timer and calls `ProcessRetryQueue`:
afterwards the timer is scheduled, with 15 seconds, if and only if the retry
queue is not empty. -/
theorem C14_successful_redemption (env : Env) (c : ConfirmationInfo)
    (t : UnblindedPaymentTokenInfo) (s : Confirmations)
    (h : t ∉ s.unblinded_payment_tokens) :
    (OnDidRedeemUnblindedToken env c t s).unblinded_payment_tokens
      = s.unblinded_payment_tokens ++ [t] ∧
    UnblindedPaymentTokens.Count (OnDidRedeemUnblindedToken env c t s).unblinded_payment_tokens
      = UnblindedPaymentTokens.Count s.unblinded_payment_tokens + 1 ∧
    (OnDidRedeemUnblindedToken env c t s).unblinded_tokens = s.unblinded_tokens ∧
    (OnDidRedeemUnblindedToken env c t s).failed_confirmations = s.failed_confirmations ∧
    (OnDidRedeemUnblindedToken env c t s).posted = s.posted ∧
    (OnDidRedeemUnblindedToken env c t s).redeeming = s.redeeming ∧
    (s.delegate_ = true → (OnDidRedeemUnblindedToken env c t s).delegate_calls
      = s.delegate_calls ++ [Notification.OnDidConfirm c]) ∧
    (s.delegate_ = false → (OnDidRedeemUnblindedToken env c t s).delegate_calls
      = s.delegate_calls) ∧
    ((OnDidRedeemUnblindedToken env c t s).retry_timer_.IsRunning = true ↔
      (OnDidRedeemUnblindedToken env c t s).failed_confirmations ≠ []) ∧
    (OnDidRedeemUnblindedToken env c t s).retry_timer_ =
      (if s.failed_confirmations = [] then TimerState.Idle else TimerState.Scheduled 15) ∧
    OnDidRedeemUnblindedToken env c t s =
      ProcessRetryQueue (StopRetrying (Notify (Notification.OnDidConfirm c)
        { s with unblinded_payment_tokens := s.unblinded_payment_tokens ++ [t] })) := by
  have hd : OnDidRedeemUnblindedToken env c t s =
      ProcessRetryQueue (StopRetrying (Notify (Notification.OnDidConfirm c)
        { s with unblinded_payment_tokens := s.unblinded_payment_tokens ++ [t] })) := by
    unfold OnDidRedeemUnblindedToken
    simp [UnblindedPaymentTokens.TokenExists, h, UnblindedPaymentTokens.AddTokens]
  rw [hd]
  by_cases hq : s.failed_confirmations = []
  · simp [ProcessRetryQueue_eq, Notify_eq, StopRetrying, Stop, TimerState.IsRunning, hq,
      UnblindedPaymentTokens.Count]
  · simp [ProcessRetryQueue_eq, Notify_eq, StopRetrying, Stop, TimerState.IsRunning, hq,
      UnblindedPaymentTokens.Count, kRetryAfterSeconds]

/-- C14 on `scheduledState` (one payment token, two queued confirmations, timer
scheduled) and the fresh token `payment-2`: the ledger holds both tokens, the
observer is told `OnDidConfirm` and the timer is scheduled anew. -/
theorem C14_successful_redemption_witness :
    (⟨"payment-2"⟩ : UnblindedPaymentTokenInfo) ∉ scheduledState.unblinded_payment_tokens ∧
    (OnDidRedeemUnblindedToken sampleEnv sampleConfirmation ⟨"payment-2"⟩
      scheduledState).unblinded_payment_tokens = [⟨"payment-1"⟩, ⟨"payment-2"⟩] ∧
    (OnDidRedeemUnblindedToken sampleEnv sampleConfirmation ⟨"payment-2"⟩
      scheduledState).delegate_calls = [Notification.OnDidConfirm sampleConfirmation] ∧
    (OnDidRedeemUnblindedToken sampleEnv sampleConfirmation ⟨"payment-2"⟩
      scheduledState).retry_timer_ = TimerState.Scheduled 15 :=
  ⟨by decide,
   (C14_successful_redemption sampleEnv sampleConfirmation ⟨"payment-2"⟩ scheduledState
      (by decide)).1,
   (C14_successful_redemption sampleEnv sampleConfirmation ⟨"payment-2"⟩ scheduledState
      (by decide)).2.2.2.2.2.2.1 rfl,
   (C14_successful_redemption sampleEnv sampleConfirmation ⟨"payment-2"⟩ scheduledState
      (by decide)).2.2.2.2.2.2.2.2.2.1⟩

/-! ## C18: whether at least one token is generated -/

/-- In IEEE arithmetic, when the `double` quotient `value / d` is finite and its
ceiling fits an `int`, the computed count is at least 1 exactly when that
quotient is not zero or negative. -/
theorem token_count_pos_iff (env : Env) (undefined : Double → Int) (value d : Double)
    (hops : env.ops = ieeeOps undefined) (hgt : Double.gt value Double.zero = true)
    (hd : env.smallest_denomination = some d) (hfin : (Double.div value d).exponent ≠ 2047)
    (hlo : -2 ^ 31 ≤ ⌈(Double.div value d).toRat⌉)
    (hhi : ⌈(Double.div value d).toRat⌉ < 2 ^ 31) :
    1 ≤ token_count env value ↔ 0 < (Double.div value d).toRat := by
  have hgt' : Double.gt value ⟨0⟩ = true := hgt
  have h : token_count env value = ⌈(Double.div value d).toRat⌉ := by
    simp only [token_count, hops, ieeeOps, hd, hgt', if_true]
    exact Double.toInt_ceil undefined _ hfin hlo hhi
  rw [h]
  exact Int.ceil_pos

/-- C18, on the code.  For the value 5e-324 (`Double.denormMin`, greater
than 0.0) and the smallest denomination 2.0 the quotient `value / 2.0` is
exactly half of the smallest positive `double` and rounds to 0.0 (ties to
even), `ceil(0.0)` is 0.0 and `token_count` is 0: `GenerateTokensForValue` asks
the generator for no token, and the confirmation built on a non-empty ledger
carries a credential but no generated token and no blinded token. -/
theorem C18_no_token_for_smallest_value (undefined : Double → Int) :
    (Double.denormMin.significand = 1 ∧ Double.denormMin.scale = -1074 ∧
      Double.denormMin.sign = false) ∧
    (Double.two.significand = 2 ^ 52 ∧ Double.two.scale = -51 ∧ Double.two.sign = false) ∧
    (ieeeOps undefined).gt Double.denormMin (ieeeOps undefined).zero = true ∧
    (ieeeOps undefined).gt Double.two (ieeeOps undefined).zero = true ∧
    (ieeeOps undefined).div Double.denormMin Double.two = Double.zero ∧
    (ieeeOps undefined).ceil Double.zero = Double.zero ∧
    (ieeeOps undefined).toInt Double.zero = 0 ∧
    token_count (ieeeEnv undefined) Double.denormMin = 0 ∧
    GenerateTokensForValue (ieeeEnv undefined) Double.denormMin = [] ∧
    (denormMinConfirmation undefined).credential.isSome = true ∧
    (denormMinConfirmation undefined).tokens = [] ∧
    (denormMinConfirmation undefined).blinded_tokens = [] := by
  have h := denormMinConfirmation_eq undefined
  refine ⟨by decide, by decide, ?_, ?_, Double.denormMin_div_two, Double.ceil_zero,
    Double.toInt_zero undefined, token_count_denormMin undefined, ?_, ?_, ?_, ?_⟩
  · simp only [ieeeOps]
    decide
  · simp only [ieeeOps]
    decide
  · rw [GenerateTokensForValue, token_count_denormMin]
    rfl
  · rw [h]
    rfl
  · rw [h]
  · rw [h]

/-! ## C19: the token fields of a confirmation -/

/-- In the confirmation returned by `CreateConfirmation` the token fields are
assigned together or not at all.  It has an unblinded token exactly when it has
a credential, which is exactly when the user is reward-eligible and the ledger
is not empty.  In that case `tokens` are the tokens generated for `value`,
`blinded_tokens` their blinding, `user_data` the serialized user data and the
credential is made from the spent token and the request payload of the
confirmation.  Otherwise the supplied user data is not stored: `tokens`,
`blinded_tokens`, `user_data`, `credential` and `unblinded_token` keep their
default empty values.  So non-empty `tokens`, `blinded_tokens` or `user_data`
imply a token and a credential, and when the generator, the blinding and the
JSON writer answer this call with something non-empty, the confirmation has an
unblinded token if and only if it has tokens, blinded tokens and user data. -/
theorem CreateConfirmation_token_fields (env : Env) (time : Time)
    (transaction_id creative_instance_id : String) (confirmation_type : ConfirmationType)
    (ad_type : AdType) (value : Double) (user_data : Value) (s : Confirmations) :
    ∀ confirmation s',
      CreateConfirmation env time transaction_id creative_instance_id confirmation_type
        ad_type value user_data s = (confirmation, s') →
      (confirmation.unblinded_token.isSome = true ↔ confirmation.credential.isSome = true) ∧
      (confirmation.credential.isSome = true ↔
        (env.ShouldRewardUser = true ∧ s.unblinded_tokens ≠ [])) ∧
      (confirmation.credential.isSome = true →
        confirmation.tokens = GenerateTokensForValue env value ∧
        confirmation.blinded_tokens = env.BlindTokens confirmation.tokens ∧
        confirmation.user_data = env.JSONWrite user_data ∧
        ∃ t, confirmation.unblinded_token = some t ∧
          confirmation.credential = some (env.CreateCredential t
            (env.CreateConfirmationRequestDTO { confirmation with credential := none }))) ∧
      (confirmation.credential.isSome = false →
        confirmation.unblinded_token = none ∧ confirmation.tokens = [] ∧
        confirmation.blinded_tokens = [] ∧ confirmation.user_data = "" ∧
        confirmation.credential = none) ∧
      (confirmation.tokens ≠ [] → confirmation.credential.isSome = true) ∧
      (confirmation.blinded_tokens ≠ [] → confirmation.credential.isSome = true) ∧
      (confirmation.user_data ≠ "" → confirmation.credential.isSome = true) ∧
      (GenerateTokensForValue env value ≠ [] →
        env.BlindTokens (GenerateTokensForValue env value) ≠ [] →
        env.JSONWrite user_data ≠ "" →
        (confirmation.unblinded_token.isSome = true ↔
          (confirmation.tokens ≠ [] ∧ confirmation.blinded_tokens ≠ [] ∧
            confirmation.user_data ≠ ""))) := by
  intro confirmation s' hc
  by_cases hr : env.ShouldRewardUser = true
  · cases ht : s.unblinded_tokens with
    | nil =>
        rw [CreateConfirmation_unrewarded _ _ _ _ _ _ _ _ _ (Or.inr ht)] at hc
        cases hc
        simp
    | cons t rest =>
        rw [CreateConfirmation_rewarded _ _ _ _ _ _ _ _ _ t rest hr ht] at hc
        cases hc
        simp [hr]
        intro h1 h2 h3
        exact ⟨h1, h2, h3⟩
  · rw [CreateConfirmation_unrewarded _ _ _ _ _ _ _ _ _ (Or.inl (by simpa using hr))] at hc
    cases hc
    simp [hr]

/-- C19, on the code.  For the value 5e-324 and the smallest denomination
2.0 the generator is asked for no token (`token_count` is 0), so the
confirmation built on `sampleState` has an unblinded token, a credential and
serialized user data, but no tokens and no blinded tokens: the token fields
are not set all together. -/
theorem C19_credential_without_tokens (undefined : Double → Int) :
    sampleState.unblinded_tokens = [⟨"unblinded-1"⟩, ⟨"unblinded-2"⟩] ∧
    (ieeeEnv undefined).ShouldRewardUser = true ∧
    token_count (ieeeEnv undefined) Double.denormMin = 0 ∧
    (denormMinConfirmation undefined).unblinded_token = some ⟨"unblinded-1"⟩ ∧
    (denormMinConfirmation undefined).credential = some "unblinded-1/guid-9/user-data" ∧
    (denormMinConfirmation undefined).user_data = "user-data" ∧
    (denormMinConfirmation undefined).tokens = [] ∧
    (denormMinConfirmation undefined).blinded_tokens = [] ∧
    ¬ ((denormMinConfirmation undefined).credential.isSome = true ↔
        ((denormMinConfirmation undefined).tokens ≠ [] ∧
          (denormMinConfirmation undefined).blinded_tokens ≠ [] ∧
          (denormMinConfirmation undefined).user_data ≠ "")) := by
  have h := denormMinConfirmation_eq undefined
  refine ⟨rfl, rfl, token_count_denormMin undefined, ?_, ?_, ?_, ?_, ?_, ?_⟩
  · rw [h]
  · rw [h]
  · rw [h]
  · rw [h]
  · rw [h]
  · rw [h]
    intro hiff
    exact (hiff.mp rfl).1 rfl

end ads

namespace ledger

/-! ## Lists of optionals -/

theorem DerefAll_map_some {T : Type} (values : List T) :
    DerefAll (values.map some) = some values := by
  induction values with
  | nil => rfl
  | cons v rest ih => simp [DerefAll, ih]

theorem countP_isNone_set {T : Type} (l : List (Option T)) (k : Nat) (v : T)
    (h : l[k]? = some none) :
    (l.set k (some v)).countP (fun o => o.isNone) + 1 = l.countP (fun o => o.isNone) := by
  induction l generalizing k with
  | nil => simp at h
  | cons x rest ih =>
      cases k with
      | zero =>
          simp at h
          subst h
          simp [List.countP_cons]
      | succ k =>
          simp at h
          have := ih k h
          simp only [List.set_cons_succ, List.countP_cons]
          omega

theorem eq_map_some_of_full {T : Type} (futures : List T) (l : List (Option T))
    (hlen : l.length = futures.length)
    (hfull : l.countP (fun o => o.isNone) = 0)
    (hval : ∀ (k : Nat) (v : T), l[k]? = some (some v) → futures[k]? = some v) :
    l = futures.map some := by
  apply List.ext_getElem?
  intro k
  by_cases hk : k < l.length
  · have hk2 : k < futures.length := hlen ▸ hk
    rw [List.getElem?_map, List.getElem?_eq_getElem hk, List.getElem?_eq_getElem hk2]
    have hmem : l[k] ∈ l := List.getElem_mem _
    have hnn : ¬ (l[k]).isNone = true := by
      intro hn
      have : 0 < l.countP (fun o => o.isNone) :=
        List.countP_pos_iff.mpr ⟨l[k], hmem, hn⟩
      omega
    cases hx : l[k] with
    | none => rw [hx] at hnn; simp at hnn
    | some v =>
        have := hval k v (by rw [List.getElem?_eq_getElem hk, hx])
        rw [List.getElem?_eq_getElem hk2] at this
        simp at this
        simp [this]
  · have hk2 : ¬ k < futures.length := hlen ▸ hk
    rw [List.getElem?_map, List.getElem?_eq_none (by omega), List.getElem?_eq_none (by omega)]
    rfl

theorem Decrement_eq (remaining : Nat) (h1 : 0 < remaining) (h2 : remaining < kSizeModulus) :
    Decrement remaining = remaining - 1 := by
  unfold Decrement
  have : remaining + kSizeModulus - 1 = (remaining - 1) + kSizeModulus := by omega
  rw [this, Nat.add_mod_right, Nat.mod_eq_of_lt (by omega)]

theorem FutureJoin_OnComplete_eq {T : Type} (index : Nat) (value : T) (j : FutureJoin T) :
    FutureJoin.OnComplete index value j = FutureVectorJoin.OnComplete index value j := by
  rfl

/-! ## The invariant of a join -/

theorem JoinInvariant_vector_started {T : Type} (futures : List T) :
    JoinInvariant futures 0
      ({ started_ := true, remaining_ := futures.length } : FutureVectorJoin T) := by
  refine ⟨by simp, by simp, by simp, by simp, by simp, by simp, by simp, by simp [emptySlots], ?_⟩
  by_cases h : futures.length = 0
  · simp [h]
  · simp [h]

theorem JoinInvariant_pack_started {T : Type} (futures : List T) :
    JoinInvariant futures 0
      ({ (FutureJoin.new futures.length : FutureJoin T) with started_ := true }) := by
  refine ⟨by simp, by simp [FutureJoin.new], by simp [FutureJoin.new], ?_, by simp [FutureJoin.new],
    ?_, by simp [FutureJoin.new], ?_, ?_⟩
  · intro k _ hk
    simp only [FutureJoin.new, List.length_replicate] at hk
    simp [FutureJoin.new, List.getElem?_replicate, hk]
  · intro k v hk
    simp only [FutureJoin.new, List.getElem?_replicate] at hk
    split at hk <;> simp at hk
  · simp [FutureJoin.new, emptySlots, List.countP_replicate]
  · by_cases h : futures.length = 0
    · simp [FutureJoin.new, h]
    · simp [FutureJoin.new, h]

theorem JoinInvariant_vector_attached {T : Type} (futures : List T) (i : Nat)
    (j : FutureVectorJoin T) (h : JoinInvariant futures i j)
    (hlen : j.optionals_.length = i) (hi : i < futures.length) :
    JoinInvariant futures (i + 1) (FutureVectorJoin.AddFuture i j) ∧
    (FutureVectorJoin.AddFuture i j).optionals_.length = i + 1 := by
  obtain ⟨_, _, hA, _, hB, hC, hE, hG, hF⟩ := h
  have hnot : i ∉ j.handlers := fun hm => by
    have := ((hA i).mp hm).1
    omega
  refine ⟨⟨?_, ?_, ?_, ?_, ?_, ?_, ?_, ?_, ?_⟩, ?_⟩
  · simp [FutureVectorJoin.AddFuture, hlen]
  · simp [FutureVectorJoin.AddFuture, hlen]
    omega
  · intro k
    simp only [FutureVectorJoin.AddFuture, List.mem_append, List.mem_singleton]
    constructor
    · rintro (hk | hk)
      · obtain ⟨hk1, hk2⟩ := (hA k).mp hk
        refine ⟨by omega, ?_⟩
        rw [List.getElem?_append_left (by omega)]
        exact hk2
      · subst hk
        refine ⟨by omega, ?_⟩
        rw [List.getElem?_append_right (by omega)]
        simp [hlen]
    · rintro ⟨hk1, hk2⟩
      by_cases hk : k < i
      · left
        rw [List.getElem?_append_left (by omega)] at hk2
        exact (hA k).mpr ⟨hk, hk2⟩
      · right
        omega
  · intro k hk1 hk2
    simp [FutureVectorJoin.AddFuture, hlen] at hk2
    omega
  · simp only [FutureVectorJoin.AddFuture]
    exact List.Nodup.append hB (List.nodup_singleton i)
      (by simpa [List.disjoint_singleton] using hnot)
  · intro k v hk
    simp only [FutureVectorJoin.AddFuture] at hk
    by_cases hk1 : k < i
    · rw [List.getElem?_append_left (by omega)] at hk
      exact hC k v hk
    · rw [List.getElem?_append_right (by omega)] at hk
      rw [hlen] at hk
      cases hd : k - i with
      | zero => rw [hd] at hk; simp at hk
      | succ d => rw [hd] at hk; simp at hk
  · simp only [FutureVectorJoin.AddFuture, List.length_append, List.length_singleton]
    omega
  · simp only [emptySlots] at hG
    simp only [FutureVectorJoin.AddFuture, emptySlots, List.length_append,
      List.length_singleton, List.countP_append, List.countP_singleton, Option.isNone_none,
      if_true]
    omega
  · simpa [FutureVectorJoin.AddFuture] using hF
  · simp [FutureVectorJoin.AddFuture, hlen]

theorem JoinInvariant_pack_attached {T : Type} (futures : List T) (i : Nat)
    (j : FutureJoin T) (h : JoinInvariant futures i j)
    (hlen : j.optionals_.length = futures.length) (hi : i < futures.length) :
    JoinInvariant futures (i + 1) (FutureJoin.AddHandler i j) ∧
    (FutureJoin.AddHandler i j).optionals_.length = futures.length := by
  obtain ⟨_, hL, hA, hA', hB, hC, hE, hG, hF⟩ := h
  have hnot : i ∉ j.handlers := fun hm => by
    have := ((hA i).mp hm).1
    omega
  refine ⟨⟨?_, hL, ?_, ?_, ?_, hC, ?_, hG, hF⟩, hlen⟩
  · simp only [FutureJoin.AddHandler]
    omega
  · intro k
    simp only [FutureJoin.AddHandler, List.mem_append, List.mem_singleton]
    constructor
    · rintro (hk | hk)
      · obtain ⟨hk1, hk2⟩ := (hA k).mp hk
        exact ⟨by omega, hk2⟩
      · subst hk
        exact ⟨by omega, hA' k (Nat.le_refl _) (by omega)⟩
    · rintro ⟨hk1, hk2⟩
      by_cases hk : k < i
      · left
        exact (hA k).mpr ⟨hk, hk2⟩
      · right
        omega
  · intro k hk1 hk2
    exact hA' k (by omega) hk2
  · simp only [FutureJoin.AddHandler]
    exact List.Nodup.append hB (List.nodup_singleton i)
      (by simpa [List.disjoint_singleton] using hnot)
  · simp only [FutureJoin.AddHandler, List.length_append, List.length_singleton]
    omega

theorem JoinInvariant_completed {T : Type} (futures : List T)
    (hsize : futures.length < kSizeModulus) (i : Nat) (j : FutureVectorJoin T)
    (h : JoinInvariant futures i j) (index : Nat) (value : T)
    (hm : index ∈ j.handlers) (hv : futures[index]? = some value) :
    0 < j.remaining_ ∧ Decrement j.remaining_ = j.remaining_ - 1 ∧
    ∃ j', FutureVectorJoin.OnComplete index value
        { j with handlers := j.handlers.erase index } = some j' ∧
      JoinInvariant futures i j' ∧
      j'.optionals_ = j.optionals_.set index (some value) ∧
      j'.remaining_ = j.remaining_ - 1 ∧
      j'.handlers = j.handlers.erase index ∧
      j'.promise_ = (if j.remaining_ = 1 then [futures] else []) := by
  obtain ⟨h1, hL, hA, hA', hB, hC, hE, hG, hF⟩ := h
  obtain ⟨hidx, hnone⟩ := (hA index).mp hm
  have hlt : index < j.optionals_.length := by
    obtain ⟨hh, _⟩ := List.getElem?_eq_some_iff.mp hnone
    exact hh
  have hlen : 0 < j.handlers.length := List.length_pos_of_mem hm
  have hpos : 0 < j.remaining_ := by omega
  have hcount : emptySlots j ≤ j.optionals_.length := List.countP_le_length _
  have hle : j.remaining_ ≤ futures.length := by omega
  have hdec : Decrement j.remaining_ = j.remaining_ - 1 :=
    Decrement_eq _ hpos (by omega)
  have hold : j.promise_ = [] := by
    rw [hF]
    simp
    intro h0
    omega
  have hset : emptySlots { j with optionals_ := j.optionals_.set index (some value) } + 1
      = emptySlots j := countP_isNone_set j.optionals_ index value hnone
  simp only [emptySlots] at hset hG hcount
  -- the invariant of the state after the handler, whatever the promise holds
  have hinv : ∀ p : List (List T),
      p = (if j.remaining_ - 1 = 0 ∧ 0 < futures.length then [futures] else []) →
      JoinInvariant futures i
        { promise_ := p, optionals_ := j.optionals_.set index (some value),
          remaining_ := j.remaining_ - 1, started_ := j.started_,
          handlers := j.handlers.erase index } := by
    intro p hp
    refine ⟨by simpa using h1, by simpa using hL, ?_, ?_, hB.erase index, ?_, ?_, ?_, hp⟩
    · intro k
      simp only [hB.mem_erase_iff]
      by_cases hk : k = index
      · subst hk
        simp [List.getElem?_set_self hlt]
      · rw [List.getElem?_set_ne (Ne.symm hk)]
        simp [hk, hA k]
    · intro k hk1 hk2
      have hk : index ≠ k := by omega
      simp only [List.length_set] at hk2
      simp only []
      rw [List.getElem?_set_ne hk]
      exact hA' k hk1 hk2
    · intro k v hk
      by_cases hki : index = k
      · subst hki
        simp only [List.getElem?_set_self hlt] at hk
        simp at hk
        rw [← hk]
        exact hv
      · simp only [] at hk
        rw [List.getElem?_set_ne hki] at hk
        exact hC k v hk
    · simp only [List.length_erase_of_mem hm]
      omega
    · simp only [emptySlots, List.length_set]
      omega
  refine ⟨hpos, hdec, ?_⟩
  by_cases hr : j.remaining_ = 1
  · -- the last handler: the promise is set
    have hlen2 : j.optionals_.length = futures.length := by omega
    have hfull : (j.optionals_.set index (some value)).countP (fun o => o.isNone) = 0 := by
      omega
    have hn : 0 < futures.length := by omega
    have hvals : j.optionals_.set index (some value) = futures.map some := by
      apply eq_map_some_of_full futures _ (by simpa using hlen2) hfull
      intro k v hk
      by_cases hki : index = k
      · subst hki
        simp only [List.getElem?_set_self hlt] at hk
        simp at hk
        rw [← hk]
        exact hv
      · rw [List.getElem?_set_ne hki] at hk
        exact hC k v hk
    refine ⟨{ promise_ := [futures], optionals_ := j.optionals_.set index (some value),
              remaining_ := j.remaining_ - 1, started_ := j.started_,
              handlers := j.handlers.erase index }, ?_, ?_, rfl, rfl, rfl, by simp [hr]⟩
    · have hz : Decrement j.remaining_ = 0 := by rw [hdec]; omega
      have hz2 : j.remaining_ - 1 = 0 := by omega
      simp [FutureVectorJoin.OnComplete, hlt, hz, hz2, hvals, DerefAll_map_some, hold]
    · exact hinv _ (by simp [hr, hn])
  · refine ⟨{ promise_ := [], optionals_ := j.optionals_.set index (some value),
              remaining_ := j.remaining_ - 1, started_ := j.started_,
              handlers := j.handlers.erase index }, ?_, ?_, rfl, rfl, rfl, by simp [hr]⟩
    · have hne : ¬ (Decrement j.remaining_ = 0) := by rw [hdec]; omega
      simp [FutureVectorJoin.OnComplete, hlt, hne, hold, hdec]
      intro hz
      omega
    · have hne : ¬ (j.remaining_ - 1 = 0) := by omega
      exact hinv _ (by simp [hne])

theorem JoinInvariant_full {T : Type} (futures : List T) (i : Nat) (j : FutureVectorJoin T)
    (h : JoinInvariant futures i j) (hr : j.remaining_ = 0) :
    DerefAll j.optionals_ = some futures := by
  obtain ⟨_, hL, _, _, _, hC, _, hG, _⟩ := h
  simp only [emptySlots] at hG
  have hvals : j.optionals_ = futures.map some :=
    eq_map_some_of_full futures _ (by omega) (by omega) hC
  rw [hvals, DerefAll_map_some]

theorem VectorJoining_invariant {T : Type} (futures : List T)
    (hsize : futures.length < kSizeModulus) (i : Nat) (j : FutureVectorJoin T)
    (h : VectorJoining futures i j) :
    JoinInvariant futures i j ∧ j.optionals_.length = i := by
  induction h with
  | started => exact ⟨JoinInvariant_vector_started futures, rfl⟩
  | attached i j _ hi ih => exact JoinInvariant_vector_attached futures i j ih.1 ih.2 hi
  | completed i j j' index value _ hm hv hc ih =>
      obtain ⟨_, _, j2, hc2, hinv, hopt, _⟩ :=
        JoinInvariant_completed futures hsize i j ih.1 index value hm hv
      rw [hc] at hc2
      cases hc2
      exact ⟨hinv, by rw [hopt, List.length_set]; exact ih.2⟩

theorem PackJoining_invariant {T : Type} (futures : List T)
    (hsize : futures.length < kSizeModulus) (i : Nat) (j : FutureJoin T)
    (h : PackJoining futures i j) :
    JoinInvariant futures i j ∧ j.optionals_.length = futures.length := by
  induction h with
  | started => exact ⟨JoinInvariant_pack_started futures, by simp [FutureJoin.new]⟩
  | attached i j _ hi ih => exact JoinInvariant_pack_attached futures i j ih.1 ih.2 hi
  | completed i j j' index value _ hm hv hc ih =>
      obtain ⟨_, _, j2, hc2, hinv, hopt, _⟩ :=
        JoinInvariant_completed futures hsize i j ih.1 index value hm hv
      rw [FutureJoin_OnComplete_eq, hc2] at hc
      cases hc
      exact ⟨hinv, by rw [hopt, List.length_set]; exact ih.2⟩

theorem VectorJoining_loop {T : Type} (futures : List T) (k : Nat) (hk : k ≤ futures.length) :
    VectorJoining futures k
      ((List.range k).foldl (fun j i => FutureVectorJoin.AddFuture i j)
        ({ started_ := true, remaining_ := futures.length } : FutureVectorJoin T)) := by
  induction k with
  | zero => exact VectorJoining.started
  | succ k ih =>
      rw [List.range_succ, List.foldl_append]
      exact VectorJoining.attached k _ (ih (by omega)) (by omega)

theorem JoinFutures_joining {T : Type} (futures : List T) :
    VectorJoining futures futures.length (JoinFutures futures) :=
  VectorJoining_loop futures futures.length (Nat.le_refl _)

theorem PackJoining_loop {T : Type} (futures : List T) (rest i : Nat) (j : FutureJoin T)
    (h : PackJoining futures i j) (hk : i + rest = futures.length) :
    PackJoining futures futures.length (FutureJoin.AddHandlers i rest j) := by
  induction rest generalizing i j with
  | zero =>
      have : i = futures.length := by omega
      subst this
      exact h
  | succ rest ih =>
      exact ih (i + 1) _ (PackJoining.attached i j h (by omega)) (by omega)

theorem JoinFuturesPack_joining {T : Type} (futures : List T) :
    PackJoining futures futures.length (JoinFuturesPack futures) :=
  PackJoining_loop futures futures.length 0 _ PackJoining.started (by omega)

/-! ## C15: the joined promise of a vector of futures -/

/-- C15. Let `futures` be a vector of futures and `j` any state of the join
object that `JoinFutures` creates, after the loop of `AddFutures` has handed out
`i` handlers (`i = futures.length` once `JoinFutures` has returned) and some of
the futures have completed, in any order, each once.  The promise has been set
at most once, and only to the values of the futures in input order; it has been
set exactly when the input is not empty and every future has completed.  Each
further completion is defined, and it sets the promise exactly when it is the
last one: the handler of the only future that has not completed yet. -/
theorem C15_joined_promise_of_vector {T : Type} (futures : List T)
    (hsize : futures.length < kSizeModulus) (i : Nat) (j : FutureVectorJoin T)
    (h : VectorJoining futures i j) :
    VectorJoining futures futures.length (JoinFutures futures) ∧
    (j.promise_ = [] ∨ j.promise_ = [futures]) ∧
    (j.promise_ = [futures] ↔
      (0 < futures.length ∧ i = futures.length ∧ j.handlers = [])) ∧
    (∀ (index : Nat) (value : T), index ∈ j.handlers → futures[index]? = some value →
      ∃ j', FutureVectorJoin.OnComplete index value
          { j with handlers := j.handlers.erase index } = some j' ∧
        VectorJoining futures i j' ∧
        j'.handlers = j.handlers.erase index ∧
        j'.promise_ =
          (if i = futures.length ∧ j.handlers = [index] then [futures] else [])) := by
  obtain ⟨hinv, hlen⟩ := VectorJoining_invariant futures hsize i j h
  have hinv' := hinv
  obtain ⟨_, hL, _, _, _, _, hE, _, hF⟩ := hinv
  refine ⟨JoinFutures_joining futures, ?_, ?_, ?_⟩
  · rw [hF]
    split
    · exact Or.inr rfl
    · exact Or.inl rfl
  · rw [hF]
    constructor
    · intro hp
      split at hp
      · rename_i hc
        exact ⟨hc.2, by omega, List.length_eq_zero.mp (by omega)⟩
      · cases hp
    · rintro ⟨hn, hi, hh⟩
      have : j.remaining_ = 0 := by
        rw [hE, hh, hi]
        simp
      simp [this, hn]
  · intro index value hm hv
    obtain ⟨_, _, j2, hc2, _, _, _, hh2, hp2⟩ :=
      JoinInvariant_completed futures hsize i j hinv' index value hm hv
    refine ⟨j2, hc2, VectorJoining.completed i j j2 index value h hm hv hc2, hh2, ?_⟩
    rw [hp2]
    have hpos : 0 < j.handlers.length := List.length_pos_of_mem hm
    by_cases hr : j.remaining_ = 1
    · have h1 : j.handlers.length = 1 := by omega
      have h2 : i = futures.length := by omega
      obtain ⟨a, ha⟩ := List.length_eq_one.mp h1
      have : a = index := by
        rw [ha] at hm
        exact (List.mem_singleton.mp hm).symm
      subst this
      simp [hr, h2, ha]
    · have : ¬ (i = futures.length ∧ j.handlers = [index]) := by
        rintro ⟨h2, h3⟩
        apply hr
        rw [hE, h3, h2]
        simp
      simp [hr, this]

theorem sampleFutures_size : sampleFutures.length < kSizeModulus := by
  decide

theorem twoOfThree_joining : VectorJoining sampleFutures 3 twoOfThree := by
  have h0 : VectorJoining sampleFutures 3 (JoinFutures sampleFutures) :=
    JoinFutures_joining sampleFutures
  have h1 : VectorJoining sampleFutures 3
      { started_ := true, remaining_ := 2, optionals_ := [none, none, some 30]
        handlers := [0, 1] } :=
    VectorJoining.completed 3 _ _ 2 30 h0 (by decide) rfl (by decide)
  exact VectorJoining.completed 3 _ _ 0 10 h1 (by decide) rfl (by decide)

/-- C15 on `sampleFutures`, after the futures 2 and 0 have completed
(`twoOfThree`): the promise is not set yet; when future 1 completes with 20 the
promise is set to `[10, 20, 30]`, the input order. -/
theorem C15_joined_promise_of_vector_witness :
    twoOfThree.promise_ = [] ∧
    ∃ j', FutureVectorJoin.OnComplete 1 20
        { twoOfThree with handlers := twoOfThree.handlers.erase 1 } = some j' ∧
      VectorJoining sampleFutures 3 j' ∧
      j'.handlers = twoOfThree.handlers.erase 1 ∧
      j'.promise_ =
        (if 3 = sampleFutures.length ∧ twoOfThree.handlers = [1] then [sampleFutures]
          else []) :=
  ⟨rfl,
   (C15_joined_promise_of_vector sampleFutures sampleFutures_size 3 twoOfThree
      twoOfThree_joining).2.2.2 1 20 (by decide) rfl⟩

/-! ## C16: joining an empty vector -/

theorem VectorJoining_nil {T : Type} (i : Nat) (j : FutureVectorJoin T)
    (h : VectorJoining ([] : List T) i j) :
    i = 0 ∧ j = { started_ := true, remaining_ := 0 } := by
  induction h with
  | started => exact ⟨rfl, rfl⟩
  | attached i j _ hi _ => simp at hi
  | completed i j j' index value _ _ hv _ _ => simp at hv

/-- C16, on the code. `JoinFutures` of an empty vector returns with
`remaining_ = 0`, no handler handed out and the promise not set; the join object
never leaves that state, so the promise is never set and the returned future
never resolves. -/
theorem C16_empty_vector_never_resolves :
    JoinFutures ([] : List Nat) = { started_ := true, remaining_ := 0 } ∧
    (JoinFutures ([] : List Nat)).promise_ = [] ∧
    (JoinFutures ([] : List Nat)).handlers = [] ∧
    (∀ (i : Nat) (j : FutureVectorJoin Nat), VectorJoining ([] : List Nat) i j →
      j = JoinFutures ([] : List Nat) ∧ j.promise_ = []) := by
  refine ⟨rfl, rfl, rfl, ?_⟩
  intro i j h
  obtain ⟨_, hj⟩ := VectorJoining_nil i j h
  subst hj
  exact ⟨rfl, rfl⟩

/-! ## C17: `remaining_` and the empty slots -/

/-- C17. Let every input future complete once.  In every state of a
`FutureVectorJoin` and of a `FutureJoin`, `remaining_` is the number of empty
slots (for the vector join while `AddFutures` is still in its loop: plus the
number of slots not pushed yet), and whenever a handler runs, `remaining_ > 0`
holds on entry, the decrement does not wrap around, `OnComplete` is defined
(no slot outside `optionals_` is written) and, when it has brought `remaining_`
to zero, every slot it reads holds a value: the dereferences give the values of
the futures. -/
theorem C17_remaining_counts_empty_slots {T : Type} (futures : List T)
    (hsize : futures.length < kSizeModulus) :
    (∀ (i : Nat) (j : FutureVectorJoin T), VectorJoining futures i j →
      j.remaining_ = emptySlots j + (futures.length - j.optionals_.length) ∧
      (i = futures.length → j.remaining_ = emptySlots j) ∧
      ∀ (index : Nat) (value : T), index ∈ j.handlers → futures[index]? = some value →
        0 < j.remaining_ ∧ Decrement j.remaining_ = j.remaining_ - 1 ∧
        ∃ j', FutureVectorJoin.OnComplete index value
            { j with handlers := j.handlers.erase index } = some j' ∧
          j'.remaining_ = j.remaining_ - 1 ∧
          j'.remaining_ = emptySlots j' + (futures.length - j'.optionals_.length) ∧
          (j'.remaining_ = 0 → DerefAll j'.optionals_ = some futures)) ∧
    (∀ (i : Nat) (j : FutureJoin T), PackJoining futures i j →
      j.remaining_ = emptySlots j ∧
      ∀ (index : Nat) (value : T), index ∈ j.handlers → futures[index]? = some value →
        0 < j.remaining_ ∧ Decrement j.remaining_ = j.remaining_ - 1 ∧
        ∃ j', FutureJoin.OnComplete index value
            { j with handlers := j.handlers.erase index } = some j' ∧
          j'.remaining_ = j.remaining_ - 1 ∧
          j'.remaining_ = emptySlots j' ∧
          (j'.remaining_ = 0 → DerefAll j'.optionals_ = some futures)) := by
  constructor
  · intro i j h
    obtain ⟨hinv, hlen⟩ := VectorJoining_invariant futures hsize i j h
    have hG := hinv.2.2.2.2.2.2.2.1
    refine ⟨hG, ?_, ?_⟩
    · intro hi
      rw [hG, hlen, hi]
      simp
    · intro index value hm hv
      obtain ⟨hpos, hdec, j2, hc2, hinv2, _, hr2, _, _⟩ :=
        JoinInvariant_completed futures hsize i j hinv index value hm hv
      exact ⟨hpos, hdec, j2, hc2, hr2, hinv2.2.2.2.2.2.2.2.1,
        JoinInvariant_full futures i j2 hinv2⟩
  · intro i j h
    obtain ⟨hinv, hlen⟩ := PackJoining_invariant futures hsize i j h
    have hG := hinv.2.2.2.2.2.2.2.1
    refine ⟨by rw [hG, hlen]; simp, ?_⟩
    intro index value hm hv
    obtain ⟨hpos, hdec, j2, hc2, hinv2, hopt, hr2, _, _⟩ :=
      JoinInvariant_completed futures hsize i j hinv index value hm hv
    refine ⟨hpos, hdec, j2, hc2, hr2, ?_, JoinInvariant_full futures i j2 hinv2⟩
    have hG2 := hinv2.2.2.2.2.2.2.2.1
    rw [hG2, hopt, List.length_set, hlen]
    simp

theorem oneOfThree_joining : PackJoining sampleFutures 3 oneOfThree :=
  PackJoining.completed 3 _ _ 1 20 (JoinFuturesPack_joining sampleFutures) (by decide) rfl
    (by decide)

/-- C17 on `sampleFutures`: in the vector join `twoOfThree` and in the pack join
`oneOfThree`, `remaining_` is the number of empty slots (1 and 2), and the
handler of future 0 finds `remaining_ = 2 > 0` in `oneOfThree`. -/
theorem C17_remaining_counts_empty_slots_witness :
    sampleFutures.length < kSizeModulus ∧
    twoOfThree.remaining_ = emptySlots twoOfThree ∧
    oneOfThree.remaining_ = emptySlots oneOfThree ∧
    0 < oneOfThree.remaining_ :=
  ⟨sampleFutures_size,
   ((C17_remaining_counts_empty_slots sampleFutures sampleFutures_size).1 3 twoOfThree
      twoOfThree_joining).2.1 rfl,
   ((C17_remaining_counts_empty_slots sampleFutures sampleFutures_size).2 3 oneOfThree
      oneOfThree_joining).1,
   (((C17_remaining_counts_empty_slots sampleFutures sampleFutures_size).2 3 oneOfThree
      oneOfThree_joining).2 0 10 (by decide) rfl).1⟩

end ledger
